import Mathlib

/-! # SmartAudio VTX driver (`src/main/io/vtx_smartaudio.c`)

A shallow embedding of the SmartAudio protocol engine: the CRC, the byte-wise
receive framer, the response processor, the command encoders, the command
queue with its retransmission slot, the autobaud controller and the periodic
entry point.

Conventions of the embedding.

* All file-scope and function-static variables of the C file are the fields of
  one record, `SAState`; every C function is a function on that record.
* `uint8_t` and `uint16_t` values are naturals, reduced modulo `2^8` / `2^16`
  where the C code can overflow.  `int8_t` and `int` values are integers,
  wrapped by `toI8` / `toI32` (two's complement, as on the target).
* Arrays are lists.  A read outside a list yields `0` and a write outside it
  is dropped; neither happens in a state the driver can reach from its
  initial state.
* The static command buffers are addressed through `CmdBuf`, because the queue
  stores pointers to them, not copies.
* Calls into collaborators are recorded in the record: `serialOut` (bytes
  handed to `serialWrite`), `baudLog` (arguments of `serialSetBaudRate`),
  `statusUpdates` (calls of `smartAudioUpdateStatusString`) and `respLog`
  (arguments of the calls of `saProcessResponse`).
-/

namespace SmartAudio

/-! ## Machine integers -/

/-- Conversion to `uint8_t`. -/
def toU8 (x : Int) : Nat := (x % 256).toNat

/-- Conversion to `uint16_t`. -/
def toU16 (x : Int) : Nat := (x % 65536).toNat

/-- Conversion to `int8_t` (two's complement). -/
def toI8 (x : Int) : Int := (x + 128) % 256 - 128

/-- Result of 32-bit `int` arithmetic (two's complement wrap). -/
def toI32 (x : Int) : Int := (x + 2147483648) % 4294967296 - 2147483648

/-- The 32-bit two's complement bit pattern of an `int`, for `&`. -/
def bits32 (x : Int) : Nat := (x % 4294967296).toNat

/-- Array read `a[i]` with an `int` index. -/
def rd (a : List Nat) (i : Int) : Nat := if 0 ≤ i then a.getD i.toNat 0 else 0

/-- Array write `a[i] = v` with an `int` index. -/
def wr (a : List Nat) (i : Int) (v : Nat) : List Nat := if 0 ≤ i then a.set i.toNat v else a

/-! ## Constants -/

def SA_CMD_NONE : Nat := 0x00
def SA_CMD_GET_SETTINGS : Nat := 0x01
def SA_CMD_SET_POWER : Nat := 0x02
def SA_CMD_SET_CHAN : Nat := 0x03
def SA_CMD_SET_FREQ : Nat := 0x04
def SA_CMD_SET_MODE : Nat := 0x05
def SA_CMD_GET_SETTINGS_V2 : Nat := 0x09

/-- The macro `SACMD(cmd)`: `((cmd) << 1) | 1`. -/
def SACMD (cmd : Nat) : Nat := (cmd <<< 1) ||| 1

def SA_MODE_GET_FREQ_BY_FREQ : Nat := 1
def SA_MODE_GET_PITMODE : Nat := 2
def SA_MODE_GET_IN_RANGE_PITMODE : Nat := 4
def SA_MODE_GET_OUT_RANGE_PITMODE : Nat := 8
def SA_MODE_GET_UNLOCK : Nat := 16

def SA_FREQ_GETPIT : Nat := 1 <<< 14
def SA_FREQ_SETPIT : Nat := 1 <<< 15

def SA_MAX_RCVLEN : Int := 11

def POLYGEN : Nat := 0xd5

def SA_TXMODE_NODEF : Nat := 0
def SA_TXMODE_PIT_OUTRANGE : Nat := 1
def SA_TXMODE_PIT_INRANGE : Nat := 2
def SA_TXMODE_ACTIVE : Nat := 3

def SMARTBAUD_MIN : Nat := 4800
def SMARTBAUD_MAX : Nat := 4950

/-- The static `baudstep`, initialised to 50 and never assigned. -/
def baudstep : Int := 50

def SMARTAUDIO_CMD_TIMEOUT : Nat := 120

def SA_QSIZE : Nat := 4

/-! ## CRC8 -/

/-- One pass of the inner loop of `CRC8`: shift left, and XOR the generator in
when the high bit was set before the shift.  The result is a `uint8_t`. -/
def crcShift (crc : Nat) : Nat :=
  if crc &&& 0x80 ≠ 0 then ((crc <<< 1) ^^^ POLYGEN) % 256 else (crc <<< 1) % 256

/-- One pass of the outer loop of `CRC8`: XOR the byte in, then eight shifts. -/
def crcByte (crc currByte : Nat) : Nat :=
  crcShift (crcShift (crcShift (crcShift (crcShift (crcShift (crcShift (crcShift
    ((crc ^^^ currByte) % 256))))))))

/-- The function `CRC8(data, len)`; `len` is converted to the `int8_t` parameter. -/
def CRC8 (data : List Nat) (len : Int) : Nat :=
  (List.range (toI8 len).toNat).foldl (fun crc i => crcByte crc (data.getD i 0)) 0

/-! ## Tables -/

/-- The band/channel to frequency table. -/
def saFreqTable : List (List Nat) :=
  [ [5865, 5845, 5825, 5805, 5785, 5765, 5745, 5725],
    [5733, 5752, 5771, 5790, 5809, 5828, 5847, 5866],
    [5705, 5685, 5665, 5645, 5885, 5905, 5925, 5945],
    [5740, 5760, 5780, 5800, 5820, 5840, 5860, 5880],
    [5658, 5695, 5732, 5769, 5806, 5843, 5880, 5917] ]

/-- The read `saFreqTable[i][j]`. -/
def saFreqTableAt (i j : Int) : Nat :=
  if 0 ≤ i ∧ 0 ≤ j then (saFreqTable.getD i.toNat []).getD j.toNat 0 else 0

structure saPowerTable_t where
  rfpower : Int
  valueV1 : Int
  valueV2 : Int
deriving DecidableEq, Repr

def saPowerTable : List saPowerTable_t :=
  [ ⟨25, 7, 0⟩, ⟨200, 16, 1⟩, ⟨500, 25, 2⟩, ⟨800, 40, 3⟩ ]

/-- The read `saPowerTable[idx]`. -/
def saPowerTableAt (idx : Nat) : saPowerTable_t := saPowerTable.getD idx ⟨0, 0, 0⟩

/-- The function `saDacToPowerIndex`: the first `idx` in `0..3` with
`saPowerTable[idx].valueV1 <= dac`, and `3` when the loop runs out. -/
def saDacToPowerIndex (dac : Int) : Int :=
  match (List.range 4).find? (fun idx => decide ((saPowerTableAt idx).valueV1 ≤ dac)) with
  | some idx => idx
  | none => 3

/-! ## State -/

/-- The states of the receive framer. -/
inductive saFramerState_e where
  | S_WAITPRE1
  | S_WAITPRE2
  | S_WAITRESP
  | S_WAITLEN
  | S_DATA
  | S_WAITCRC
deriving DecidableEq, Repr

/-- The function-static command buffers a queue entry can point to. -/
inductive CmdBuf where
  | getSettings
  | setFreq
  | setBandChan
  | setMode
  | setPower
deriving DecidableEq, Repr

/-- A queue slot: a pointer to a command buffer (`none` is `NULL`) and a length. -/
structure saCmdQueue_t where
  buf : Option CmdBuf
  len : Int
deriving DecidableEq, Repr

/-- All variables of the driver, and the record of its calls to collaborators. -/
structure SAState where
  smartAudioSerialPort : Bool
  saerr_badpre : Nat
  saerr_badlen : Nat
  saerr_crc : Nat
  saerr_oooresp : Nat
  sa_rbuf : List Nat
  sa_vers : Int
  sa_chan : Int
  sa_power : Int
  sa_opmode : Int
  sa_freq : Nat
  sa_overs : Int
  sa_ochan : Int
  sa_opower : Int
  sa_oopmode : Int
  sa_ofreq : Nat
  sa_pitfreq : Nat
  smartAudioSmartbaud : Nat
  adjdir : Int
  sa_pktsent : Int
  sa_pktrcvd : Int
  sa_lastTransmission : Nat
  sa_outstanding : Nat
  sa_osbuf : List Nat
  sa_oslen : Int
  state : saFramerState_e
  len : Int
  dlen : Int
  sa_queue : List saCmdQueue_t
  sa_qhead : Nat
  sa_qtail : Nat
  bufGetSettings : List Nat
  bufSetFreq : List Nat
  bufSetBandChan : List Nat
  bufSetMode : List Nat
  bufSetPower : List Nat
  initialSent : Bool
  smartAudioBand : Nat
  smartAudioChan : Nat
  smartAudioPower : Nat
  smartAudioFreq : Nat
  smartAudioTxMode : Nat
  respLog : List (List Nat × Int)
  serialOut : List Nat
  baudLog : List Nat
  statusUpdates : Nat
deriving DecidableEq

/-- The variables as their static initialisers leave them. -/
def saInitial : SAState where
  smartAudioSerialPort := false
  saerr_badpre := 0
  saerr_badlen := 0
  saerr_crc := 0
  saerr_oooresp := 0
  sa_rbuf := List.replicate 15 0
  sa_vers := 0
  sa_chan := -1
  sa_power := -1
  sa_opmode := -1
  sa_freq := 0
  sa_overs := 0
  sa_ochan := 0
  sa_opower := 0
  sa_oopmode := 0
  sa_ofreq := 0
  sa_pitfreq := 0
  smartAudioSmartbaud := SMARTBAUD_MIN
  adjdir := 1
  sa_pktsent := 0
  sa_pktrcvd := 0
  sa_lastTransmission := 0
  sa_outstanding := SA_CMD_NONE
  sa_osbuf := List.replicate 32 0
  sa_oslen := 0
  state := .S_WAITPRE1
  len := 0
  dlen := 0
  sa_queue := List.replicate 4 ⟨none, 0⟩
  sa_qhead := 0
  sa_qtail := 0
  bufGetSettings := [0xAA, 0x55, SACMD SA_CMD_GET_SETTINGS, 0x00, 0x9F]
  bufSetFreq := [0xAA, 0x55, SACMD SA_CMD_SET_FREQ, 2, 0, 0, 0]
  bufSetBandChan := [0xAA, 0x55, SACMD SA_CMD_SET_CHAN, 1, 0, 0]
  bufSetMode := [0xAA, 0x55, SACMD SA_CMD_SET_MODE, 1, 0, 0]
  bufSetPower := [0xAA, 0x55, SACMD SA_CMD_SET_POWER, 1, 0, 0]
  initialSent := false
  smartAudioBand := 0
  smartAudioChan := 0
  smartAudioPower := 0
  smartAudioFreq := 0
  smartAudioTxMode := 0
  respLog := []
  serialOut := []
  baudLog := []
  statusUpdates := 0

/-- The function `smartAudioInit`, given whether `openSerialPort` returned a
port; the debug port and the configuration copy are not modelled. -/
def smartAudioInit (portOpened : Bool) (s : SAState) : SAState :=
  { s with smartAudioSerialPort := portOpened }

/-! ## Status display and autobaud -/

/-- The function `smartAudioUpdateStatusString`, the notification of the
status display.  Only the call is recorded; the text it formats is not
modelled. -/
def smartAudioUpdateStatusString (s : SAState) : SAState :=
  { s with statusUpdates := s.statusUpdates + 1 }

/-- The function `saAutobaud`. -/
def saAutobaud (s : SAState) : SAState :=
  if s.sa_pktsent < 10 then s
  else if (toI32 (s.sa_pktrcvd * 100)).tdiv s.sa_pktsent ≥ 70 then
    { s with sa_pktsent := 0, sa_pktrcvd := 0 }
  else
    let s : SAState :=
      if s.adjdir = 1 ∧ s.smartAudioSmartbaud = SMARTBAUD_MAX then { s with adjdir := -1 }
      else if s.adjdir = -1 ∧ s.smartAudioSmartbaud = SMARTBAUD_MIN then { s with adjdir := 1 }
      else s
    let baud : Nat := toU16 ((s.smartAudioSmartbaud : Int) + toI32 (baudstep * s.adjdir))
    let s : SAState := { s with smartAudioSmartbaud := baud }
    let s : SAState := { s with baudLog := s.baudLog ++ [s.smartAudioSmartbaud] }
    { s with sa_pktsent := 0, sa_pktrcvd := 0 }

/-! ## Response processor -/

/-- The first statement of `saProcessResponse`: the `if` / `else if` / `else`
that resolves the outstanding-command slot against the response code. -/
def saResolveOutstanding (resp : Nat) (s : SAState) : SAState :=
  if resp = s.sa_outstanding then { s with sa_outstanding := SA_CMD_NONE }
  else if resp = SA_CMD_GET_SETTINGS_V2 ∧ s.sa_outstanding = SA_CMD_GET_SETTINGS then
    { s with sa_outstanding := SA_CMD_NONE }
  else { s with saerr_oooresp := (s.saerr_oooresp + 1) % 65536 }

/-- The comparison of the received tuple with the previously stored one. -/
def saSettingsSame (s : SAState) : Prop :=
  s.sa_overs = s.sa_vers ∧ s.sa_ochan = s.sa_chan ∧ s.sa_opower = s.sa_power
    ∧ s.sa_oopmode = s.sa_opmode ∧ s.sa_ofreq = s.sa_freq

instance (s : SAState) : Decidable (saSettingsSame s) := by
  unfold saSettingsSame; infer_instance

/-- The body of `case SA_CMD_GET_SETTINGS_V2: case SA_CMD_GET_SETTINGS:` of
`saProcessResponse`. -/
def saGetSettingsCase (buf : List Nat) (len : Int) (s : SAState) : SAState :=
  if len < 7 then s
  else
    let s : SAState := { s with
      sa_vers := if rd buf 0 = SA_CMD_GET_SETTINGS then 1 else 2
      sa_chan := toI8 (rd buf 2)
      sa_power := toI8 (rd buf 3)
      sa_opmode := toI8 (rd buf 4)
      sa_freq := ((rd buf 5 <<< 8) ||| rd buf 6) % 65536 }
    if saSettingsSame s then s
    else
      let s : SAState := { s with
        smartAudioBand := toU8 (s.sa_chan.tdiv 8 + 1)
        smartAudioChan := toU8 (s.sa_chan.tmod 8 + 1)
        smartAudioFreq := saFreqTableAt (s.sa_chan.tdiv 8) (s.sa_chan.tmod 8) }
      let s : SAState := { s with
        smartAudioTxMode :=
          if bits32 s.sa_opmode &&& SA_MODE_GET_PITMODE = 0 then SA_TXMODE_ACTIVE
          else if bits32 s.sa_opmode &&& SA_MODE_GET_IN_RANGE_PITMODE ≠ 0 then
            SA_TXMODE_PIT_INRANGE
          else SA_TXMODE_PIT_OUTRANGE }
      let s : SAState := smartAudioUpdateStatusString s
      let s : SAState := { s with
        smartAudioPower :=
          if s.sa_vers = 2 then toU8 (s.sa_power + 1)
          else toU8 (saDacToPowerIndex s.sa_power + 1) }
      { s with
        sa_overs := s.sa_vers
        sa_ochan := s.sa_chan
        sa_opower := s.sa_power
        sa_oopmode := s.sa_opmode
        sa_ofreq := s.sa_freq }

/-- The body of `case SA_CMD_SET_FREQ:` of `saProcessResponse`. -/
def saSetFreqCase (buf : List Nat) (len : Int) (s : SAState) : SAState :=
  if len < 5 then s
  else
    let freq : Nat := ((rd buf 2 <<< 8) ||| rd buf 3) % 65536
    if freq &&& SA_FREQ_GETPIT ≠ 0 then
      let s : SAState := { s with
        sa_pitfreq := (freq &&& (0xFFFFFFFF ^^^ SA_FREQ_GETPIT)) % 65536 }
      smartAudioUpdateStatusString s
    else s

/-- The function `saProcessResponse(buf, len)`. -/
def saProcessResponse (buf : List Nat) (len : Int) (s : SAState) : SAState :=
  let s : SAState := { s with respLog := s.respLog ++ [(buf, len)] }
  let resp : Nat := rd buf 0
  let s : SAState := saResolveOutstanding resp s
  if resp = SA_CMD_GET_SETTINGS_V2 ∨ resp = SA_CMD_GET_SETTINGS then saGetSettingsCase buf len s
  else if resp = SA_CMD_SET_POWER then s
  else if resp = SA_CMD_SET_CHAN then s
  else if resp = SA_CMD_SET_FREQ then saSetFreqCase buf len s
  else if resp = SA_CMD_SET_MODE then s
  else s

/-! ## Receive framer -/

/-- The function `saReceiveFramer(c)`. -/
def saReceiveFramer (c : Nat) (s : SAState) : SAState :=
  match s.state with
  | .S_WAITPRE1 =>
    if c = 0xAA then { s with state := .S_WAITPRE2 } else { s with state := .S_WAITPRE1 }
  | .S_WAITPRE2 =>
    if c = 0x55 then { s with state := .S_WAITRESP }
    else { s with saerr_badpre := (s.saerr_badpre + 1) % 65536, state := .S_WAITPRE1 }
  | .S_WAITRESP => { s with sa_rbuf := wr s.sa_rbuf 0 c, state := .S_WAITLEN }
  | .S_WAITLEN =>
    let s : SAState := { s with sa_rbuf := wr s.sa_rbuf 1 c }
    let s : SAState := { s with len := (c : Int) }
    if s.len > SA_MAX_RCVLEN - 2 then
      { s with saerr_badlen := (s.saerr_badlen + 1) % 65536, state := .S_WAITPRE1 }
    else if s.len = 0 then { s with state := .S_WAITCRC }
    else { s with dlen := 0, state := .S_DATA }
  | .S_DATA =>
    let s : SAState := { s with sa_rbuf := wr s.sa_rbuf (toI32 (2 + s.dlen)) c }
    let s : SAState := { s with dlen := toI32 (s.dlen + 1) }
    if s.dlen = s.len then { s with state := .S_WAITCRC } else s
  | .S_WAITCRC =>
    let s : SAState :=
      if CRC8 s.sa_rbuf (toI32 (2 + s.len)) = c then
        let s : SAState := saProcessResponse s.sa_rbuf (toI32 (s.len + 2)) s
        { s with sa_pktrcvd := toI32 (s.sa_pktrcvd + 1) }
      else if rd s.sa_rbuf 0 &&& 1 ≠ 0 then s
      else { s with saerr_crc := (s.saerr_crc + 1) % 65536 }
    { s with state := .S_WAITPRE1 }

/-- The framer run over a sequence of received bytes, one call per byte. -/
def saReceiveBytes (bytes : List Nat) (s : SAState) : SAState :=
  bytes.foldl (fun s c => saReceiveFramer c s) s

/-! ## Output framer, retransmission slot and queue -/

/-- The function `saSendFrame(buf, len)`; `millis` is what `millis()` returns. -/
def saSendFrame (buf : List Nat) (len : Int) (millis : Nat) (s : SAState) : SAState :=
  let s : SAState := { s with serialOut := s.serialOut ++ [0x00] }
  let s : SAState := { s with serialOut := s.serialOut ++ (List.range len.toNat).map (fun i => buf.getD i 0) }
  let s : SAState := { s with serialOut := s.serialOut ++ [0x00] }
  let s : SAState := { s with sa_lastTransmission := millis % 4294967296 }
  { s with sa_pktsent := toI32 (s.sa_pktsent + 1) }

/-- The function `saResendCmd`. -/
def saResendCmd (millis : Nat) (s : SAState) : SAState :=
  saSendFrame s.sa_osbuf s.sa_oslen millis s

/-- The function `saSendCmd(buf, len)`, on the contents `buf` points to. -/
def saSendCmd (buf : List Nat) (len : Int) (millis : Nat) (s : SAState) : SAState :=
  let os : List Nat :=
    (List.range len.toNat).foldl (fun os i => os.set i (buf.getD i 0)) s.sa_osbuf
  let s : SAState := { s with sa_osbuf := os }
  let s : SAState := { s with sa_oslen := len }
  let s : SAState := { s with sa_outstanding := (buf.getD 2 0 >>> 1) % 256 }
  saSendFrame s.sa_osbuf s.sa_oslen millis s

/-- The contents a command-buffer pointer refers to. -/
def cmdBufContents (s : SAState) : Option CmdBuf → List Nat
  | none => []
  | some .getSettings => s.bufGetSettings
  | some .setFreq => s.bufSetFreq
  | some .setBandChan => s.bufSetBandChan
  | some .setMode => s.bufSetMode
  | some .setPower => s.bufSetPower

/-- The function `saQueueEmpty`. -/
def saQueueEmpty (s : SAState) : Bool := s.sa_qhead == s.sa_qtail

/-- The function `saQueueFull`. -/
def saQueueFull (s : SAState) : Bool := (s.sa_qhead + 1) % SA_QSIZE == s.sa_qtail

/-- The function `saQueueCmd(buf, len)`: the slot keeps the pointer. -/
def saQueueCmd (buf : CmdBuf) (len : Int) (s : SAState) : SAState :=
  if saQueueFull s then s
  else
    let s : SAState := { s with sa_queue := s.sa_queue.set s.sa_qhead ⟨some buf, len⟩ }
    { s with sa_qhead := (s.sa_qhead + 1) % SA_QSIZE }

/-- The function `saSendQueue`. -/
def saSendQueue (millis : Nat) (s : SAState) : SAState :=
  if saQueueEmpty s then s
  else
    let e := s.sa_queue.getD s.sa_qtail ⟨none, 0⟩
    let s : SAState := saSendCmd (cmdBufContents s e.buf) e.len millis s
    { s with sa_qtail := (s.sa_qtail + 1) % SA_QSIZE }

/-! ## Command encoders -/

/-- The function `saGetSettings`. -/
def saGetSettings (s : SAState) : SAState := saQueueCmd .getSettings 5 s

/-- The function `saSetFreq(freq)`. -/
def saSetFreq (freq : Nat) (s : SAState) : SAState :=
  let s : SAState := { s with bufSetFreq := s.bufSetFreq.set 4 ((freq >>> 8) &&& 0xff) }
  let s : SAState := { s with bufSetFreq := s.bufSetFreq.set 5 (freq &&& 0xff) }
  let s : SAState := { s with bufSetFreq := s.bufSetFreq.set 6 (CRC8 s.bufSetFreq 6) }
  saQueueCmd .setFreq 7 s

/-- The function `saSetPitFreq(freq)`. -/
def saSetPitFreq (freq : Nat) (s : SAState) : SAState :=
  saSetFreq ((freq ||| SA_FREQ_SETPIT) % 65536) s

/-- The function `saGetPitFreq`. -/
def saGetPitFreq (s : SAState) : SAState := saSetFreq SA_FREQ_GETPIT s

/-- The function `smartAudioSetBandChan(band, chan)`. -/
def smartAudioSetBandChan (band chan : Nat) (s : SAState) : SAState :=
  let s : SAState := { s with bufSetBandChan := s.bufSetBandChan.set 4 ((band * 8 + chan) % 256) }
  let s : SAState := { s with bufSetBandChan := s.bufSetBandChan.set 5 (CRC8 s.bufSetBandChan 5) }
  saQueueCmd .setBandChan 6 s

/-- The function `saSetMode(mode)`. -/
def saSetMode (mode : Int) (s : SAState) : SAState :=
  let s : SAState := { s with bufSetMode := s.bufSetMode.set 4 (bits32 mode &&& 0x1f) }
  let s : SAState := { s with bufSetMode := s.bufSetMode.set 5 (CRC8 s.bufSetMode 5) }
  saQueueCmd .setMode 6 s

/-- The function `smartAudioSetPowerByIndex(index)`. -/
def smartAudioSetPowerByIndex (index : Nat) (s : SAState) : SAState :=
  if s.sa_vers = 0 then s
  else if index > 3 then s
  else
    let v : Int :=
      if s.sa_vers = 1 then (saPowerTableAt index).valueV1 else (saPowerTableAt index).valueV2
    let s : SAState := { s with bufSetPower := s.bufSetPower.set 4 (toU8 v) }
    let s : SAState := { s with bufSetPower := s.bufSetPower.set 5 (CRC8 s.bufSetPower 5) }
    saQueueCmd .setPower 6 s

/-! ## Periodic entry point -/

/-- The function `smartAudioProcess(now)`.  `rx` are the bytes waiting in the
serial receive buffer and `millis` is what `millis()` returns during the call. -/
def smartAudioProcess (now : Nat) (rx : List Nat) (millis : Nat) (s : SAState) : SAState :=
  if s.smartAudioSerialPort = false then s
  else
    let s : SAState := saReceiveBytes rx s
    let s : SAState := saAutobaud s
    if s.initialSent = false then
      let s : SAState := saGetSettings s
      let s : SAState := saGetPitFreq s
      let s : SAState := saSendQueue millis s
      { s with initialSent := true }
    else if s.sa_outstanding ≠ SA_CMD_NONE
        ∧ (now + 4294967296 - s.sa_lastTransmission) % 4294967296 > SMARTAUDIO_CMD_TIMEOUT then
      saResendCmd millis s
    else if saQueueEmpty s = false then saSendQueue millis s
    else if (now + 4294967296 - s.sa_lastTransmission) % 4294967296 ≥ 1000 then
      saSendQueue millis (saGetSettings s)
    else s

/-! ## Auxiliary definitions for the statements and proofs -/

/-- Consecutive writes of the bytes `q` into `buf`, starting at index `i`: what
the `S_DATA` state does to the receive buffer. -/
def putBytes (buf : List Nat) (i : Nat) : List Nat → List Nat
  | [] => buf
  | x :: xs => putBytes (buf.set i x) (i + 1) xs

/-- The receive buffer after a code byte `c`, a length byte `L` and the payload
bytes `p` went through `S_WAITRESP`, `S_WAITLEN` and `S_DATA`. -/
def frameBuf (rbuf : List Nat) (c L : Nat) (p : List Nat) : List Nat :=
  putBytes ((rbuf.set 0 c).set 1 L) 2 p

/-- Inverse of `crcShift` on bytes. -/
def crcUnshift (y : Nat) : Nat :=
  if y &&& 1 ≠ 0 then ((y ^^^ POLYGEN) >>> 1) ||| 0x80 else y >>> 1

/-- The static command buffers still carry the header bytes of their
initialisers, which no statement of the driver writes, and the GetSettings
buffer its constant frame. -/
def cmdBufsOK (s : SAState) : Prop :=
  s.bufGetSettings = [0xAA, 0x55, SACMD SA_CMD_GET_SETTINGS, 0x00, 0x9F]
  ∧ s.bufSetFreq.length = 7 ∧ s.bufSetFreq.take 4 = [0xAA, 0x55, SACMD SA_CMD_SET_FREQ, 2]
  ∧ s.bufSetBandChan.length = 6
  ∧ s.bufSetBandChan.take 4 = [0xAA, 0x55, SACMD SA_CMD_SET_CHAN, 1]
  ∧ s.bufSetMode.length = 6 ∧ s.bufSetMode.take 4 = [0xAA, 0x55, SACMD SA_CMD_SET_MODE, 1]
  ∧ s.bufSetPower.length = 6 ∧ s.bufSetPower.take 4 = [0xAA, 0x55, SACMD SA_CMD_SET_POWER, 1]

instance (s : SAState) : Decidable (cmdBufsOK s) := by
  unfold cmdBufsOK; infer_instance

/-- Scan of a garbage sequence by the preamble states: `some n` when the
sequence never completes the preamble `0xAA 0x55` and does not end on a pending
`0xAA`, with `n` the number of bytes refused in `S_WAITPRE2`; `none` otherwise. -/
def garbageBadPre : List Nat → Option Nat
  | [] => some 0
  | [c] => if c = 0xAA then none else some 0
  | c :: d :: rest =>
    if c ≠ 0xAA then garbageBadPre (d :: rest)
    else if d = 0x55 then none
    else (garbageBadPre rest).map (· + 1)

/-- What a receiver starting in state `r` shows after the bytes `f` when it
took them for a command echo: nothing dispatched, no counter changed, device
state and outstanding slot untouched, framer back in `S_WAITPRE1`. -/
def echoAbsorbed (r : SAState) (f : List Nat) : Prop :=
  (saReceiveBytes f r).respLog = r.respLog
  ∧ (saReceiveBytes f r).saerr_badpre = r.saerr_badpre
  ∧ (saReceiveBytes f r).saerr_badlen = r.saerr_badlen
  ∧ (saReceiveBytes f r).saerr_crc = r.saerr_crc
  ∧ (saReceiveBytes f r).saerr_oooresp = r.saerr_oooresp
  ∧ (saReceiveBytes f r).sa_pktrcvd = r.sa_pktrcvd
  ∧ (saReceiveBytes f r).sa_outstanding = r.sa_outstanding
  ∧ (saReceiveBytes f r).sa_vers = r.sa_vers
  ∧ (saReceiveBytes f r).sa_chan = r.sa_chan
  ∧ (saReceiveBytes f r).sa_power = r.sa_power
  ∧ (saReceiveBytes f r).sa_opmode = r.sa_opmode
  ∧ (saReceiveBytes f r).sa_freq = r.sa_freq
  ∧ (saReceiveBytes f r).sa_pitfreq = r.sa_pitfreq
  ∧ (saReceiveBytes f r).statusUpdates = r.statusUpdates
  ∧ (saReceiveBytes f r).state = .S_WAITPRE1

/-- The command frame of the wire format, in the words of the specification:
`[0xAA, 0x55, (cmd << 1) | 1, n, payload (n bytes), crc]`, where `crc` is the
CRC8 of the `4 + n` bytes before it. -/
def cmdFrame (cmd : Nat) (payload : List Nat) : List Nat :=
  [0xAA, 0x55, SACMD cmd, payload.length] ++ payload
    ++ [CRC8 ([0xAA, 0x55, SACMD cmd, payload.length] ++ payload) (4 + (payload.length : Int))]

/-- The raw command code in the header of a static command buffer. -/
def cmdBufCode : CmdBuf → Nat
  | .getSettings => SA_CMD_GET_SETTINGS
  | .setFreq => SA_CMD_SET_FREQ
  | .setBandChan => SA_CMD_SET_CHAN
  | .setMode => SA_CMD_SET_MODE
  | .setPower => SA_CMD_SET_POWER

/-- The function `saQueueLength` (compiled under `DPRINTF_SMARTAUDIO` only): the
number of pending queue entries. -/
def saQueueLength (s : SAState) : Nat :=
  if s.sa_qhead ≥ s.sa_qtail then s.sa_qhead - s.sa_qtail
  else SA_QSIZE + s.sa_qhead - s.sa_qtail

/-- The queue array has its `SA_QSIZE` slots and both indices are inside it. -/
def queueOK (s : SAState) : Prop :=
  s.sa_queue.length = 4 ∧ s.sa_qhead < 4 ∧ s.sa_qtail < 4

instance (s : SAState) : Decidable (queueOK s) := by
  unfold queueOK; infer_instance

/-- The pending entries of the queue, oldest first: the slots from `sa_qtail`
up to, not including, `sa_qhead`, around the ring. -/
def pending (s : SAState) : List saCmdQueue_t :=
  (List.range (saQueueLength s)).map
    (fun i => s.sa_queue.getD ((s.sa_qtail + i) % SA_QSIZE) ⟨none, 0⟩)

/-- The bytes one call `saSendFrame(buf, len)` hands to `serialWrite`: a leading
`0x00`, the first `len` bytes of `buf`, a trailing `0x00`. -/
def wireBytes (buf : List Nat) (len : Int) : List Nat :=
  [0x00] ++ (List.range len.toNat).map (fun i => buf.getD i 0) ++ [0x00]

/-- Successive calls of `saSendQueue`, one per element of `ms` (the values of
`millis()` during the calls). -/
def sendAll (ms : List Nat) (s : SAState) : SAState :=
  ms.foldl (fun s m => saSendQueue m s) s

/-- Successive calls of `smartAudioProcess`; each element gives `now`, the bytes
waiting in the receive buffer, and the value of `millis()` for one call. -/
def runTicks (ticks : List (Nat × List Nat × Nat)) (s : SAState) : SAState :=
  ticks.foldl (fun s t => smartAudioProcess t.1 t.2.1 t.2.2 s) s

/-- Successive calls of `saAutobaud`; before each call the link statistics are
set to the pair `(sent, received)` of the list. -/
def autobaudRun (stats : List (Int × Int)) (s : SAState) : SAState :=
  stats.foldl (fun s p => saAutobaud { s with sa_pktsent := p.1, sa_pktrcvd := p.2 }) s

/-- The loop of `saSendCmd` that copies the first `len` bytes of `buf` into the
outstanding-frame buffer `os`. -/
def copyFrame (buf : List Nat) (len : Int) (os : List Nat) : List Nat :=
  (List.range len.toNat).foldl (fun os i => os.set i (buf.getD i 0)) os

/-- The `uint32_t` difference `now - sa_lastTransmission` that `smartAudioProcess`
compares with the timeout and with the heartbeat period. -/
def elapsed (now : Nat) (s : SAState) : Nat :=
  (now + 4294967296 - s.sa_lastTransmission) % 4294967296

/-- The engine after `smartAudioInit` with the port open and the first
`smartAudioProcess` call at time 0. -/
def afterFirstTick : SAState := smartAudioProcess 0 [] 0 (smartAudioInit true saInitial)

/-- Nine further ticks, 150 ms apart, with a silent device. -/
def silentTicks : List (Nat × List Nat × Nat) :=
  [(150, [], 150), (300, [], 300), (450, [], 450), (600, [], 600), (750, [], 750),
   (900, [], 900), (1050, [], 1050), (1200, [], 1200), (1350, [], 1350)]

/-- A GetSettings response and a SetFrequency response as the device frames them. -/
def respGetSettings : List Nat :=
  [0xAA, 0x55, 0x09, 0x05, 10, 2, 0, 0x16, 0xC1, CRC8 [0x09, 0x05, 10, 2, 0, 0x16, 0xC1] 7]

def respSetFreq : List Nat :=
  [0xAA, 0x55, 0x04, 0x03, 0x40, 0x00, 0x00, CRC8 [0x04, 0x03, 0x40, 0x00, 0x00] 5]

/-- Ticks in which the device answers the two commands of the first tick and
then falls silent while eight heartbeats go out. -/
def heartbeatTicks : List (Nat × List Nat × Nat) :=
  [(10, respGetSettings, 10), (20, respSetFreq, 20), (1020, [], 1020), (1170, [], 1170),
   (1320, [], 1320), (1470, [], 1470), (1620, [], 1620), (1770, [], 1770), (1920, [], 1920),
   (2070, [], 2070)]

/-- The bounds under which the framer's accesses to `sa_rbuf` stay inside
`SA_MAX_RCVLEN` bytes: in `S_DATA` the payload counter is below the stored
length, and the stored length is at most `SA_MAX_RCVLEN - 2` in `S_DATA` and
`S_WAITCRC`. -/
def framerOK (s : SAState) : Prop :=
  (s.state = .S_DATA → 1 ≤ s.len ∧ s.len ≤ SA_MAX_RCVLEN - 2 ∧ 0 ≤ s.dlen ∧ s.dlen < s.len)
  ∧ (s.state = .S_WAITCRC → 0 ≤ s.len ∧ s.len ≤ SA_MAX_RCVLEN - 2)

instance (s : SAState) : Decidable (framerOK s) := by unfold framerOK; infer_instance

/-- The variables of the sending side: port, first-tick flag, time of the last
transmission, queue, stored frame, bytes written, sent counter and the
encoders' command buffers. -/
def txSide (s : SAState) :
    Bool × Bool × Nat × List saCmdQueue_t × Nat × Nat × List Nat × Int × List Nat × Int
      × List Nat × List Nat × List Nat × List Nat × List Nat :=
  (s.smartAudioSerialPort, s.initialSent, s.sa_lastTransmission, s.sa_queue, s.sa_qhead,
    s.sa_qtail, s.sa_osbuf, s.sa_oslen, s.serialOut, s.sa_pktsent,
    s.bufGetSettings, s.bufSetFreq, s.bufSetBandChan, s.bufSetMode, s.bufSetPower)

/-! ## Machine integers: small values are not wrapped -/

theorem toI32_small (x : Int) (h0 : -2147483648 ≤ x) (h1 : x < 2147483648) : toI32 x = x := by
  unfold toI32; omega

theorem toI8_small (x : Int) (h0 : -128 ≤ x) (h1 : x < 128) : toI8 x = x := by
  unfold toI8; omega

theorem toI8_toI32 (x : Int) : toI8 (toI32 x) = toI8 x := by
  unfold toI8 toI32; omega

theorem wr_nat (buf : List Nat) (i v : Nat) : wr buf (i : Int) v = buf.set i v := by
  simp [wr]

theorem rd_nat (buf : List Nat) (i : Nat) : rd buf (i : Int) = buf.getD i 0 := by
  simp [rd]

/-! ## CRC8 -/

theorem crcShift_lt (x : Nat) : crcShift x < 256 := by
  unfold crcShift; split_ifs <;> omega

theorem crcByte_lt (a x : Nat) : crcByte a x < 256 := by
  unfold crcByte; exact crcShift_lt _

theorem foldl_crcByte_lt (l : List Nat) : ∀ a, a < 256 → l.foldl crcByte a < 256 := by
  induction l with
  | nil => intro a h; simpa using h
  | cons x l ih => intro a _; exact ih _ (crcByte_lt a x)

/-- `CRC8(data, n)` reads the first `n` bytes only. -/
theorem CRC8_eq_foldl (data : List Nat) (n : Nat) (hn : n < 128) (hlen : n ≤ data.length) :
    CRC8 data (n : Int) = (data.take n).foldl crcByte 0 := by
  unfold CRC8
  rw [toI8_small _ (by omega) (by omega), Int.toNat_ofNat]
  have h : (List.range n).map (fun i => data.getD i 0) = data.take n := by
    apply List.ext_getElem
    · simp [hlen]
    · intro i h1 h2
      simp only [List.length_map, List.length_range] at h1
      have hi : i < data.length := by omega
      simp [List.getElem?_eq_getElem hi]
  rw [← h, List.foldl_map]

theorem CRC8_lt (data : List Nat) (n : Int) : CRC8 data n < 256 := by
  unfold CRC8
  rw [← List.foldl_map (fun i => data.getD i 0) crcByte]
  exact foldl_crcByte_lt _ 0 (by omega)

theorem CRC8_congr (a b : List Nat) (n : Nat) (hn : n < 128) (ha : n ≤ a.length)
    (hb : n ≤ b.length) (h : a.take n = b.take n) : CRC8 a (n : Int) = CRC8 b (n : Int) := by
  rw [CRC8_eq_foldl a n hn ha, CRC8_eq_foldl b n hn hb, h]

set_option maxRecDepth 100000 in
theorem crcUnshift_crcShift : ∀ x < 256, crcUnshift (crcShift x) = x := by decide

theorem crcShift_inj (a b : Nat) (ha : a < 256) (hb : b < 256) (h : crcShift a = crcShift b) :
    a = b := by
  rw [← crcUnshift_crcShift a ha, ← crcUnshift_crcShift b hb, h]

theorem crcByte_inj (a b x : Nat) (ha : a < 256) (hb : b < 256) (hx : x < 256)
    (h : crcByte a x = crcByte b x) : a = b := by
  unfold crcByte at h
  have hax : a ^^^ x < 256 := Nat.xor_lt_two_pow (n := 8) ha hx
  have hbx : b ^^^ x < 256 := Nat.xor_lt_two_pow (n := 8) hb hx
  rw [Nat.mod_eq_of_lt hax, Nat.mod_eq_of_lt hbx] at h
  have s := crcShift_lt
  have e : a ^^^ x = b ^^^ x := by
    repeat (first | exact h | (apply crcShift_inj _ _ (by first | exact s _ | assumption) (by first | exact s _ | assumption)))
  have := congrArg (· ^^^ x) e
  simpa [Nat.xor_assoc] using this

/-- Two different accumulators stay different over the same bytes: the CRC of
a message with a prefix whose own CRC is not zero differs from the CRC of the
message alone. -/
theorem foldl_crcByte_ne (l : List Nat) (hl : ∀ x ∈ l, x < 256) :
    ∀ a b, a < 256 → b < 256 → a ≠ b → l.foldl crcByte a ≠ l.foldl crcByte b := by
  induction l with
  | nil => intro a b _ _ h; simpa using h
  | cons x l ih =>
    intro a b ha hb h
    simp only [List.foldl_cons]
    apply ih (fun y hy => hl y (List.mem_cons_of_mem _ hy)) _ _ (crcByte_lt _ _) (crcByte_lt _ _)
    intro e
    exact h (crcByte_inj a b x ha hb (hl x (List.mem_cons_self _ _)) e)

/-! ## Receive framer: symbolic execution -/

theorem saReceiveBytes_nil (s : SAState) : saReceiveBytes [] s = s := rfl

theorem saReceiveBytes_cons (c : Nat) (cs : List Nat) (s : SAState) :
    saReceiveBytes (c :: cs) s = saReceiveBytes cs (saReceiveFramer c s) := rfl

theorem saReceiveBytes_append (a b : List Nat) (s : SAState) :
    saReceiveBytes (a ++ b) s = saReceiveBytes b (saReceiveBytes a s) := by
  simp [saReceiveBytes, List.foldl_append]

theorem putBytes_length (q : List Nat) : ∀ (buf : List Nat) (i : Nat),
    (putBytes buf i q).length = buf.length := by
  induction q with
  | nil => intro buf i; rfl
  | cons x q ih => intro buf i; simp [putBytes, ih]

/-- Inside the buffer, `putBytes` replaces the segment starting at `i`. -/
theorem putBytes_eq (q : List Nat) : ∀ (buf : List Nat) (i : Nat), i + q.length ≤ buf.length →
    putBytes buf i q = buf.take i ++ q ++ buf.drop (i + q.length) := by
  induction q with
  | nil => intro buf i _; simp [putBytes]
  | cons x q ih =>
    intro buf i h
    simp only [List.length_cons] at h
    have hi : i < buf.length := by omega
    rw [putBytes, ih _ _ (by simp only [List.length_set]; omega)]
    rw [List.set_eq_take_append_cons_drop, if_pos hi]
    have e1 : List.take (i + 1) (List.take i buf ++ x :: List.drop (i + 1) buf)
        = List.take i buf ++ [x] := by
      rw [List.take_append_eq_append_take]
      simp [List.length_take, Nat.min_eq_left (Nat.le_of_lt hi)]
    have e2 : List.drop (i + 1 + q.length) (List.take i buf ++ x :: List.drop (i + 1) buf)
        = List.drop (i + (x :: q).length) buf := by
      rw [List.drop_append_eq_append_drop]
      simp [List.length_take, Nat.min_eq_left (Nat.le_of_lt hi)]
      have e3 : i + 1 + q.length - i = q.length + 1 := by omega
      have e4 : i + 1 + q.length = i + (q.length + 1) := by omega
      rw [e3, List.drop_succ_cons, List.drop_drop, e4]
      have e5 : i ≤ i + (q.length + 1) := by omega
      simp [List.drop_eq_nil_of_le, e5, Nat.add_comm]
    rw [e1, e2]
    simp

theorem framer_data_step (s : SAState) (d : Nat) (x : Nat) (hs : s.state = .S_DATA)
    (hd : s.dlen = (d : Int)) (hd9 : d < 1000) :
    saReceiveFramer x s =
      { s with sa_rbuf := s.sa_rbuf.set (2 + d) x, dlen := ((d + 1 : Nat) : Int),
               state := if ((d + 1 : Nat) : Int) = s.len then .S_WAITCRC else .S_DATA } := by
  have e1 : toI32 (2 + (d : Int)) = ((2 + d : Nat) : Int) := by
    rw [toI32_small] <;> omega
  have e2 : toI32 ((d : Int) + 1) = ((d + 1 : Nat) : Int) := by
    rw [toI32_small] <;> omega
  unfold saReceiveFramer
  simp only [hs, hd, e1, e2, wr_nat]
  split_ifs with h
  · rfl
  · cases s; simp_all

theorem framer_data_run (q : List Nat) : ∀ (s : SAState) (d : Nat), s.state = .S_DATA →
    s.dlen = (d : Int) → s.len = ((d + q.length : Nat) : Int) → q ≠ [] → d + q.length < 1000 →
    saReceiveBytes q s =
      { s with sa_rbuf := putBytes s.sa_rbuf (2 + d) q, dlen := ((d + q.length : Nat) : Int),
               state := .S_WAITCRC } := by
  induction q with
  | nil => intro s d _ _ _ h; exact absurd rfl h
  | cons x q ih =>
    intro s d hs hd hl _ hb
    rw [saReceiveBytes_cons, framer_data_step s d x hs hd (by omega)]
    by_cases hq : q = []
    · subst hq
      simp only [List.length_cons, List.length_nil] at hl
      simp [hl, saReceiveBytes_nil, putBytes]
    · have hne : ¬ ((d + 1 : Nat) : Int) = s.len := by
        have : 0 < q.length := List.length_pos.mpr hq
        rw [hl]; simp only [List.length_cons]; omega
      simp only [hne, if_false]
      rw [ih _ (d + 1) rfl rfl (by simp [hl, List.length_cons]; omega) hq
        (by simp [List.length_cons] at hb; omega)]
      simp only [putBytes, List.length_cons]
      have e3 : 2 + (d + 1) = 2 + d + 1 := by omega
      have e4 : (((d + 1 + q.length : Nat)) : Int) = ((d + (q.length + 1) : Nat) : Int) := by
        omega
      rw [e3, e4]

theorem framer_header (s : SAState) (c L : Nat) (hs : s.state = .S_WAITPRE1) :
    saReceiveBytes [0xAA, 0x55, c, L] s =
      if 9 < L then
        { s with sa_rbuf := (s.sa_rbuf.set 0 c).set 1 L, len := (L : Int),
                 saerr_badlen := (s.saerr_badlen + 1) % 65536, state := .S_WAITPRE1 }
      else if L = 0 then
        { s with sa_rbuf := (s.sa_rbuf.set 0 c).set 1 L, len := (L : Int), state := .S_WAITCRC }
      else
        { s with sa_rbuf := (s.sa_rbuf.set 0 c).set 1 L, len := (L : Int), dlen := 0,
                 state := .S_DATA } := by
  simp only [saReceiveBytes, List.foldl_cons, List.foldl_nil]
  have w0 : ∀ b : List Nat, wr b 0 c = b.set 0 c := fun b => wr_nat b 0 c
  have w1 : ∀ b : List Nat, wr b 1 L = b.set 1 L := fun b => wr_nat b 1 L
  simp [saReceiveFramer, hs, w0, w1, SA_MAX_RCVLEN]

/-- From `S_WAITPRE1`, a preamble, a code, a length `L <= 9` and `L` payload
bytes bring the framer to `S_WAITCRC` with the frame in the buffer. -/
theorem framer_frame_body (s : SAState) (c L : Nat) (p : List Nat)
    (hs : s.state = .S_WAITPRE1) (hL : L ≤ 9) (hp : p.length = L) :
    saReceiveBytes ([0xAA, 0x55, c, L] ++ p) s =
      { s with sa_rbuf := frameBuf s.sa_rbuf c L p, len := (L : Int),
               dlen := if L = 0 then s.dlen else (L : Int), state := .S_WAITCRC } := by
  rw [saReceiveBytes_append, framer_header s c L hs, if_neg (by omega)]
  by_cases h0 : L = 0
  · subst h0
    have : p = [] := List.length_eq_zero.mp hp
    subst this
    simp [saReceiveBytes_nil, frameBuf, putBytes]
  · rw [if_neg h0]
    have hne : p ≠ [] := by
      intro e; subst e; simp at hp; omega
    rw [framer_data_run p _ 0 rfl rfl (by simp [hp]) hne (by omega)]
    simp [frameBuf, hp, h0]

theorem frameBuf_take (rbuf : List Nat) (c L : Nat) (p : List Nat) (hp : p.length = L)
    (hlen : 2 + L ≤ rbuf.length) : (frameBuf rbuf c L p).take (2 + L) = c :: L :: p := by
  unfold frameBuf
  rw [putBytes_eq _ _ _ (by simp only [List.length_set]; omega)]
  have h2 : ((rbuf.set 0 c).set 1 L).take 2 = [c, L] := by
    rcases rbuf with _ | ⟨a, _ | ⟨b, r⟩⟩
    · simp at hlen
    · simp at hlen; omega
    · simp
  rw [h2, List.append_assoc, List.take_append_eq_append_take, List.take_append_eq_append_take]
  have e1 : List.take (2 + L) [c, L] = [c, L] := List.take_of_length_le (by simp)
  have e2 : List.take (2 + L - [c, L].length) p = p := List.take_of_length_le (by simp; omega)
  rw [e1, e2]
  simp only [List.length_cons, List.length_nil]
  have e3 : List.take (2 + L - (0 + 1 + 1) - p.length)
      (List.drop (2 + p.length) ((rbuf.set 0 c).set 1 L)) = [] := by
    have : 2 + L - (0 + 1 + 1) - p.length = 0 := by omega
    rw [this]; rfl
  rw [e3]
  simp

theorem frameBuf_length (rbuf : List Nat) (c L : Nat) (p : List Nat) :
    (frameBuf rbuf c L p).length = rbuf.length := by
  simp [frameBuf, putBytes_length]

theorem frameBuf_rd0 (rbuf : List Nat) (c L : Nat) (p : List Nat) (hp : p.length = L)
    (hlen : 2 + L ≤ rbuf.length) : rd (frameBuf rbuf c L p) 0 = c := by
  have h := frameBuf_take rbuf c L p hp hlen
  have hl := frameBuf_length rbuf c L p
  match hb : frameBuf rbuf c L p, h, hl with
  | [], h, _ => simp at h
  | a :: r, h, _ =>
    have e2 : 2 + L = (1 + L) + 1 := by omega
    rw [e2, List.take_succ_cons] at h
    have := (List.cons.inj h).1
    simp [rd, this]

theorem frameBuf_CRC8 (rbuf : List Nat) (c L : Nat) (p : List Nat) (hp : p.length = L)
    (hL : L ≤ 9) (hlen : 2 + L ≤ rbuf.length) :
    CRC8 (frameBuf rbuf c L p) (toI32 (2 + (L : Int))) = CRC8 (c :: L :: p) (2 + (L : Int)) := by
  rw [toI32_small _ (by omega) (by omega)]
  have e : (2 + (L : Int)) = ((2 + L : Nat) : Int) := by omega
  rw [e]
  apply CRC8_congr _ _ _ (by omega) (by rw [frameBuf_length]; exact hlen)
    (by simp [hp]; omega)
  rw [frameBuf_take rbuf c L p hp hlen]
  simp [hp, Nat.add_comm]

theorem framer_crc_match (s : SAState) (x : Nat) (hs : s.state = .S_WAITCRC)
    (h : CRC8 s.sa_rbuf (toI32 (2 + s.len)) = x) :
    saReceiveFramer x s =
      { saProcessResponse s.sa_rbuf (toI32 (s.len + 2)) s with
        sa_pktrcvd := toI32 ((saProcessResponse s.sa_rbuf (toI32 (s.len + 2)) s).sa_pktrcvd + 1),
        state := .S_WAITPRE1 } := by
  unfold saReceiveFramer
  simp only [hs, h, if_true]

theorem framer_crc_mismatch (s : SAState) (x : Nat) (hs : s.state = .S_WAITCRC)
    (h : CRC8 s.sa_rbuf (toI32 (2 + s.len)) ≠ x) :
    saReceiveFramer x s =
      { s with
        saerr_crc := if rd s.sa_rbuf 0 &&& 1 ≠ 0 then s.saerr_crc else (s.saerr_crc + 1) % 65536,
        state := .S_WAITPRE1 } := by
  unfold saReceiveFramer
  simp only [hs, h, if_false]
  split_ifs <;> rfl

/-! ## Response processor: what it leaves alone -/

theorem saResolveOutstanding_eq (resp : Nat) (s : SAState) :
    saResolveOutstanding resp s = { s with
      sa_outstanding :=
        if resp = s.sa_outstanding ∨
            (resp = SA_CMD_GET_SETTINGS_V2 ∧ s.sa_outstanding = SA_CMD_GET_SETTINGS) then
          SA_CMD_NONE
        else s.sa_outstanding
      saerr_oooresp :=
        if resp = s.sa_outstanding ∨
            (resp = SA_CMD_GET_SETTINGS_V2 ∧ s.sa_outstanding = SA_CMD_GET_SETTINGS) then
          s.saerr_oooresp
        else (s.saerr_oooresp + 1) % 65536 } := by
  unfold saResolveOutstanding
  by_cases h1 : resp = s.sa_outstanding
  · simp [h1]
  · by_cases h2 : resp = SA_CMD_GET_SETTINGS_V2 ∧ s.sa_outstanding = SA_CMD_GET_SETTINGS
    · simp [h1, h2]
    · simp [h1, h2]

theorem saProcessResponse_respLog (buf : List Nat) (len : Int) (s : SAState) :
    (saProcessResponse buf len s).respLog = s.respLog ++ [(buf, len)] := by
  simp only [saProcessResponse, saGetSettingsCase, saSetFreqCase, smartAudioUpdateStatusString,
    saResolveOutstanding_eq]
  split_ifs <;> rfl

/-- The response processor does not touch the framer's variables, the framing
error counters or the link statistics. -/
theorem saProcessResponse_frame (buf : List Nat) (len : Int) (s : SAState) :
    (saProcessResponse buf len s).saerr_badpre = s.saerr_badpre
    ∧ (saProcessResponse buf len s).saerr_badlen = s.saerr_badlen
    ∧ (saProcessResponse buf len s).saerr_crc = s.saerr_crc
    ∧ (saProcessResponse buf len s).sa_pktrcvd = s.sa_pktrcvd
    ∧ (saProcessResponse buf len s).sa_rbuf = s.sa_rbuf
    ∧ (saProcessResponse buf len s).len = s.len
    ∧ (saProcessResponse buf len s).dlen = s.dlen
    ∧ (saProcessResponse buf len s).state = s.state := by
  simp only [saProcessResponse, saGetSettingsCase, saSetFreqCase, smartAudioUpdateStatusString,
    saResolveOutstanding_eq]
  split_ifs <;> simp

/-- A well-formed frame run from `S_WAITPRE1`: the state `s1` in which the CRC
byte arrives differs from the start only in the framer's variables, and the CRC
byte makes the framer call `saProcessResponse` on it. -/
theorem framer_valid_frame (s : SAState) (c L : Nat) (p : List Nat)
    (hs : s.state = .S_WAITPRE1) (hbuf : s.sa_rbuf.length = 15) (hL : L ≤ 9)
    (hp : p.length = L) :
    ∃ s1 : SAState,
      s1.sa_rbuf = frameBuf s.sa_rbuf c L p
      ∧ s1.respLog = s.respLog ∧ s1.sa_pktrcvd = s.sa_pktrcvd
      ∧ s1.saerr_badpre = s.saerr_badpre ∧ s1.saerr_badlen = s.saerr_badlen
      ∧ s1.saerr_crc = s.saerr_crc
      ∧ saReceiveBytes ([0xAA, 0x55, c, L] ++ p ++ [CRC8 (c :: L :: p) (2 + (L : Int))]) s =
          { saProcessResponse s1.sa_rbuf ((L : Int) + 2) s1 with
            sa_pktrcvd := toI32 ((saProcessResponse s1.sa_rbuf ((L : Int) + 2) s1).sa_pktrcvd + 1),
            state := .S_WAITPRE1 } := by
  have hcrc := frameBuf_CRC8 s.sa_rbuf c L p hp hL (by omega)
  have hlen2 : toI32 ((L : Int) + 2) = (L : Int) + 2 := toI32_small _ (by omega) (by omega)
  have hbody := framer_frame_body s c L p hs hL hp
  obtain ⟨s1, hs1⟩ : ∃ s1 : SAState, s1 = saReceiveBytes ([0xAA, 0x55, c, L] ++ p) s := ⟨_, rfl⟩
  rw [← hs1] at hbody
  have r1 : s1.sa_rbuf = frameBuf s.sa_rbuf c L p := by rw [hbody]
  have r2 : s1.len = (L : Int) := by rw [hbody]
  have r3 : s1.state = .S_WAITCRC := by rw [hbody]
  have hc : CRC8 s1.sa_rbuf (toI32 (2 + s1.len)) = CRC8 (c :: L :: p) (2 + (L : Int)) := by
    rw [r1, r2]; exact hcrc
  refine ⟨s1, r1, by rw [hbody], by rw [hbody], by rw [hbody], by rw [hbody], by rw [hbody], ?_⟩
  rw [saReceiveBytes_append, ← hs1, saReceiveBytes_cons, saReceiveBytes_nil,
    framer_crc_match s1 _ r3 hc, r2, hlen2]

/-! ## Valid response frames -/

/-- C1. A well-formed response frame `0xAA, 0x55, c, L, p, CRC8([c, L] ++ p)` with
`L <= 9` and `p` of `L` bytes, fed byte by byte to `saReceiveFramer` from
`S_WAITPRE1`, is dispatched to `saProcessResponse` exactly once (the call log
grows by one entry), with a buffer whose first `2 + L` bytes are `[c, L] ++ p`
and with length argument `L + 2`; `sa_pktrcvd` is incremented once (the C
increment of an `int`), `saerr_badpre`, `saerr_badlen` and `saerr_crc` keep their
values, and the framer is back in `S_WAITPRE1`. -/
theorem C1_valid_frame_dispatched_once (s : SAState) (c L : Nat) (p : List Nat)
    (hs : s.state = .S_WAITPRE1) (hbuf : s.sa_rbuf.length = 15) (hL : L ≤ 9)
    (hp : p.length = L) :
    ∃ b : List Nat,
      (saReceiveBytes ([0xAA, 0x55, c, L] ++ p ++ [CRC8 (c :: L :: p) (2 + (L : Int))]) s).respLog
          = s.respLog ++ [(b, (L : Int) + 2)]
      ∧ b.take (2 + L) = c :: L :: p
      ∧ (saReceiveBytes ([0xAA, 0x55, c, L] ++ p ++ [CRC8 (c :: L :: p) (2 + (L : Int))]) s).sa_pktrcvd
          = toI32 (s.sa_pktrcvd + 1)
      ∧ (saReceiveBytes ([0xAA, 0x55, c, L] ++ p ++ [CRC8 (c :: L :: p) (2 + (L : Int))]) s).saerr_badpre
          = s.saerr_badpre
      ∧ (saReceiveBytes ([0xAA, 0x55, c, L] ++ p ++ [CRC8 (c :: L :: p) (2 + (L : Int))]) s).saerr_badlen
          = s.saerr_badlen
      ∧ (saReceiveBytes ([0xAA, 0x55, c, L] ++ p ++ [CRC8 (c :: L :: p) (2 + (L : Int))]) s).saerr_crc
          = s.saerr_crc
      ∧ (saReceiveBytes ([0xAA, 0x55, c, L] ++ p ++ [CRC8 (c :: L :: p) (2 + (L : Int))]) s).state
          = .S_WAITPRE1 := by
  obtain ⟨s1, r1, r4, r5, r6, r7, r8, hrun⟩ := framer_valid_frame s c L p hs hbuf hL hp
  obtain ⟨h1, h2, h3, h4, -⟩ := saProcessResponse_frame s1.sa_rbuf ((L : Int) + 2) s1
  refine ⟨frameBuf s.sa_rbuf c L p, ?_, frameBuf_take s.sa_rbuf c L p hp (by omega), ?_⟩
  · rw [hrun]
    show (saProcessResponse s1.sa_rbuf ((L : Int) + 2) s1).respLog = _
    rw [saProcessResponse_respLog, r1, r4]
  · rw [hrun]
    refine ⟨?_, ?_, ?_, ?_, rfl⟩
    · show toI32 ((saProcessResponse s1.sa_rbuf ((L : Int) + 2) s1).sa_pktrcvd + 1) = _
      rw [h4, r5]
    · show (saProcessResponse s1.sa_rbuf ((L : Int) + 2) s1).saerr_badpre = _
      rw [h1, r6]
    · show (saProcessResponse s1.sa_rbuf ((L : Int) + 2) s1).saerr_badlen = _
      rw [h2, r7]
    · show (saProcessResponse s1.sa_rbuf ((L : Int) + 2) s1).saerr_crc = _
      rw [h3, r8]

/-- C1 at a concrete input: the V2 GetSettings frame `AA 55 09 05 0A 02 00 16 C1 crc`
received by the engine in its initial state. -/
theorem C1_valid_frame_dispatched_once_witness :
    ∃ b : List Nat,
      (saReceiveBytes ([0xAA, 0x55, 9, 5] ++ [10, 2, 0, 0x16, 0xC1]
          ++ [CRC8 (9 :: 5 :: [10, 2, 0, 0x16, 0xC1]) (2 + ((5 : Nat) : Int))]) saInitial).respLog
          = saInitial.respLog ++ [(b, ((5 : Nat) : Int) + 2)]
      ∧ b.take (2 + 5) = 9 :: 5 :: [10, 2, 0, 0x16, 0xC1]
      ∧ (saReceiveBytes ([0xAA, 0x55, 9, 5] ++ [10, 2, 0, 0x16, 0xC1]
          ++ [CRC8 (9 :: 5 :: [10, 2, 0, 0x16, 0xC1]) (2 + ((5 : Nat) : Int))]) saInitial).sa_pktrcvd
          = toI32 (saInitial.sa_pktrcvd + 1)
      ∧ (saReceiveBytes ([0xAA, 0x55, 9, 5] ++ [10, 2, 0, 0x16, 0xC1]
          ++ [CRC8 (9 :: 5 :: [10, 2, 0, 0x16, 0xC1]) (2 + ((5 : Nat) : Int))]) saInitial).saerr_badpre
          = saInitial.saerr_badpre
      ∧ (saReceiveBytes ([0xAA, 0x55, 9, 5] ++ [10, 2, 0, 0x16, 0xC1]
          ++ [CRC8 (9 :: 5 :: [10, 2, 0, 0x16, 0xC1]) (2 + ((5 : Nat) : Int))]) saInitial).saerr_badlen
          = saInitial.saerr_badlen
      ∧ (saReceiveBytes ([0xAA, 0x55, 9, 5] ++ [10, 2, 0, 0x16, 0xC1]
          ++ [CRC8 (9 :: 5 :: [10, 2, 0, 0x16, 0xC1]) (2 + ((5 : Nat) : Int))]) saInitial).saerr_crc
          = saInitial.saerr_crc
      ∧ (saReceiveBytes ([0xAA, 0x55, 9, 5] ++ [10, 2, 0, 0x16, 0xC1]
          ++ [CRC8 (9 :: 5 :: [10, 2, 0, 0x16, 0xC1]) (2 + ((5 : Nat) : Int))]) saInitial).state
          = .S_WAITPRE1 :=
  C1_valid_frame_dispatched_once saInitial 9 5 [10, 2, 0, 0x16, 0xC1] rfl rfl (by decide) rfl

/-! ## Command encoders -/

theorem buf6_of_header (l : List Nat) (a0 a1 a2 a3 : Nat) (hlen : l.length = 6)
    (h : l.take 4 = [a0, a1, a2, a3]) : ∃ x y, l = [a0, a1, a2, a3, x, y] := by
  rcases l with _ | ⟨b0, _ | ⟨b1, _ | ⟨b2, _ | ⟨b3, _ | ⟨b4, _ | ⟨b5, _ | ⟨b6, r⟩⟩⟩⟩⟩⟩⟩ <;>
    simp at hlen
  simp at h
  obtain ⟨rfl, rfl, rfl, rfl⟩ := h
  exact ⟨b4, b5, rfl⟩

theorem buf7_of_header (l : List Nat) (a0 a1 a2 a3 : Nat) (hlen : l.length = 7)
    (h : l.take 4 = [a0, a1, a2, a3]) : ∃ x y z, l = [a0, a1, a2, a3, x, y, z] := by
  rcases l with _ | ⟨b0, _ | ⟨b1, _ | ⟨b2, _ | ⟨b3, _ | ⟨b4, _ | ⟨b5, _ | ⟨b6, _ | ⟨b7, r⟩⟩⟩⟩⟩⟩⟩⟩ <;>
    simp at hlen
  simp at h
  obtain ⟨rfl, rfl, rfl, rfl⟩ := h
  exact ⟨b4, b5, b6, rfl⟩

theorem CRC8_buf5 (a0 a1 a2 a3 a4 x : Nat) :
    CRC8 [a0, a1, a2, a3, a4, x] 5 = CRC8 [a0, a1, a2, a3, a4] 5 :=
  CRC8_congr [a0, a1, a2, a3, a4, x] [a0, a1, a2, a3, a4] 5 (by omega) (by simp) (by simp) rfl

theorem CRC8_buf6 (a0 a1 a2 a3 a4 a5 x : Nat) :
    CRC8 [a0, a1, a2, a3, a4, a5, x] 6 = CRC8 [a0, a1, a2, a3, a4, a5] 6 :=
  CRC8_congr [a0, a1, a2, a3, a4, a5, x] [a0, a1, a2, a3, a4, a5] 6 (by omega) (by simp)
    (by simp) rfl

theorem freq_hi (freq : Nat) (h : freq < 65536) : (freq >>> 8) &&& 0xff = freq >>> 8 := by
  have e := Nat.and_pow_two_sub_one_eq_mod (freq >>> 8) 8
  have e2 : (2 : Nat) ^ 8 - 1 = 0xff := by norm_num
  rw [e2] at e
  rw [e, Nat.shiftRight_eq_div_pow]
  apply Nat.mod_eq_of_lt
  have : (2 : Nat) ^ 8 = 256 := by norm_num
  rw [this]; omega

/-- The one-byte-payload encoders: header from the static initialiser, payload
byte written at index 4, CRC of the first five bytes at index 5. -/
theorem encode1 (l : List Nat) (cmd v : Nat) (hlen : l.length = 6)
    (h : l.take 4 = [0xAA, 0x55, SACMD cmd, 1]) :
    (l.set 4 v).set 5 (CRC8 (l.set 4 v) 5) = cmdFrame cmd [v] := by
  obtain ⟨x, y, rfl⟩ := buf6_of_header l _ _ _ _ hlen h
  simp only [List.set_cons_succ, List.set_cons_zero, cmdFrame, List.length_cons, List.length_nil]
  rw [CRC8_buf5]
  rfl

theorem encode2 (l : List Nat) (cmd v w : Nat) (hlen : l.length = 7)
    (h : l.take 4 = [0xAA, 0x55, SACMD cmd, 2]) :
    ((l.set 4 v).set 5 w).set 6 (CRC8 ((l.set 4 v).set 5 w) 6) = cmdFrame cmd [v, w] := by
  obtain ⟨x, y, z, rfl⟩ := buf7_of_header l _ _ _ _ hlen h
  simp only [List.set_cons_succ, List.set_cons_zero, cmdFrame, List.length_cons, List.length_nil]
  rw [CRC8_buf6]
  rfl

theorem saSetFreq_eq (freq : Nat) (s : SAState) (h : cmdBufsOK s) :
    saSetFreq freq s =
      saQueueCmd .setFreq 7
        { s with bufSetFreq := cmdFrame SA_CMD_SET_FREQ [(freq >>> 8) &&& 0xff, freq &&& 0xff] } := by
  obtain ⟨-, h1, h2, -⟩ := h
  unfold saSetFreq
  simp only []
  rw [encode2 s.bufSetFreq SA_CMD_SET_FREQ _ _ h1 h2]

theorem smartAudioSetBandChan_eq (band chan : Nat) (s : SAState) (h : cmdBufsOK s) :
    smartAudioSetBandChan band chan s =
      saQueueCmd .setBandChan 6
        { s with bufSetBandChan := cmdFrame SA_CMD_SET_CHAN [(band * 8 + chan) % 256] } := by
  obtain ⟨-, -, -, h1, h2, -⟩ := h
  unfold smartAudioSetBandChan
  simp only []
  rw [encode1 s.bufSetBandChan SA_CMD_SET_CHAN _ h1 h2]

theorem saSetMode_eq (mode : Int) (s : SAState) (h : cmdBufsOK s) :
    saSetMode mode s =
      saQueueCmd .setMode 6
        { s with bufSetMode := cmdFrame SA_CMD_SET_MODE [bits32 mode &&& 0x1f] } := by
  obtain ⟨-, -, -, -, -, h1, h2, -⟩ := h
  unfold saSetMode
  simp only []
  rw [encode1 s.bufSetMode SA_CMD_SET_MODE _ h1 h2]

theorem smartAudioSetPowerByIndex_eq (index : Nat) (s : SAState) (h : cmdBufsOK s)
    (hv : s.sa_vers ≠ 0) (hi : index ≤ 3) :
    smartAudioSetPowerByIndex index s =
      saQueueCmd .setPower 6
        { s with bufSetPower := (cmdFrame SA_CMD_SET_POWER
            [toU8 (if s.sa_vers = 1 then (saPowerTableAt index).valueV1
                   else (saPowerTableAt index).valueV2)]) } := by
  obtain ⟨-, -, -, -, -, -, -, h1, h2⟩ := h
  unfold smartAudioSetPowerByIndex
  rw [if_neg hv, if_neg (by omega)]
  simp only []
  rw [encode1 s.bufSetPower SA_CMD_SET_POWER _ h1 h2]

theorem CRC8_getSettings : CRC8 [0xAA, 0x55, 0x03, 0x00] 4 = 0x9F := by decide

theorem cmdFrame_getSettings :
    cmdFrame SA_CMD_GET_SETTINGS [] = [0xAA, 0x55, SACMD SA_CMD_GET_SETTINGS, 0x00, 0x9F] := by
  have e : SACMD SA_CMD_GET_SETTINGS = 0x03 := by decide
  simp only [cmdFrame, List.length_nil, List.append_nil, e]
  have : (4 : Int) + ((0 : Nat) : Int) = 4 := by norm_num
  rw [this, CRC8_getSettings]
  rfl

/-- C2. Every frame the command encoders build and hand to `saQueueCmd` has the
form `[0xAA, 0x55, (cmd << 1) | 1, n, payload, crc]` with `crc` the CRC8 of the
`4 + n` bytes before it (`cmdFrame`): GetSettings has `n = 0` and its constant
last byte `0x9F` is `CRC8([0xAA, 0x55, 0x03, 0x00])`; SetFrequency carries the
big-endian pair `[freq >> 8, freq & 0xFF]` for every 16-bit `freq`; SetChannel
carries `(band * 8 + chan) mod 256`; SetMode carries `mode & 0x1F`; SetPower
(when a frame is built) carries the table value for the known version. -/
theorem C2_encoder_frames (s : SAState) (h : cmdBufsOK s) :
    (saGetSettings s = saQueueCmd .getSettings 5 s
      ∧ s.bufGetSettings = cmdFrame SA_CMD_GET_SETTINGS []
      ∧ s.bufGetSettings.getD 4 0 = 0x9F
      ∧ CRC8 [0xAA, 0x55, 0x03, 0x00] 4 = 0x9F)
    ∧ (∀ freq : Nat, freq < 65536 →
        saSetFreq freq s = saQueueCmd .setFreq 7
          { s with bufSetFreq := cmdFrame SA_CMD_SET_FREQ [freq >>> 8, freq &&& 0xFF] })
    ∧ (∀ band chan : Nat,
        smartAudioSetBandChan band chan s = saQueueCmd .setBandChan 6
          { s with bufSetBandChan := cmdFrame SA_CMD_SET_CHAN [(band * 8 + chan) % 256] })
    ∧ (∀ mode : Int,
        saSetMode mode s = saQueueCmd .setMode 6
          { s with bufSetMode := cmdFrame SA_CMD_SET_MODE [bits32 mode &&& 0x1F] })
    ∧ (∀ index : Nat, s.sa_vers ≠ 0 → index ≤ 3 →
        smartAudioSetPowerByIndex index s = saQueueCmd .setPower 6
          { s with bufSetPower := (cmdFrame SA_CMD_SET_POWER
              [toU8 (if s.sa_vers = 1 then (saPowerTableAt index).valueV1
                     else (saPowerTableAt index).valueV2)]) }) := by
  refine ⟨⟨rfl, ?_, ?_, by decide⟩, ?_, ?_, ?_, ?_⟩
  · rw [h.1, cmdFrame_getSettings]
  · rw [h.1]; rfl
  · intro freq hf
    rw [saSetFreq_eq freq s h, freq_hi freq hf]
  · intro band chan
    exact smartAudioSetBandChan_eq band chan s h
  · intro mode
    exact saSetMode_eq mode s h
  · intro index hv hi
    exact smartAudioSetPowerByIndex_eq index s h hv hi

/-- C2 at a concrete input: `saSetFreq(5825)` on the engine in its initial state. -/
theorem C2_encoder_frames_witness :
    cmdBufsOK saInitial
    ∧ saSetFreq 5825 saInitial = saQueueCmd .setFreq 7
        { saInitial with bufSetFreq := cmdFrame SA_CMD_SET_FREQ [5825 >>> 8, 5825 &&& 0xFF] } :=
  ⟨by decide, (C2_encoder_frames saInitial (by decide)).2.1 5825 (by decide)⟩

/-! ## Command frames at the receiver -/

theorem saQueueCmd_bufs (b : CmdBuf) (len : Int) (s : SAState) :
    (saQueueCmd b len s).bufGetSettings = s.bufGetSettings
    ∧ (saQueueCmd b len s).bufSetFreq = s.bufSetFreq
    ∧ (saQueueCmd b len s).bufSetBandChan = s.bufSetBandChan
    ∧ (saQueueCmd b len s).bufSetMode = s.bufSetMode
    ∧ (saQueueCmd b len s).bufSetPower = s.bufSetPower
    ∧ (saQueueCmd b len s).sa_outstanding = s.sa_outstanding := by
  unfold saQueueCmd
  split_ifs <;> simp

/-- The encoder's CRC also covers the preamble, whose own CRC is `0xB4`, not
zero; the receiver's does not.  The two never agree. -/
theorem cmdFrame_crc_ne (c L : Nat) (p : List Nat) (hp : p.length = L) (hL : L ≤ 9)
    (hc : c < 256) (hpb : ∀ x ∈ p, x < 256) :
    CRC8 ([0xAA, 0x55, c, L] ++ p) (4 + (L : Int)) ≠ CRC8 (c :: L :: p) (2 + (L : Int)) := by
  have e4 : (4 + (L : Int)) = ((4 + L : Nat) : Int) := by omega
  have e2 : (2 + (L : Int)) = ((2 + L : Nat) : Int) := by omega
  rw [e4, e2, CRC8_eq_foldl _ _ (by omega) (by simp [hp]; omega),
    CRC8_eq_foldl _ _ (by omega) (by simp [hp]; omega)]
  have t4 : List.take (4 + L) ([0xAA, 0x55, c, L] ++ p) = 0xAA :: 0x55 :: c :: L :: p :=
    List.take_of_length_le (by simp [hp]; omega)
  have t2 : List.take (2 + L) (c :: L :: p) = c :: L :: p :=
    List.take_of_length_le (by simp [hp]; omega)
  rw [t4, t2]
  have hb : ∀ x ∈ c :: L :: p, x < 256 := by
    intro x hx
    rcases List.mem_cons.mp hx with rfl | hx
    · exact hc
    · rcases List.mem_cons.mp hx with rfl | hx
      · omega
      · exact hpb x hx
  have e : List.foldl crcByte 0 (0xAA :: 0x55 :: c :: L :: p)
      = List.foldl crcByte 0xB4 (c :: L :: p) := by
    have : crcByte (crcByte 0 0xAA) 0x55 = 0xB4 := by decide
    simp only [List.foldl_cons, this]
  rw [e]
  exact foldl_crcByte_ne _ hb _ _ (by omega) (by omega) (by omega)

/-- A frame whose code byte is odd and whose last byte is not the CRC the
receiver computes is taken for a command echo. -/
theorem framer_absorbs_echo (r : SAState) (c L : Nat) (p : List Nat) (crc : Nat)
    (hr : r.state = .S_WAITPRE1) (hbuf : r.sa_rbuf.length = 15) (hL : L ≤ 9)
    (hp : p.length = L) (hodd : c &&& 1 ≠ 0)
    (hcrc : crc ≠ CRC8 (c :: L :: p) (2 + (L : Int))) :
    echoAbsorbed r ([0xAA, 0x55, c, L] ++ p ++ [crc]) := by
  have hbody := framer_frame_body r c L p hr hL hp
  obtain ⟨s1, hs1⟩ : ∃ s1 : SAState, s1 = saReceiveBytes ([0xAA, 0x55, c, L] ++ p) r := ⟨_, rfl⟩
  rw [← hs1] at hbody
  have r1 : s1.sa_rbuf = frameBuf r.sa_rbuf c L p := by rw [hbody]
  have r2 : s1.len = (L : Int) := by rw [hbody]
  have r3 : s1.state = .S_WAITCRC := by rw [hbody]
  have hc : CRC8 s1.sa_rbuf (toI32 (2 + s1.len)) ≠ crc := by
    rw [r1, r2, frameBuf_CRC8 r.sa_rbuf c L p hp hL (by omega)]
    exact fun e => hcrc e.symm
  have h0 : rd s1.sa_rbuf 0 &&& 1 ≠ 0 := by
    rw [r1, frameBuf_rd0 r.sa_rbuf c L p hp (by omega)]; exact hodd
  unfold echoAbsorbed
  rw [saReceiveBytes_append, ← hs1, saReceiveBytes_cons, saReceiveBytes_nil,
    framer_crc_mismatch s1 _ r3 hc, if_pos h0]
  simp [hbody]

theorem cmdFrame_absorbed (r : SAState) (cmd : Nat) (p : List Nat)
    (hr : r.state = .S_WAITPRE1) (hbuf : r.sa_rbuf.length = 15) (hL : p.length ≤ 9)
    (hc : SACMD cmd < 256) (hodd : SACMD cmd &&& 1 ≠ 0) (hpb : ∀ x ∈ p, x < 256) :
    echoAbsorbed r (cmdFrame cmd p) := by
  unfold cmdFrame
  exact framer_absorbs_echo r (SACMD cmd) p.length p _ hr hbuf hL rfl hodd
    (cmdFrame_crc_ne (SACMD cmd) p.length p rfl hL hc hpb)

theorem SACMD_byte (cmd : Nat) (h : 1 ≤ cmd ∧ cmd ≤ 5) : SACMD cmd < 256 ∧ SACMD cmd &&& 1 ≠ 0 := by
  obtain ⟨h1, h5⟩ := h
  interval_cases cmd <;> decide

theorem and_lt_256 (x : Nat) : x &&& 0xff < 256 :=
  Nat.lt_of_le_of_lt Nat.and_le_right (by omega)

theorem toU8_lt (x : Int) : toU8 x < 256 := by
  unfold toU8; omega

/-- C3, amended to what the code does. A command frame built by any of the encoders and
fed byte by byte to `saReceiveFramer` in `S_WAITPRE1` is not accepted: the
receiver's CRC covers code, length and payload only, the encoder's also the two
preamble bytes, so the check fails; the code byte being odd, the frame is taken
for a command echo: nothing is dispatched, none of `saerr_badpre`,
`saerr_badlen`, `saerr_crc` (nor `saerr_oooresp`, `sa_pktrcvd`, the device state
or the outstanding slot) changes, and the framer ends in `S_WAITPRE1`. -/
theorem C3_command_frames_taken_for_echo (s r : SAState) (h : cmdBufsOK s)
    (hr : r.state = .S_WAITPRE1) (hbuf : r.sa_rbuf.length = 15) :
    echoAbsorbed r (saGetSettings s).bufGetSettings
    ∧ (∀ freq : Nat, echoAbsorbed r (saSetFreq freq s).bufSetFreq)
    ∧ (∀ band chan : Nat, echoAbsorbed r (smartAudioSetBandChan band chan s).bufSetBandChan)
    ∧ (∀ mode : Int, echoAbsorbed r (saSetMode mode s).bufSetMode)
    ∧ (∀ index : Nat, s.sa_vers ≠ 0 → index ≤ 3 →
        echoAbsorbed r (smartAudioSetPowerByIndex index s).bufSetPower) := by
  have b1 := SACMD_byte SA_CMD_GET_SETTINGS (by decide)
  have b2 := SACMD_byte SA_CMD_SET_POWER (by decide)
  have b3 := SACMD_byte SA_CMD_SET_CHAN (by decide)
  have b4 := SACMD_byte SA_CMD_SET_FREQ (by decide)
  have b5 := SACMD_byte SA_CMD_SET_MODE (by decide)
  refine ⟨?_, ?_, ?_, ?_, ?_⟩
  · have e : (saGetSettings s).bufGetSettings = cmdFrame SA_CMD_GET_SETTINGS [] := by
      unfold saGetSettings
      rw [(saQueueCmd_bufs _ _ _).1, h.1, cmdFrame_getSettings]
    rw [e]
    exact cmdFrame_absorbed r _ [] hr hbuf (by simp) b1.1 b1.2 (by simp)
  · intro freq
    rw [saSetFreq_eq freq s h, (saQueueCmd_bufs _ _ _).2.1]
    apply cmdFrame_absorbed r _ _ hr hbuf (by simp) b4.1 b4.2
    intro x hx
    simp only [List.mem_cons, List.mem_singleton, List.not_mem_nil, or_false] at hx
    rcases hx with rfl | rfl <;> exact and_lt_256 _
  · intro band chan
    rw [smartAudioSetBandChan_eq band chan s h, (saQueueCmd_bufs _ _ _).2.2.1]
    apply cmdFrame_absorbed r _ _ hr hbuf (by simp) b3.1 b3.2
    intro x hx
    simp only [List.mem_cons, List.mem_singleton, List.not_mem_nil, or_false] at hx
    subst hx; omega
  · intro mode
    rw [saSetMode_eq mode s h, (saQueueCmd_bufs _ _ _).2.2.2.1]
    apply cmdFrame_absorbed r _ _ hr hbuf (by simp) b5.1 b5.2
    intro x hx
    simp only [List.mem_cons, List.mem_singleton, List.not_mem_nil, or_false] at hx
    subst hx
    exact Nat.lt_of_le_of_lt Nat.and_le_right (by omega)
  · intro index hv hi
    rw [smartAudioSetPowerByIndex_eq index s h hv hi, (saQueueCmd_bufs _ _ _).2.2.2.2.1]
    apply cmdFrame_absorbed r _ _ hr hbuf (by simp) b2.1 b2.2
    intro x hx
    simp only [List.mem_cons, List.mem_singleton, List.not_mem_nil, or_false] at hx
    subst hx
    exact toU8_lt _

/-- C3 at a concrete input: the frame of `smartAudioSetBandChan(1, 2)` fed to the
framer of the engine in its initial state. -/
theorem C3_command_frames_taken_for_echo_witness :
    cmdBufsOK saInitial ∧ saInitial.state = .S_WAITPRE1 ∧ saInitial.sa_rbuf.length = 15
    ∧ echoAbsorbed saInitial (smartAudioSetBandChan 1 2 saInitial).bufSetBandChan :=
  ⟨by decide, rfl, rfl,
    (C3_command_frames_taken_for_echo saInitial saInitial (by decide) rfl rfl).2.2.1 1 2⟩

/-- C3, the claim as written fails: the GetSettings frame `AA 55 03 00 9F` built by
`saGetSettings` ends with `0x9F`, while the receiver expects `CRC8([0x03, 0x00])`,
which is `0x1D`; fed to a fresh framer the frame is not dispatched. -/
theorem C3_counterexample :
    (saGetSettings saInitial).bufGetSettings = [0xAA, 0x55, 0x03, 0x00, 0x9F]
    ∧ CRC8 [0x03, 0x00] 2 = 0x1D
    ∧ (saReceiveBytes (saGetSettings saInitial).bufGetSettings saInitial).respLog = []
    ∧ (saReceiveBytes (saGetSettings saInitial).bufGetSettings saInitial).sa_pktrcvd = 0 := by
  decide

/-! ## Resynchronisation -/

theorem framer_pre1_AA (s : SAState) (hs : s.state = .S_WAITPRE1) :
    saReceiveFramer 0xAA s = { s with state := .S_WAITPRE2 } := by
  unfold saReceiveFramer
  simp only [hs, if_true]

theorem framer_pre1_other (s : SAState) (c : Nat) (hs : s.state = .S_WAITPRE1) (hc : c ≠ 0xAA) :
    saReceiveFramer c s = s := by
  unfold saReceiveFramer
  simp only [hs, hc, if_false]
  cases s; simp_all

theorem framer_pre2_bad (s : SAState) (d : Nat) (hs : s.state = .S_WAITPRE2) (hd : d ≠ 0x55) :
    saReceiveFramer d s =
      { s with saerr_badpre := (s.saerr_badpre + 1) % 65536, state := .S_WAITPRE1 } := by
  unfold saReceiveFramer
  simp only [hs, hd, if_false]

/-- Garbage that never completes a preamble leaves the framer in `S_WAITPRE1`
and only counts the bytes refused in `S_WAITPRE2`. -/
theorem garbage_run (k : Nat) : ∀ (g : List Nat), g.length ≤ k → ∀ (n : Nat) (s : SAState),
    s.state = .S_WAITPRE1 → s.saerr_badpre < 65536 → garbageBadPre g = some n →
    saReceiveBytes g s = { s with saerr_badpre := (s.saerr_badpre + n) % 65536 } := by
  induction k with
  | zero =>
    intro g hg n s hs hpre h
    have : g = [] := List.length_eq_zero.mp (by omega)
    subst this
    simp only [garbageBadPre, Option.some.injEq] at h
    subst h
    simp [saReceiveBytes_nil, Nat.mod_eq_of_lt hpre]
  | succ k ih =>
    intro g hg n s hs hpre h
    match g, hg, h with
    | [], _, h =>
      simp only [garbageBadPre, Option.some.injEq] at h
      subst h
      simp [saReceiveBytes_nil, Nat.mod_eq_of_lt hpre]
    | [c], _, h =>
      simp only [garbageBadPre] at h
      split_ifs at h with hc
      simp only [Option.some.injEq] at h
      subst h
      rw [saReceiveBytes_cons, saReceiveBytes_nil, framer_pre1_other s c hs hc]
      simp [Nat.mod_eq_of_lt hpre]
    | c :: d :: rest, hg, h =>
      simp only [garbageBadPre] at h
      simp only [List.length_cons] at hg
      by_cases hc : c = 0xAA
      · simp only [hc, ne_eq, not_true_eq_false, if_false] at h
        by_cases hd : d = 0x55
        · simp [hd] at h
        · simp only [hd, if_false] at h
          cases hr : garbageBadPre rest with
          | none => simp [hr] at h
          | some m =>
            simp only [hr, Option.map_some', Option.some.injEq] at h
            subst h
            rw [saReceiveBytes_cons, saReceiveBytes_cons]
            have e : saReceiveFramer d (saReceiveFramer c s)
                = { s with saerr_badpre := (s.saerr_badpre + 1) % 65536 } := by
              rw [hc, framer_pre1_AA s hs, framer_pre2_bad _ d rfl hd]
              cases s; simp_all
            rw [e, ih rest (by omega) m { s with saerr_badpre := (s.saerr_badpre + 1) % 65536 }
              hs (Nat.mod_lt _ (by omega)) hr]
            simp only [SAState.mk.injEq, true_and, and_true]
            omega
      · simp only [ne_eq, hc, not_false_eq_true, if_true] at h
        rw [saReceiveBytes_cons]
        rw [framer_pre1_other s c hs hc]
        exact ih (d :: rest) (by simp only [List.length_cons]; omega) n s hs hpre h

/-- C4, amended to what the code does. For garbage `g` that the preamble states scan
without completing a preamble `0xAA 0x55` and without ending on a pending
`0xAA`, followed by a valid frame `f` with `L <= 9`: exactly one frame, `f`, is
dispatched, and `saerr_badpre` grows (modulo `2^16`) by the number `n` of bytes
refused in `S_WAITPRE2`, that is of bytes other than `0x55` that follow a
`0xAA`; bytes other than `0xAA` received in `S_WAITPRE1` are dropped without
being counted. -/
theorem C4_resync_after_garbage (s : SAState) (g : List Nat) (n c L : Nat) (p : List Nat)
    (hs : s.state = .S_WAITPRE1) (hbuf : s.sa_rbuf.length = 15) (hpre : s.saerr_badpre < 65536)
    (hg : garbageBadPre g = some n) (hL : L ≤ 9) (hp : p.length = L) :
    ∃ b : List Nat,
      (saReceiveBytes (g ++ ([0xAA, 0x55, c, L] ++ p ++ [CRC8 (c :: L :: p) (2 + (L : Int))]))
          s).respLog = s.respLog ++ [(b, (L : Int) + 2)]
      ∧ b.take (2 + L) = c :: L :: p
      ∧ (saReceiveBytes (g ++ ([0xAA, 0x55, c, L] ++ p ++ [CRC8 (c :: L :: p) (2 + (L : Int))]))
          s).saerr_badpre = (s.saerr_badpre + n) % 65536
      ∧ (saReceiveBytes (g ++ ([0xAA, 0x55, c, L] ++ p ++ [CRC8 (c :: L :: p) (2 + (L : Int))]))
          s).state = .S_WAITPRE1 := by
  rw [saReceiveBytes_append, garbage_run g.length g (Nat.le_refl _) n s hs hpre hg]
  obtain ⟨s1, r1, r4, -, r6, -, -, hrun⟩ :=
    framer_valid_frame { s with saerr_badpre := (s.saerr_badpre + n) % 65536 } c L p hs hbuf hL hp
  obtain ⟨h1, -⟩ := saProcessResponse_frame s1.sa_rbuf ((L : Int) + 2) s1
  rw [hrun]
  refine ⟨frameBuf s.sa_rbuf c L p, ?_, frameBuf_take s.sa_rbuf c L p hp (by omega), ?_, rfl⟩
  · show (saProcessResponse s1.sa_rbuf ((L : Int) + 2) s1).respLog = _
    rw [saProcessResponse_respLog, r1, r4]
  · show (saProcessResponse s1.sa_rbuf ((L : Int) + 2) s1).saerr_badpre = _
    rw [h1, r6]

/-- C4 at a concrete input: the garbage `00 AA 01 AA AA 55`, in which two bytes are
refused in `S_WAITPRE2`, followed by the frame `AA 55 01 00 crc`. -/
theorem C4_resync_after_garbage_witness :
    ∃ b : List Nat,
      (saReceiveBytes ([0x00, 0xAA, 0x01, 0xAA, 0xAA, 0x55]
          ++ ([0xAA, 0x55, 1, 0] ++ [] ++ [CRC8 (1 :: 0 :: []) (2 + ((0 : Nat) : Int))]))
          saInitial).respLog = saInitial.respLog ++ [(b, ((0 : Nat) : Int) + 2)]
      ∧ b.take (2 + 0) = 1 :: 0 :: []
      ∧ (saReceiveBytes ([0x00, 0xAA, 0x01, 0xAA, 0xAA, 0x55]
          ++ ([0xAA, 0x55, 1, 0] ++ [] ++ [CRC8 (1 :: 0 :: []) (2 + ((0 : Nat) : Int))]))
          saInitial).saerr_badpre = (saInitial.saerr_badpre + 2) % 65536
      ∧ (saReceiveBytes ([0x00, 0xAA, 0x01, 0xAA, 0xAA, 0x55]
          ++ ([0xAA, 0x55, 1, 0] ++ [] ++ [CRC8 (1 :: 0 :: []) (2 + ((0 : Nat) : Int))]))
          saInitial).state = .S_WAITPRE1 :=
  C4_resync_after_garbage saInitial [0x00, 0xAA, 0x01, 0xAA, 0xAA, 0x55] 2 1 0 [] rfl rfl
    (by decide) (by decide) (by decide) rfl

/-- C4, the claim as written fails twice.  After the garbage byte `0xAA` the
framer is in `S_WAITPRE2`, the `0xAA` of the valid frame that follows is refused
there and the frame is lost: nothing is dispatched.  After the garbage
`00 01`, two non-matching bytes were consumed before the preamble and the frame
is dispatched, but `saerr_badpre` is still 0. -/
theorem C4_counterexample :
    (saReceiveBytes ([0xAA] ++ [0xAA, 0x55, 0x01, 0x00, CRC8 [0x01, 0x00] 2]) saInitial).respLog
        = []
    ∧ (saReceiveBytes ([0x00, 0x01] ++ [0xAA, 0x55, 0x01, 0x00, CRC8 [0x01, 0x00] 2])
        saInitial).respLog.length = 1
    ∧ (saReceiveBytes ([0x00, 0x01] ++ [0xAA, 0x55, 0x01, 0x00, CRC8 [0x01, 0x00] 2])
        saInitial).saerr_badpre = 0 := by
  decide

/-- C5. In `S_WAITLEN`, a length byte of 10 or more increments `saerr_badlen`
(a `uint16_t`) by one and returns the framer to `S_WAITPRE1` in that very step,
so `S_DATA` is not entered, and nothing is dispatched; a length byte of 0 moves
to `S_WAITCRC`; a length byte in `1..9` moves to `S_DATA` with `dlen = 0`.  In
the last two cases `saerr_badlen` keeps its value and nothing is dispatched. -/
theorem C5_length_bound (s : SAState) (c : Nat) (hs : s.state = .S_WAITLEN) :
    (10 ≤ c →
      (saReceiveFramer c s).saerr_badlen = (s.saerr_badlen + 1) % 65536
      ∧ (saReceiveFramer c s).state = .S_WAITPRE1
      ∧ (saReceiveFramer c s).respLog = s.respLog)
    ∧ (c = 0 →
      (saReceiveFramer c s).state = .S_WAITCRC
      ∧ (saReceiveFramer c s).len = 0
      ∧ (saReceiveFramer c s).saerr_badlen = s.saerr_badlen
      ∧ (saReceiveFramer c s).respLog = s.respLog)
    ∧ (1 ≤ c → c ≤ 9 →
      (saReceiveFramer c s).state = .S_DATA
      ∧ (saReceiveFramer c s).dlen = 0
      ∧ (saReceiveFramer c s).len = (c : Int)
      ∧ (saReceiveFramer c s).saerr_badlen = s.saerr_badlen
      ∧ (saReceiveFramer c s).respLog = s.respLog) := by
  refine ⟨?_, ?_, ?_⟩
  · intro h
    have hgt : (c : Int) > SA_MAX_RCVLEN - 2 := by unfold SA_MAX_RCVLEN; omega
    unfold saReceiveFramer
    simp [hs, hgt]
  · intro h
    subst h
    unfold saReceiveFramer
    simp [hs, SA_MAX_RCVLEN]
  · intro h1 h9
    have hgt : ¬ (c : Int) > SA_MAX_RCVLEN - 2 := by unfold SA_MAX_RCVLEN; omega
    have h0 : ¬ (c : Int) = 0 := by omega
    unfold saReceiveFramer
    simp [hs, hgt, h0]

/-- C5 at a concrete input: the length byte 10 after `AA 55 01`. -/
theorem C5_length_bound_witness :
    (saReceiveFramer 10 (saReceiveBytes [0xAA, 0x55, 1] saInitial)).saerr_badlen
        = ((saReceiveBytes [0xAA, 0x55, 1] saInitial).saerr_badlen + 1) % 65536
    ∧ (saReceiveFramer 10 (saReceiveBytes [0xAA, 0x55, 1] saInitial)).state = .S_WAITPRE1
    ∧ (saReceiveFramer 10 (saReceiveBytes [0xAA, 0x55, 1] saInitial)).respLog
        = (saReceiveBytes [0xAA, 0x55, 1] saInitial).respLog :=
  (C5_length_bound (saReceiveBytes [0xAA, 0x55, 1] saInitial) 10 (by decide)).1 (by decide)

/-- C6. In `S_WAITCRC`, a byte that differs from the CRC8 of the first `2 + len`
buffered bytes is not dispatched: `saProcessResponse` is not called, the device
state, the stored previous tuple, the exported fields, `sa_outstanding`,
`saerr_oooresp` and `sa_pktrcvd` keep their values; `saerr_crc` (a `uint16_t`)
is incremented by one exactly when the low bit of the buffered code byte is 0
and keeps its value when that bit is 1; the framer returns to `S_WAITPRE1`. -/
theorem C6_crc_rejection (s : SAState) (x : Nat) (hs : s.state = .S_WAITCRC)
    (hx : x ≠ CRC8 s.sa_rbuf (toI32 (2 + s.len))) :
    (saReceiveFramer x s).respLog = s.respLog
    ∧ (saReceiveFramer x s).statusUpdates = s.statusUpdates
    ∧ (saReceiveFramer x s).sa_vers = s.sa_vers
    ∧ (saReceiveFramer x s).sa_chan = s.sa_chan
    ∧ (saReceiveFramer x s).sa_power = s.sa_power
    ∧ (saReceiveFramer x s).sa_opmode = s.sa_opmode
    ∧ (saReceiveFramer x s).sa_freq = s.sa_freq
    ∧ (saReceiveFramer x s).sa_pitfreq = s.sa_pitfreq
    ∧ (saReceiveFramer x s).sa_outstanding = s.sa_outstanding
    ∧ (saReceiveFramer x s).saerr_oooresp = s.saerr_oooresp
    ∧ (saReceiveFramer x s).sa_pktrcvd = s.sa_pktrcvd
    ∧ (rd s.sa_rbuf 0 &&& 1 = 0 →
        (saReceiveFramer x s).saerr_crc = (s.saerr_crc + 1) % 65536)
    ∧ (rd s.sa_rbuf 0 &&& 1 ≠ 0 → (saReceiveFramer x s).saerr_crc = s.saerr_crc)
    ∧ (saReceiveFramer x s).state = .S_WAITPRE1
    ∧ saReceiveFramer x s =
        { s with saerr_crc := (saReceiveFramer x s).saerr_crc, state := .S_WAITPRE1 } := by
  rw [framer_crc_mismatch s x hs (fun e => hx e.symm)]
  refine ⟨rfl, rfl, rfl, rfl, rfl, rfl, rfl, rfl, rfl, rfl, rfl, ?_, ?_, rfl, rfl⟩
  · intro h
    show (if rd s.sa_rbuf 0 &&& 1 ≠ 0 then s.saerr_crc else (s.saerr_crc + 1) % 65536) = _
    rw [if_neg (by simp [h])]
  · intro h
    show (if rd s.sa_rbuf 0 &&& 1 ≠ 0 then s.saerr_crc else (s.saerr_crc + 1) % 65536) = _
    rw [if_pos h]

/-- C6 at a concrete input: the byte 0 in place of the CRC after `AA 55 02 00`; the
code byte is even, so `saerr_crc` becomes 1. -/
theorem C6_crc_rejection_witness :
    (saReceiveFramer 0 (saReceiveBytes [0xAA, 0x55, 2, 0] saInitial)).respLog = []
    ∧ (saReceiveFramer 0 (saReceiveBytes [0xAA, 0x55, 2, 0] saInitial)).saerr_crc = 1
    ∧ (saReceiveFramer 0 (saReceiveBytes [0xAA, 0x55, 2, 0] saInitial)).state = .S_WAITPRE1 :=
  have h := C6_crc_rejection (saReceiveBytes [0xAA, 0x55, 2, 0] saInitial) 0 (by decide)
    (by decide)
  ⟨h.1, h.2.2.2.2.2.2.2.2.2.2.2.1 (by decide), h.2.2.2.2.2.2.2.2.2.2.2.2.2.1⟩

/-! ## Outstanding-command slot -/

theorem saProcessResponse_outstanding (buf : List Nat) (len : Int) (s : SAState) :
    (saProcessResponse buf len s).sa_outstanding
        = (saResolveOutstanding (rd buf 0) s).sa_outstanding
    ∧ (saProcessResponse buf len s).saerr_oooresp
        = (saResolveOutstanding (rd buf 0) s).saerr_oooresp := by
  simp only [saProcessResponse, saGetSettingsCase, saSetFreqCase, smartAudioUpdateStatusString,
    saResolveOutstanding_eq]
  split_ifs <;> simp

theorem saSendCmd_outstanding (buf : List Nat) (len : Int) (millis : Nat) (s : SAState) :
    (saSendCmd buf len millis s).sa_outstanding = (buf.getD 2 0 >>> 1) % 256 := by
  simp [saSendCmd, saSendFrame]

theorem saResendCmd_outstanding (millis : Nat) (s : SAState) :
    (saResendCmd millis s).sa_outstanding = s.sa_outstanding := by
  simp [saResendCmd, saSendFrame]

theorem saAutobaud_outstanding (s : SAState) :
    (saAutobaud s).sa_outstanding = s.sa_outstanding := by
  unfold saAutobaud
  simp only []
  split_ifs <;> rfl

theorem saReceiveFramer_outstanding (c : Nat) (s : SAState)
    (h : (saReceiveFramer c s).respLog = s.respLog) :
    (saReceiveFramer c s).sa_outstanding = s.sa_outstanding := by
  cases hst : s.state with
  | S_WAITPRE1 => unfold saReceiveFramer; simp only [hst]; split_ifs <;> rfl
  | S_WAITPRE2 => unfold saReceiveFramer; simp only [hst]; split_ifs <;> rfl
  | S_WAITRESP => unfold saReceiveFramer; simp only [hst]
  | S_WAITLEN => unfold saReceiveFramer; simp only [hst]; split_ifs <;> rfl
  | S_DATA => unfold saReceiveFramer; simp only [hst]; split_ifs <;> rfl
  | S_WAITCRC =>
    by_cases hc : CRC8 s.sa_rbuf (toI32 (2 + s.len)) = c
    · rw [framer_crc_match s c hst hc] at h
      have h2 : (saProcessResponse s.sa_rbuf (toI32 (s.len + 2)) s).respLog = s.respLog := h
      rw [saProcessResponse_respLog] at h2
      have := congrArg List.length h2
      simp at this
    · rw [framer_crc_mismatch s c hst hc]

theorem cmdBuf_code (s : SAState) (h : cmdBufsOK s) (b : CmdBuf) :
    ((cmdBufContents s (some b)).getD 2 0 >>> 1) % 256 = cmdBufCode b := by
  obtain ⟨h0, hf1, hf2, hb1, hb2, hm1, hm2, hp1, hp2⟩ := h
  cases b
  · simp only [cmdBufContents, h0]; decide
  · obtain ⟨x, y, z, e⟩ := buf7_of_header _ _ _ _ _ hf1 hf2
    simp only [cmdBufContents, e]
    show (SACMD SA_CMD_SET_FREQ >>> 1) % 256 = _
    decide
  · obtain ⟨x, y, e⟩ := buf6_of_header _ _ _ _ _ hb1 hb2
    simp only [cmdBufContents, e]
    show (SACMD SA_CMD_SET_CHAN >>> 1) % 256 = _
    decide
  · obtain ⟨x, y, e⟩ := buf6_of_header _ _ _ _ _ hm1 hm2
    simp only [cmdBufContents, e]
    show (SACMD SA_CMD_SET_MODE >>> 1) % 256 = _
    decide
  · obtain ⟨x, y, e⟩ := buf6_of_header _ _ _ _ _ hp1 hp2
    simp only [cmdBufContents, e]
    show (SACMD SA_CMD_SET_POWER >>> 1) % 256 = _
    decide

/-- C7. `saProcessResponse` sets `sa_outstanding` to `SA_CMD_NONE` (leaving
`saerr_oooresp`) when the response code equals the outstanding code, or is
`SA_CMD_GET_SETTINGS_V2` while `SA_CMD_GET_SETTINGS` is outstanding; in every
other case it leaves `sa_outstanding` and increments `saerr_oooresp` (a
`uint16_t`) by one.  No other path clears the slot: `saSendCmd` on the contents
of any of the encoders' buffers sets it to that buffer's command code, which is
not `SA_CMD_NONE`; a framer step that dispatches nothing, `saAutobaud`,
`saQueueCmd` and `saResendCmd` leave it. -/
theorem C7_outstanding_resolution (s : SAState) :
    (∀ (buf : List Nat) (len : Int),
      ((rd buf 0 = s.sa_outstanding
          ∨ (rd buf 0 = SA_CMD_GET_SETTINGS_V2 ∧ s.sa_outstanding = SA_CMD_GET_SETTINGS)) →
        (saProcessResponse buf len s).sa_outstanding = SA_CMD_NONE
        ∧ (saProcessResponse buf len s).saerr_oooresp = s.saerr_oooresp)
      ∧ (¬ (rd buf 0 = s.sa_outstanding
          ∨ (rd buf 0 = SA_CMD_GET_SETTINGS_V2 ∧ s.sa_outstanding = SA_CMD_GET_SETTINGS)) →
        (saProcessResponse buf len s).sa_outstanding = s.sa_outstanding
        ∧ (saProcessResponse buf len s).saerr_oooresp = (s.saerr_oooresp + 1) % 65536))
    ∧ (cmdBufsOK s → ∀ (b : CmdBuf) (len : Int) (millis : Nat),
        (saSendCmd (cmdBufContents s (some b)) len millis s).sa_outstanding = cmdBufCode b
        ∧ cmdBufCode b ≠ SA_CMD_NONE)
    ∧ (∀ c : Nat, (saReceiveFramer c s).respLog = s.respLog →
        (saReceiveFramer c s).sa_outstanding = s.sa_outstanding)
    ∧ (saAutobaud s).sa_outstanding = s.sa_outstanding
    ∧ (∀ (b : CmdBuf) (len : Int), (saQueueCmd b len s).sa_outstanding = s.sa_outstanding)
    ∧ (∀ millis : Nat, (saResendCmd millis s).sa_outstanding = s.sa_outstanding) := by
  refine ⟨?_, ?_, ?_, saAutobaud_outstanding s, ?_, ?_⟩
  · intro buf len
    obtain ⟨e1, e2⟩ := saProcessResponse_outstanding buf len s
    rw [e1, e2, saResolveOutstanding_eq]
    constructor
    · intro h
      exact ⟨if_pos h, if_pos h⟩
    · intro h
      exact ⟨if_neg h, if_neg h⟩
  · intro h b len millis
    rw [saSendCmd_outstanding, cmdBuf_code s h b]
    exact ⟨rfl, by cases b <;> decide⟩
  · intro c h
    exact saReceiveFramer_outstanding c s h
  · intro b len
    exact (saQueueCmd_bufs b len s).2.2.2.2.2
  · intro millis
    exact saResendCmd_outstanding millis s

/-- C7 at a concrete input: sending the GetSettings frame sets the slot to
`SA_CMD_GET_SETTINGS`, and a V2 GetSettings response then clears it. -/
theorem C7_outstanding_resolution_witness :
    (saSendCmd (cmdBufContents saInitial (some .getSettings)) 5 0 saInitial).sa_outstanding
        = cmdBufCode .getSettings
    ∧ cmdBufCode .getSettings ≠ SA_CMD_NONE
    ∧ (saProcessResponse [9, 5, 0, 0, 0, 0, 0] 7
        (saSendCmd (cmdBufContents saInitial (some .getSettings)) 5 0 saInitial)).sa_outstanding
        = SA_CMD_NONE :=
  ⟨((C7_outstanding_resolution saInitial).2.1 (by decide) .getSettings 5 0).1,
   ((C7_outstanding_resolution saInitial).2.1 (by decide) .getSettings 5 0).2,
   (((C7_outstanding_resolution
      (saSendCmd (cmdBufContents saInitial (some .getSettings)) 5 0 saInitial)).1
        [9, 5, 0, 0, 0, 0, 0] 7).1 (by decide)).1⟩

/-! ## GetSettings -/

set_option maxRecDepth 100000 in
theorem opmode_bits : ∀ b < 256, bits32 (toI8 (b : Nat)) &&& 2 = b &&& 2
    ∧ bits32 (toI8 (b : Nat)) &&& 4 = b &&& 4 := by
  decide

set_option maxRecDepth 100000 in
theorem chan_export : ∀ ch < 40,
    toU8 ((toI8 (ch : Nat)).tdiv 8 + 1) = ch / 8 + 1
    ∧ toU8 ((toI8 (ch : Nat)).tmod 8 + 1) = ch % 8 + 1
    ∧ saFreqTableAt ((toI8 (ch : Nat)).tdiv 8) ((toI8 (ch : Nat)).tmod 8)
        = (saFreqTable.getD (ch / 8) []).getD (ch % 8) 0 := by
  decide

theorem power_export (p : Nat) : toU8 (toI8 (p : Int) + 1) = (p + 1) % 256 := by
  unfold toU8 toI8; omega

/-- The GetSettings case when the frame is long enough and the received tuple
differs from the stored one: one record update. -/
theorem saGetSettingsCase_changed (buf : List Nat) (len : Int) (s : SAState) (hlen : ¬ len < 7)
    (hdiff : ¬ (s.sa_overs = (if rd buf 0 = SA_CMD_GET_SETTINGS then 1 else 2)
      ∧ s.sa_ochan = toI8 (rd buf 2) ∧ s.sa_opower = toI8 (rd buf 3)
      ∧ s.sa_oopmode = toI8 (rd buf 4)
      ∧ s.sa_ofreq = ((rd buf 5 <<< 8) ||| rd buf 6) % 65536)) :
    saGetSettingsCase buf len s =
      { s with
        sa_vers := if rd buf 0 = SA_CMD_GET_SETTINGS then 1 else 2
        sa_chan := toI8 (rd buf 2)
        sa_power := toI8 (rd buf 3)
        sa_opmode := toI8 (rd buf 4)
        sa_freq := ((rd buf 5 <<< 8) ||| rd buf 6) % 65536
        smartAudioBand := toU8 ((toI8 (rd buf 2)).tdiv 8 + 1)
        smartAudioChan := toU8 ((toI8 (rd buf 2)).tmod 8 + 1)
        smartAudioFreq := saFreqTableAt ((toI8 (rd buf 2)).tdiv 8) ((toI8 (rd buf 2)).tmod 8)
        smartAudioTxMode :=
          if bits32 (toI8 (rd buf 4)) &&& SA_MODE_GET_PITMODE = 0 then SA_TXMODE_ACTIVE
          else if bits32 (toI8 (rd buf 4)) &&& SA_MODE_GET_IN_RANGE_PITMODE ≠ 0 then
            SA_TXMODE_PIT_INRANGE
          else SA_TXMODE_PIT_OUTRANGE
        statusUpdates := s.statusUpdates + 1
        smartAudioPower :=
          if (if rd buf 0 = SA_CMD_GET_SETTINGS then (1 : Int) else 2) = 2 then
            toU8 (toI8 (rd buf 3) + 1)
          else toU8 (saDacToPowerIndex (toI8 (rd buf 3)) + 1)
        sa_overs := if rd buf 0 = SA_CMD_GET_SETTINGS then 1 else 2
        sa_ochan := toI8 (rd buf 2)
        sa_opower := toI8 (rd buf 3)
        sa_oopmode := toI8 (rd buf 4)
        sa_ofreq := ((rd buf 5 <<< 8) ||| rd buf 6) % 65536 } := by
  unfold saGetSettingsCase
  rw [if_neg hlen]
  simp only []
  rw [if_neg (by unfold saSettingsSame; exact hdiff)]
  rfl

/-- The GetSettings case when the received tuple equals the stored one: only
the five device-state variables are assigned. -/
theorem saGetSettingsCase_same (buf : List Nat) (len : Int) (s : SAState) (hlen : ¬ len < 7)
    (hsame : s.sa_overs = (if rd buf 0 = SA_CMD_GET_SETTINGS then 1 else 2)
      ∧ s.sa_ochan = toI8 (rd buf 2) ∧ s.sa_opower = toI8 (rd buf 3)
      ∧ s.sa_oopmode = toI8 (rd buf 4)
      ∧ s.sa_ofreq = ((rd buf 5 <<< 8) ||| rd buf 6) % 65536) :
    saGetSettingsCase buf len s =
      { s with
        sa_vers := if rd buf 0 = SA_CMD_GET_SETTINGS then 1 else 2
        sa_chan := toI8 (rd buf 2)
        sa_power := toI8 (rd buf 3)
        sa_opmode := toI8 (rd buf 4)
        sa_freq := ((rd buf 5 <<< 8) ||| rd buf 6) % 65536 } := by
  unfold saGetSettingsCase
  rw [if_neg hlen]
  simp only []
  rw [if_pos (by unfold saSettingsSame; exact hsame)]

/-- A GetSettings response goes through the outstanding-slot resolution and
then the GetSettings case. -/
theorem saProcessResponse_getSettings (buf : List Nat) (len : Int) (s : SAState)
    (hcode : rd buf 0 = SA_CMD_GET_SETTINGS ∨ rd buf 0 = SA_CMD_GET_SETTINGS_V2) :
    saProcessResponse buf len s =
      saGetSettingsCase buf len
        (saResolveOutstanding (rd buf 0) { s with respLog := s.respLog ++ [(buf, len)] }) := by
  unfold saProcessResponse
  simp only []
  rw [if_pos (by tauto)]

/-- C8. A validated GetSettings response (code `0x01` or `0x09`) with payload
length at least 5 (length argument `len >= 7`), channel byte `ch <= 39`, power
and opmode bytes, whose tuple differs from the stored previous tuple: the
protocol version becomes 1 for code `0x01` and 2 for code `0x09`; band
`ch / 8 + 1`, channel `ch % 8 + 1` and frequency `saFreqTable[ch / 8][ch % 8]` are
exported; the transmit mode is Active if opmode bit `0x02` is clear,
Pit-In-Range if bits `0x02` and `0x04` are both set, Pit-Out-Range otherwise;
for V2 the power index is `power + 1` (stored in a `uint8_t`); the
notification `smartAudioUpdateStatusString` is called exactly once; and the
received tuple becomes the stored previous tuple. -/
theorem C8_get_settings_decoding (s : SAState) (buf : List Nat) (len : Int)
    (hcode : rd buf 0 = SA_CMD_GET_SETTINGS ∨ rd buf 0 = SA_CMD_GET_SETTINGS_V2)
    (hlen : 7 ≤ len) (hch : rd buf 2 ≤ 39) (hop : rd buf 4 < 256)
    (hdiff : ¬ (s.sa_overs = (if rd buf 0 = SA_CMD_GET_SETTINGS then 1 else 2)
      ∧ s.sa_ochan = toI8 (rd buf 2) ∧ s.sa_opower = toI8 (rd buf 3)
      ∧ s.sa_oopmode = toI8 (rd buf 4)
      ∧ s.sa_ofreq = ((rd buf 5 <<< 8) ||| rd buf 6) % 65536)) :
    (saProcessResponse buf len s).sa_vers = (if rd buf 0 = SA_CMD_GET_SETTINGS then 1 else 2)
    ∧ (saProcessResponse buf len s).smartAudioBand = rd buf 2 / 8 + 1
    ∧ (saProcessResponse buf len s).smartAudioChan = rd buf 2 % 8 + 1
    ∧ (saProcessResponse buf len s).smartAudioFreq
        = (saFreqTable.getD (rd buf 2 / 8) []).getD (rd buf 2 % 8) 0
    ∧ (saProcessResponse buf len s).smartAudioTxMode
        = (if rd buf 4 &&& 0x02 = 0 then SA_TXMODE_ACTIVE
           else if rd buf 4 &&& 0x04 ≠ 0 then SA_TXMODE_PIT_INRANGE
           else SA_TXMODE_PIT_OUTRANGE)
    ∧ (rd buf 0 = SA_CMD_GET_SETTINGS_V2 →
        (saProcessResponse buf len s).smartAudioPower = (rd buf 3 + 1) % 256)
    ∧ (saProcessResponse buf len s).statusUpdates = s.statusUpdates + 1
    ∧ (saProcessResponse buf len s).sa_overs = (saProcessResponse buf len s).sa_vers
    ∧ (saProcessResponse buf len s).sa_ochan = (saProcessResponse buf len s).sa_chan
    ∧ (saProcessResponse buf len s).sa_opower = (saProcessResponse buf len s).sa_power
    ∧ (saProcessResponse buf len s).sa_oopmode = (saProcessResponse buf len s).sa_opmode
    ∧ (saProcessResponse buf len s).sa_ofreq = (saProcessResponse buf len s).sa_freq := by
  obtain ⟨e1, e2, e3⟩ := chan_export (rd buf 2) (by omega)
  obtain ⟨o2, o4⟩ := opmode_bits (rd buf 4) hop
  obtain ⟨s1, hs1⟩ : ∃ s1 : SAState, s1 = saResolveOutstanding (rd buf 0)
      { s with respLog := s.respLog ++ [(buf, len)] } := ⟨_, rfl⟩
  have q1 : s1.sa_overs = s.sa_overs := by rw [hs1, saResolveOutstanding_eq]
  have q2 : s1.sa_ochan = s.sa_ochan := by rw [hs1, saResolveOutstanding_eq]
  have q3 : s1.sa_opower = s.sa_opower := by rw [hs1, saResolveOutstanding_eq]
  have q4 : s1.sa_oopmode = s.sa_oopmode := by rw [hs1, saResolveOutstanding_eq]
  have q5 : s1.sa_ofreq = s.sa_ofreq := by rw [hs1, saResolveOutstanding_eq]
  have q6 : s1.statusUpdates = s.statusUpdates := by rw [hs1, saResolveOutstanding_eq]
  rw [saProcessResponse_getSettings buf len s hcode, ← hs1,
    saGetSettingsCase_changed buf len s1 (by omega) (by rw [q1, q2, q3, q4, q5]; exact hdiff)]
  refine ⟨rfl, e1, e2, e3, ?_, ?_, by rw [← q6], rfl, rfl, rfl, rfl, rfl⟩
  · show (if bits32 (toI8 (rd buf 4)) &&& SA_MODE_GET_PITMODE = 0 then SA_TXMODE_ACTIVE
        else if bits32 (toI8 (rd buf 4)) &&& SA_MODE_GET_IN_RANGE_PITMODE ≠ 0 then
          SA_TXMODE_PIT_INRANGE
        else SA_TXMODE_PIT_OUTRANGE) = _
    have p2 : SA_MODE_GET_PITMODE = 2 := rfl
    have p4 : SA_MODE_GET_IN_RANGE_PITMODE = 4 := rfl
    rw [p2, p4, o2, o4]
  · intro hv2
    have hne : ¬ rd buf 0 = SA_CMD_GET_SETTINGS := by
      rw [hv2]; decide
    show (if (if rd buf 0 = SA_CMD_GET_SETTINGS then (1 : Int) else 2) = 2 then
        toU8 (toI8 (rd buf 3) + 1)
      else toU8 (saDacToPowerIndex (toI8 (rd buf 3)) + 1)) = _
    rw [if_neg hne, if_pos rfl, power_export]

/-- C8, the scenario of the specification: on a freshly initialised engine, a V2
GetSettings frame with channel 10, power 2, opmode 0 and frequency 5825 gives
version V2, band 2, channel 3, transmit mode Active, power index 3 and one
notification. -/
theorem C8_get_settings_decoding_witness :
    (saProcessResponse [9, 5, 10, 2, 0, 0x16, 0xC1] 7 saInitial).sa_vers = 2
    ∧ (saProcessResponse [9, 5, 10, 2, 0, 0x16, 0xC1] 7 saInitial).smartAudioBand = 2
    ∧ (saProcessResponse [9, 5, 10, 2, 0, 0x16, 0xC1] 7 saInitial).smartAudioChan = 3
    ∧ (saProcessResponse [9, 5, 10, 2, 0, 0x16, 0xC1] 7 saInitial).smartAudioTxMode
        = SA_TXMODE_ACTIVE
    ∧ (saProcessResponse [9, 5, 10, 2, 0, 0x16, 0xC1] 7 saInitial).smartAudioPower = 3
    ∧ (saProcessResponse [9, 5, 10, 2, 0, 0x16, 0xC1] 7 saInitial).statusUpdates = 1 :=
  have h := C8_get_settings_decoding saInitial [9, 5, 10, 2, 0, 0x16, 0xC1] 7
    (by decide) (by decide) (by decide) (by decide) (by decide)
  ⟨h.1, h.2.1, h.2.2.1, h.2.2.2.2.1, h.2.2.2.2.2.1 (by decide), h.2.2.2.2.2.2.1⟩

/-- C9, the code at the failing inputs: `saDacToPowerIndex` scans the table upward
and returns the first index whose V1 value is `<= dac`, which is index 0 for the
V1 value of every table entry; a V1 GetSettings response that reports power 16
(the V1 value of index 1) yields the power index 1, not 2. -/
theorem C9_dac_lookup_at_table_values :
    saDacToPowerIndex (saPowerTableAt 0).valueV1 = 0
    ∧ saDacToPowerIndex (saPowerTableAt 1).valueV1 = 0
    ∧ saDacToPowerIndex (saPowerTableAt 2).valueV1 = 0
    ∧ saDacToPowerIndex (saPowerTableAt 3).valueV1 = 0
    ∧ (saPowerTableAt 1).valueV1 = 16
    ∧ (saProcessResponse [1, 5, 0, 16, 0, 0x16, 0xE9] 7 saInitial).smartAudioPower = 1 := by
  decide

/-! ## Idempotent settings update -/

/-- After a GetSettings response of sufficient length, the device state and the
stored previous tuple both hold the received tuple. -/
theorem saProcessResponse_getSettings_tuple (s : SAState) (buf : List Nat) (len : Int)
    (hcode : rd buf 0 = SA_CMD_GET_SETTINGS ∨ rd buf 0 = SA_CMD_GET_SETTINGS_V2)
    (hlen : 7 ≤ len) :
    (saProcessResponse buf len s).sa_overs = (if rd buf 0 = SA_CMD_GET_SETTINGS then 1 else 2)
    ∧ (saProcessResponse buf len s).sa_ochan = toI8 (rd buf 2)
    ∧ (saProcessResponse buf len s).sa_opower = toI8 (rd buf 3)
    ∧ (saProcessResponse buf len s).sa_oopmode = toI8 (rd buf 4)
    ∧ (saProcessResponse buf len s).sa_ofreq = ((rd buf 5 <<< 8) ||| rd buf 6) % 65536
    ∧ (saProcessResponse buf len s).sa_vers = (if rd buf 0 = SA_CMD_GET_SETTINGS then 1 else 2)
    ∧ (saProcessResponse buf len s).sa_chan = toI8 (rd buf 2)
    ∧ (saProcessResponse buf len s).sa_power = toI8 (rd buf 3)
    ∧ (saProcessResponse buf len s).sa_opmode = toI8 (rd buf 4)
    ∧ (saProcessResponse buf len s).sa_freq = ((rd buf 5 <<< 8) ||| rd buf 6) % 65536 := by
  obtain ⟨s1, hs1⟩ : ∃ s1 : SAState, s1 = saResolveOutstanding (rd buf 0)
      { s with respLog := s.respLog ++ [(buf, len)] } := ⟨_, rfl⟩
  rw [saProcessResponse_getSettings buf len s hcode, ← hs1]
  by_cases hsame : s1.sa_overs = (if rd buf 0 = SA_CMD_GET_SETTINGS then 1 else 2)
      ∧ s1.sa_ochan = toI8 (rd buf 2) ∧ s1.sa_opower = toI8 (rd buf 3)
      ∧ s1.sa_oopmode = toI8 (rd buf 4)
      ∧ s1.sa_ofreq = ((rd buf 5 <<< 8) ||| rd buf 6) % 65536
  · rw [saGetSettingsCase_same buf len s1 (by omega) hsame]
    obtain ⟨a1, a2, a3, a4, a5⟩ := hsame
    exact ⟨a1, a2, a3, a4, a5, rfl, rfl, rfl, rfl, rfl⟩
  · rw [saGetSettingsCase_changed buf len s1 (by omega) hsame]
    exact ⟨rfl, rfl, rfl, rfl, rfl, rfl, rfl, rfl, rfl, rfl⟩

/-- A GetSettings response whose tuple is the stored previous tuple: no
notification, no export, and the previous tuple stays. -/
theorem saProcessResponse_getSettings_same (s : SAState) (buf : List Nat) (len : Int)
    (hcode : rd buf 0 = SA_CMD_GET_SETTINGS ∨ rd buf 0 = SA_CMD_GET_SETTINGS_V2)
    (hlen : 7 ≤ len)
    (hsame : s.sa_overs = (if rd buf 0 = SA_CMD_GET_SETTINGS then 1 else 2)
      ∧ s.sa_ochan = toI8 (rd buf 2) ∧ s.sa_opower = toI8 (rd buf 3)
      ∧ s.sa_oopmode = toI8 (rd buf 4)
      ∧ s.sa_ofreq = ((rd buf 5 <<< 8) ||| rd buf 6) % 65536) :
    (saProcessResponse buf len s).statusUpdates = s.statusUpdates
    ∧ (saProcessResponse buf len s).sa_pitfreq = s.sa_pitfreq
    ∧ (saProcessResponse buf len s).sa_overs = s.sa_overs
    ∧ (saProcessResponse buf len s).sa_ochan = s.sa_ochan
    ∧ (saProcessResponse buf len s).sa_opower = s.sa_opower
    ∧ (saProcessResponse buf len s).sa_oopmode = s.sa_oopmode
    ∧ (saProcessResponse buf len s).sa_ofreq = s.sa_ofreq
    ∧ (saProcessResponse buf len s).smartAudioBand = s.smartAudioBand
    ∧ (saProcessResponse buf len s).smartAudioChan = s.smartAudioChan
    ∧ (saProcessResponse buf len s).smartAudioFreq = s.smartAudioFreq
    ∧ (saProcessResponse buf len s).smartAudioPower = s.smartAudioPower
    ∧ (saProcessResponse buf len s).smartAudioTxMode = s.smartAudioTxMode := by
  obtain ⟨s1, hs1⟩ : ∃ s1 : SAState, s1 = saResolveOutstanding (rd buf 0)
      { s with respLog := s.respLog ++ [(buf, len)] } := ⟨_, rfl⟩
  have q1 : s1.sa_overs = s.sa_overs := by rw [hs1, saResolveOutstanding_eq]
  have q2 : s1.sa_ochan = s.sa_ochan := by rw [hs1, saResolveOutstanding_eq]
  have q3 : s1.sa_opower = s.sa_opower := by rw [hs1, saResolveOutstanding_eq]
  have q4 : s1.sa_oopmode = s.sa_oopmode := by rw [hs1, saResolveOutstanding_eq]
  have q5 : s1.sa_ofreq = s.sa_ofreq := by rw [hs1, saResolveOutstanding_eq]
  have q6 : s1.statusUpdates = s.statusUpdates := by rw [hs1, saResolveOutstanding_eq]
  have q7 : s1.sa_pitfreq = s.sa_pitfreq := by rw [hs1, saResolveOutstanding_eq]
  have q8 : s1.smartAudioBand = s.smartAudioBand := by rw [hs1, saResolveOutstanding_eq]
  have q9 : s1.smartAudioChan = s.smartAudioChan := by rw [hs1, saResolveOutstanding_eq]
  have q10 : s1.smartAudioFreq = s.smartAudioFreq := by rw [hs1, saResolveOutstanding_eq]
  have q11 : s1.smartAudioPower = s.smartAudioPower := by rw [hs1, saResolveOutstanding_eq]
  have q12 : s1.smartAudioTxMode = s.smartAudioTxMode := by rw [hs1, saResolveOutstanding_eq]
  rw [saProcessResponse_getSettings buf len s hcode, ← hs1,
    saGetSettingsCase_same buf len s1 (by omega) (by rw [q1, q2, q3, q4, q5]; exact hsame)]
  exact ⟨q6, q7, q1, q2, q3, q4, q5, q8, q9, q10, q11, q12⟩

/-- C10. For a GetSettings response `buf` (code `0x01` or `0x09`, length argument
`len >= 7`, i.e. payload length at least 5): delivered twice in a row to a
freshly initialised engine, the notification is called exactly once, on the
first delivery; and from any engine state, the second of two consecutive
deliveries calls no notification and leaves every device-state variable, the
stored previous tuple and every exported variable as the first delivery left
them. -/
theorem C10_idempotent_settings_update (buf : List Nat) (len : Int)
    (hcode : rd buf 0 = SA_CMD_GET_SETTINGS ∨ rd buf 0 = SA_CMD_GET_SETTINGS_V2)
    (hlen : 7 ≤ len) :
    (∀ portOpened : Bool,
      (saProcessResponse buf len (smartAudioInit portOpened saInitial)).statusUpdates = 1
      ∧ (saProcessResponse buf len
          (saProcessResponse buf len (smartAudioInit portOpened saInitial))).statusUpdates = 1)
    ∧ (∀ s : SAState,
      (saProcessResponse buf len (saProcessResponse buf len s)).statusUpdates
          = (saProcessResponse buf len s).statusUpdates
      ∧ (saProcessResponse buf len (saProcessResponse buf len s)).sa_vers
          = (saProcessResponse buf len s).sa_vers
      ∧ (saProcessResponse buf len (saProcessResponse buf len s)).sa_chan
          = (saProcessResponse buf len s).sa_chan
      ∧ (saProcessResponse buf len (saProcessResponse buf len s)).sa_power
          = (saProcessResponse buf len s).sa_power
      ∧ (saProcessResponse buf len (saProcessResponse buf len s)).sa_opmode
          = (saProcessResponse buf len s).sa_opmode
      ∧ (saProcessResponse buf len (saProcessResponse buf len s)).sa_freq
          = (saProcessResponse buf len s).sa_freq
      ∧ (saProcessResponse buf len (saProcessResponse buf len s)).sa_pitfreq
          = (saProcessResponse buf len s).sa_pitfreq
      ∧ (saProcessResponse buf len (saProcessResponse buf len s)).sa_overs
          = (saProcessResponse buf len s).sa_overs
      ∧ (saProcessResponse buf len (saProcessResponse buf len s)).sa_ochan
          = (saProcessResponse buf len s).sa_ochan
      ∧ (saProcessResponse buf len (saProcessResponse buf len s)).sa_opower
          = (saProcessResponse buf len s).sa_opower
      ∧ (saProcessResponse buf len (saProcessResponse buf len s)).sa_oopmode
          = (saProcessResponse buf len s).sa_oopmode
      ∧ (saProcessResponse buf len (saProcessResponse buf len s)).sa_ofreq
          = (saProcessResponse buf len s).sa_ofreq
      ∧ (saProcessResponse buf len (saProcessResponse buf len s)).smartAudioBand
          = (saProcessResponse buf len s).smartAudioBand
      ∧ (saProcessResponse buf len (saProcessResponse buf len s)).smartAudioChan
          = (saProcessResponse buf len s).smartAudioChan
      ∧ (saProcessResponse buf len (saProcessResponse buf len s)).smartAudioFreq
          = (saProcessResponse buf len s).smartAudioFreq
      ∧ (saProcessResponse buf len (saProcessResponse buf len s)).smartAudioPower
          = (saProcessResponse buf len s).smartAudioPower
      ∧ (saProcessResponse buf len (saProcessResponse buf len s)).smartAudioTxMode
          = (saProcessResponse buf len s).smartAudioTxMode) := by
  have second : ∀ s : SAState, _ := fun s =>
    saProcessResponse_getSettings_same (saProcessResponse buf len s) buf len hcode hlen
      (by
        obtain ⟨a1, a2, a3, a4, a5, -⟩ := saProcessResponse_getSettings_tuple s buf len hcode hlen
        exact ⟨a1, a2, a3, a4, a5⟩)
  constructor
  · intro portOpened
    have first : (saProcessResponse buf len (smartAudioInit portOpened saInitial)).statusUpdates
        = 1 := by
      obtain ⟨s1, hs1⟩ : ∃ s1 : SAState, s1 = saResolveOutstanding (rd buf 0)
          { smartAudioInit portOpened saInitial with
            respLog := (smartAudioInit portOpened saInitial).respLog ++ [(buf, len)] } :=
        ⟨_, rfl⟩
      have q1 : s1.sa_overs = 0 := by rw [hs1, saResolveOutstanding_eq]; rfl
      have q6 : s1.statusUpdates = 0 := by rw [hs1, saResolveOutstanding_eq]; rfl
      have hdiff : ¬ (s1.sa_overs = (if rd buf 0 = SA_CMD_GET_SETTINGS then 1 else 2)
          ∧ s1.sa_ochan = toI8 (rd buf 2) ∧ s1.sa_opower = toI8 (rd buf 3)
          ∧ s1.sa_oopmode = toI8 (rd buf 4)
          ∧ s1.sa_ofreq = ((rd buf 5 <<< 8) ||| rd buf 6) % 65536) := by
        rintro ⟨a1, -⟩
        rw [q1] at a1
        split_ifs at a1 <;> omega
      rw [saProcessResponse_getSettings buf len _ hcode, ← hs1,
        saGetSettingsCase_changed buf len s1 (by omega) hdiff]
      show s1.statusUpdates + 1 = 1
      rw [q6]
    exact ⟨first, by rw [(second _).1, first]⟩
  · intro s
    obtain ⟨-, -, -, -, -, t1, t2, t3, t4, t5⟩ :=
      saProcessResponse_getSettings_tuple s buf len hcode hlen
    obtain ⟨-, -, -, -, -, u1, u2, u3, u4, u5⟩ :=
      saProcessResponse_getSettings_tuple (saProcessResponse buf len s) buf len hcode hlen
    obtain ⟨b1, b2, b3, b4, b5, b6, b7, b8, b9, b10, b11, b12⟩ := second s
    exact ⟨b1, by rw [u1, t1], by rw [u2, t2], by rw [u3, t3], by rw [u4, t4], by rw [u5, t5],
      b2, b3, b4, b5, b6, b7, b8, b9, b10, b11, b12⟩

/-- C10 at a concrete input: the V2 GetSettings buffer of the scenario, delivered
twice to a freshly initialised engine. -/
theorem C10_idempotent_settings_update_witness :
    (saProcessResponse [9, 5, 10, 2, 0, 0x16, 0xC1] 7
        (smartAudioInit true saInitial)).statusUpdates = 1
    ∧ (saProcessResponse [9, 5, 10, 2, 0, 0x16, 0xC1] 7
        (saProcessResponse [9, 5, 10, 2, 0, 0x16, 0xC1] 7
          (smartAudioInit true saInitial))).statusUpdates = 1 :=
  (C10_idempotent_settings_update [9, 5, 10, 2, 0, 0x16, 0xC1] 7 (by decide) (by decide)).1 true

/-! ## Autobaud -/

/-- `saAutobaud` touches the link statistics, the direction, the baud rate and
the record of `serialSetBaudRate` calls, and nothing else. -/
theorem saAutobaud_frame (s : SAState) :
    saAutobaud s = { s with
      sa_pktsent := (saAutobaud s).sa_pktsent
      sa_pktrcvd := (saAutobaud s).sa_pktrcvd
      adjdir := (saAutobaud s).adjdir
      smartAudioSmartbaud := (saAutobaud s).smartAudioSmartbaud
      baudLog := (saAutobaud s).baudLog } := by
  unfold saAutobaud
  simp only []
  split_ifs <;> rfl

theorem saAutobaud_few (s : SAState) (h : s.sa_pktsent < 10) : saAutobaud s = s := by
  unfold saAutobaud
  rw [if_pos h]

theorem saAutobaud_healthy (s : SAState) (h : ¬ s.sa_pktsent < 10)
    (hr : (toI32 (s.sa_pktrcvd * 100)).tdiv s.sa_pktsent ≥ 70) :
    saAutobaud s = { s with sa_pktsent := 0, sa_pktrcvd := 0 } := by
  unfold saAutobaud
  rw [if_neg h, if_pos hr]

/-- The adjusting branch of `saAutobaud`, with the direction after the flip
test as `d`. -/
theorem saAutobaud_adjust (s : SAState) (h : ¬ s.sa_pktsent < 10)
    (hr : ¬ (toI32 (s.sa_pktrcvd * 100)).tdiv s.sa_pktsent ≥ 70) :
    saAutobaud s = { s with
      adjdir :=
        if s.adjdir = 1 ∧ s.smartAudioSmartbaud = SMARTBAUD_MAX then -1
        else if s.adjdir = -1 ∧ s.smartAudioSmartbaud = SMARTBAUD_MIN then 1
        else s.adjdir
      smartAudioSmartbaud := toU16 ((s.smartAudioSmartbaud : Int) + toI32 (baudstep *
        (if s.adjdir = 1 ∧ s.smartAudioSmartbaud = SMARTBAUD_MAX then -1
        else if s.adjdir = -1 ∧ s.smartAudioSmartbaud = SMARTBAUD_MIN then 1
        else s.adjdir)))
      baudLog := s.baudLog ++ [toU16 ((s.smartAudioSmartbaud : Int) + toI32 (baudstep *
        (if s.adjdir = 1 ∧ s.smartAudioSmartbaud = SMARTBAUD_MAX then -1
        else if s.adjdir = -1 ∧ s.smartAudioSmartbaud = SMARTBAUD_MIN then 1
        else s.adjdir)))]
      sa_pktsent := 0
      sa_pktrcvd := 0 } := by
  unfold saAutobaud
  rw [if_neg h, if_neg hr]
  simp only []
  split_ifs <;> rfl

theorem ratio_exact (rcvd sent : Int) (h0 : 0 ≤ rcvd) (h1 : rcvd ≤ 21474836) (hs : 0 < sent) :
    (toI32 (rcvd * 100)).tdiv sent = rcvd * 100 / sent := by
  rw [toI32_small _ (by omega) (by omega)]
  exact Int.tdiv_eq_ediv (by omega) (by omega)

/-- C17. `saAutobaud`: (a) with fewer than 10 packets sent nothing changes;
(b) with at least 10 sent and `(received * 100) / sent >= 70` both counters are
reset to 0 and nothing else changes (baud rate, direction, no call of the
transport); (c) otherwise, the direction being up (1) or down (-1), the baud
rate changes by exactly 50 (in `uint16_t` arithmetic): upward when the direction
is up and the rate is not 4950, downward after the flip when it is up at 4950,
downward when it is down and the rate is not 4800, upward after the flip when
it is down at 4800; the new rate is handed to `serialSetBaudRate` and both
counters are reset to 0.  The quotient is the C expression on `int`; it is the
mathematical `(received * 100) / sent` whenever `received * 100` fits an
`int`. -/
theorem C17_autobaud_evaluation (s : SAState) :
    (s.sa_pktsent < 10 → saAutobaud s = s)
    ∧ (10 ≤ s.sa_pktsent → (toI32 (s.sa_pktrcvd * 100)).tdiv s.sa_pktsent ≥ 70 →
        saAutobaud s = { s with sa_pktsent := 0, sa_pktrcvd := 0 })
    ∧ (10 ≤ s.sa_pktsent → (toI32 (s.sa_pktrcvd * 100)).tdiv s.sa_pktsent < 70 →
        (saAutobaud s).sa_pktsent = 0
        ∧ (saAutobaud s).sa_pktrcvd = 0
        ∧ (saAutobaud s).baudLog = s.baudLog ++ [(saAutobaud s).smartAudioSmartbaud]
        ∧ (s.adjdir = 1 → s.smartAudioSmartbaud ≠ SMARTBAUD_MAX →
            (saAutobaud s).smartAudioSmartbaud = toU16 ((s.smartAudioSmartbaud : Int) + 50)
            ∧ (saAutobaud s).adjdir = 1)
        ∧ (s.adjdir = 1 → s.smartAudioSmartbaud = SMARTBAUD_MAX →
            (saAutobaud s).smartAudioSmartbaud = 4900 ∧ (saAutobaud s).adjdir = -1)
        ∧ (s.adjdir = -1 → s.smartAudioSmartbaud ≠ SMARTBAUD_MIN →
            (saAutobaud s).smartAudioSmartbaud = toU16 ((s.smartAudioSmartbaud : Int) - 50)
            ∧ (saAutobaud s).adjdir = -1)
        ∧ (s.adjdir = -1 → s.smartAudioSmartbaud = SMARTBAUD_MIN →
            (saAutobaud s).smartAudioSmartbaud = 4850 ∧ (saAutobaud s).adjdir = 1))
    ∧ (0 ≤ s.sa_pktrcvd → s.sa_pktrcvd ≤ 21474836 → 0 < s.sa_pktsent →
        (toI32 (s.sa_pktrcvd * 100)).tdiv s.sa_pktsent = s.sa_pktrcvd * 100 / s.sa_pktsent) := by
  refine ⟨saAutobaud_few s, ?_, ?_, ratio_exact _ _⟩
  · intro h hr
    exact saAutobaud_healthy s (by omega) hr
  · intro h hr
    rw [saAutobaud_adjust s (by omega) (by omega)]
    refine ⟨rfl, rfl, rfl, ?_, ?_, ?_, ?_⟩
    · intro hd hb
      simp [hd, hb, baudstep, toI32]
    · intro hd hb
      simp [hd, hb, baudstep, toI32, SMARTBAUD_MAX, toU16]
    · intro hd hb
      simp [hd, hb, baudstep, toI32]
      rfl
    · intro hd hb
      simp [hd, hb, baudstep, toI32, SMARTBAUD_MIN, toU16]

/-- C17 at concrete inputs, the scenario of the specification: from 4800 going
up, an evaluation with 10 sent and 0 received raises the rate to 4850; repeated,
the rates handed to the transport are 4850, 4900, 4950 and, after the flip to
the downward direction at 4950, 4900. -/
theorem C17_autobaud_evaluation_witness :
    ((saAutobaud { saInitial with sa_pktsent := 10, sa_pktrcvd := 0 }).smartAudioSmartbaud
        = toU16 (((4800 : Nat) : Int) + 50)
      ∧ (saAutobaud { saInitial with sa_pktsent := 10, sa_pktrcvd := 0 }).adjdir = 1)
    ∧ (autobaudRun [(10, 0), (10, 0), (10, 0), (10, 0)] saInitial).baudLog
        = [4850, 4900, 4950, 4900]
    ∧ (autobaudRun [(10, 0), (10, 0), (10, 0), (10, 0)] saInitial).adjdir = -1 :=
  ⟨((C17_autobaud_evaluation { saInitial with sa_pktsent := 10, sa_pktrcvd := 0 }).2.2.1
      (by decide) (by decide)).2.2.2.1 (by decide) (by decide),
    by decide, by decide⟩

/-- One evaluation keeps the rate on the four steps of the search range, the
direction on up or down, and the rates handed to the transport in the range. -/
theorem autobaud_inv_step (s : SAState)
    (hb : s.smartAudioSmartbaud = 4800 ∨ s.smartAudioSmartbaud = 4850
      ∨ s.smartAudioSmartbaud = 4900 ∨ s.smartAudioSmartbaud = 4950)
    (hd : s.adjdir = 1 ∨ s.adjdir = -1)
    (hl : ∀ v ∈ s.baudLog, SMARTBAUD_MIN ≤ v ∧ v ≤ SMARTBAUD_MAX) :
    ((saAutobaud s).smartAudioSmartbaud = 4800 ∨ (saAutobaud s).smartAudioSmartbaud = 4850
      ∨ (saAutobaud s).smartAudioSmartbaud = 4900 ∨ (saAutobaud s).smartAudioSmartbaud = 4950)
    ∧ ((saAutobaud s).adjdir = 1 ∨ (saAutobaud s).adjdir = -1)
    ∧ (∀ v ∈ (saAutobaud s).baudLog, SMARTBAUD_MIN ≤ v ∧ v ≤ SMARTBAUD_MAX) := by
  by_cases h : s.sa_pktsent < 10
  · rw [saAutobaud_few s h]; exact ⟨hb, hd, hl⟩
  · by_cases hr : (toI32 (s.sa_pktrcvd * 100)).tdiv s.sa_pktsent ≥ 70
    · rw [saAutobaud_healthy s h hr]; exact ⟨hb, hd, hl⟩
    · rw [saAutobaud_adjust s h hr]
      have key : ∀ (b : Nat) (d : Int), (b = 4800 ∨ b = 4850 ∨ b = 4900 ∨ b = 4950) →
          (d = 1 ∨ d = -1) →
          ((toU16 ((b : Int) + toI32 (baudstep *
              (if d = 1 ∧ b = SMARTBAUD_MAX then -1
               else if d = -1 ∧ b = SMARTBAUD_MIN then 1 else d))) = 4800
            ∨ toU16 ((b : Int) + toI32 (baudstep *
              (if d = 1 ∧ b = SMARTBAUD_MAX then -1
               else if d = -1 ∧ b = SMARTBAUD_MIN then 1 else d))) = 4850
            ∨ toU16 ((b : Int) + toI32 (baudstep *
              (if d = 1 ∧ b = SMARTBAUD_MAX then -1
               else if d = -1 ∧ b = SMARTBAUD_MIN then 1 else d))) = 4900
            ∨ toU16 ((b : Int) + toI32 (baudstep *
              (if d = 1 ∧ b = SMARTBAUD_MAX then -1
               else if d = -1 ∧ b = SMARTBAUD_MIN then 1 else d))) = 4950)
          ∧ ((if d = 1 ∧ b = SMARTBAUD_MAX then (-1 : Int)
               else if d = -1 ∧ b = SMARTBAUD_MIN then 1 else d) = 1
            ∨ (if d = 1 ∧ b = SMARTBAUD_MAX then (-1 : Int)
               else if d = -1 ∧ b = SMARTBAUD_MIN then 1 else d) = -1)) := by
        intro b d hb hd
        rcases hb with rfl | rfl | rfl | rfl <;> rcases hd with rfl | rfl <;> decide
      obtain ⟨k1, k2⟩ := key s.smartAudioSmartbaud s.adjdir hb hd
      refine ⟨k1, k2, ?_⟩
      intro v hv
      rcases List.mem_append.mp hv with hv | hv
      · exact hl v hv
      · rw [List.mem_singleton] at hv
        have hv2 : v = 4800 ∨ v = 4850 ∨ v = 4900 ∨ v = 4950 := by rw [hv]; exact k1
        unfold SMARTBAUD_MIN SMARTBAUD_MAX
        omega

theorem autobaud_inv_run (stats : List (Int × Int)) : ∀ (s : SAState),
    (s.smartAudioSmartbaud = 4800 ∨ s.smartAudioSmartbaud = 4850
      ∨ s.smartAudioSmartbaud = 4900 ∨ s.smartAudioSmartbaud = 4950) →
    (s.adjdir = 1 ∨ s.adjdir = -1) →
    (∀ v ∈ s.baudLog, SMARTBAUD_MIN ≤ v ∧ v ≤ SMARTBAUD_MAX) →
    ((autobaudRun stats s).smartAudioSmartbaud = 4800
      ∨ (autobaudRun stats s).smartAudioSmartbaud = 4850
      ∨ (autobaudRun stats s).smartAudioSmartbaud = 4900
      ∨ (autobaudRun stats s).smartAudioSmartbaud = 4950)
    ∧ ((autobaudRun stats s).adjdir = 1 ∨ (autobaudRun stats s).adjdir = -1)
    ∧ (∀ v ∈ (autobaudRun stats s).baudLog, SMARTBAUD_MIN ≤ v ∧ v ≤ SMARTBAUD_MAX) := by
  induction stats with
  | nil => intro s hb hd hl; exact ⟨hb, hd, hl⟩
  | cons p ps ih =>
    intro s hb hd hl
    obtain ⟨a, b, c⟩ := autobaud_inv_step { s with sa_pktsent := p.1, sa_pktrcvd := p.2 } hb hd hl
    exact ih _ a b c

/-- C19. In every state reached from the initial state (baud 4800, direction up)
by any sequence of `saAutobaud` calls, whatever the sent and received counters
are at each call, the baud rate is one of 4800, 4850, 4900, 4950, the direction
is 1 or -1, and every value handed to `serialSetBaudRate` lies in 4800..4950. -/
theorem C19_autobaud_range_invariant (stats : List (Int × Int)) :
    ((autobaudRun stats saInitial).smartAudioSmartbaud = 4800
      ∨ (autobaudRun stats saInitial).smartAudioSmartbaud = 4850
      ∨ (autobaudRun stats saInitial).smartAudioSmartbaud = 4900
      ∨ (autobaudRun stats saInitial).smartAudioSmartbaud = 4950)
    ∧ ((autobaudRun stats saInitial).adjdir = 1 ∨ (autobaudRun stats saInitial).adjdir = -1)
    ∧ (∀ v ∈ (autobaudRun stats saInitial).baudLog, 4800 ≤ v ∧ v ≤ 4950) := by
  have h := autobaud_inv_run stats saInitial (Or.inl rfl) (Or.inl rfl)
    (by intro v hv; simp [saInitial] at hv)
  exact h

/-! ## CRC8 and single-bit errors -/

theorem crcByte_inj_right (a x y : Nat) (ha : a < 256) (hx : x < 256) (hy : y < 256)
    (h : crcByte a x = crcByte a y) : x = y := by
  unfold crcByte at h
  have hax : a ^^^ x < 256 := Nat.xor_lt_two_pow (n := 8) ha hx
  have hay : a ^^^ y < 256 := Nat.xor_lt_two_pow (n := 8) ha hy
  rw [Nat.mod_eq_of_lt hax, Nat.mod_eq_of_lt hay] at h
  have s := crcShift_lt
  have e : a ^^^ x = a ^^^ y := by
    repeat (first | exact h | (apply crcShift_inj _ _ (by first | exact s _ | assumption) (by first | exact s _ | assumption)))
  exact Nat.xor_right_injective e

set_option maxRecDepth 100000 in
theorem flip_bit_byte : ∀ j < 8, ∀ x < 256, x ^^^ 2 ^ j < 256 ∧ x ^^^ 2 ^ j ≠ x := by
  decide

/-- C18. `CRC8` detects every single-bit error: for every byte sequence of
length 1..127 (the lengths the `int8_t` parameter admits), written
`pre ++ x :: post`, and every bit `j` of the byte `x`, the sequence with that
bit flipped has a different CRC8.  (The bytes of `pre` need no bound: the
accumulator is a byte after every step.) -/
theorem C18_crc8_single_bit_error (pre post : List Nat) (x j : Nat)
    (hx : x < 256) (hpost : ∀ b ∈ post, b < 256) (hj : j < 8)
    (hlen : (pre ++ x :: post).length ≤ 127) :
    CRC8 (pre ++ (x ^^^ 2 ^ j) :: post) ((pre ++ x :: post).length : Nat)
      ≠ CRC8 (pre ++ x :: post) ((pre ++ x :: post).length : Nat) := by
  obtain ⟨hf, hne⟩ := flip_bit_byte j hj x hx
  have hl : (pre ++ (x ^^^ 2 ^ j) :: post).length = (pre ++ x :: post).length := by simp
  rw [CRC8_eq_foldl _ _ (by omega) (by rw [hl]), CRC8_eq_foldl _ _ (by omega) (Nat.le_refl _)]
  rw [← hl, List.take_length, hl, List.take_length]
  simp only [List.foldl_append, List.foldl_cons]
  have ha : List.foldl crcByte 0 pre < 256 := foldl_crcByte_lt pre 0 (by omega)
  apply foldl_crcByte_ne post hpost _ _ (crcByte_lt _ _) (crcByte_lt _ _)
  intro e
  exact hne (crcByte_inj_right _ _ _ ha hf hx e)

/-- C18 at a concrete input: bit 6 of the payload byte `0x40` of the
get-pit-frequency frame. -/
theorem C18_crc8_single_bit_error_witness :
    CRC8 ([0xAA, 0x55, 0x09, 0x02] ++ (0x40 ^^^ 2 ^ 6) :: [0x00])
        (([0xAA, 0x55, 0x09, 0x02] ++ 0x40 :: [0x00]).length : Nat)
      ≠ CRC8 ([0xAA, 0x55, 0x09, 0x02] ++ 0x40 :: [0x00])
        (([0xAA, 0x55, 0x09, 0x02] ++ 0x40 :: [0x00]).length : Nat) :=
  C18_crc8_single_bit_error [0xAA, 0x55, 0x09, 0x02] [0x00] 0x40 6 (by decide) (by decide)
    (by decide) (by decide)

/-! ## Echo of a transmitted frame -/

theorem saSendFrame_eq (buf : List Nat) (len : Int) (millis : Nat) (s : SAState) :
    saSendFrame buf len millis s = { s with
      serialOut := s.serialOut ++ wireBytes buf len
      sa_lastTransmission := millis % 4294967296
      sa_pktsent := toI32 (s.sa_pktsent + 1) } := by
  simp [saSendFrame, wireBytes]

theorem range_map_getD (f : List Nat) :
    (List.range f.length).map (fun i => f.getD i 0) = f := by
  apply List.ext_getElem
  · simp
  · intro i h1 h2
    simp [List.getElem?_eq_getElem h2]

theorem wireBytes_full (f : List Nat) : wireBytes f (f.length : Nat) = [0x00] ++ f ++ [0x00] := by
  unfold wireBytes
  rw [Int.toNat_ofNat, range_map_getD]

theorem echoAbsorbed_wire (r : SAState) (f : List Nat) (hr : r.state = .S_WAITPRE1)
    (h : echoAbsorbed r f) : echoAbsorbed r ([0x00] ++ f ++ [0x00]) := by
  unfold echoAbsorbed at h ⊢
  have e1 : saReceiveBytes [0x00] r = r := by
    rw [saReceiveBytes_cons, saReceiveBytes_nil, framer_pre1_other r 0 hr (by decide)]
  have e2 : saReceiveBytes [0x00] (saReceiveBytes f r) = saReceiveBytes f r := by
    rw [saReceiveBytes_cons, saReceiveBytes_nil,
      framer_pre1_other _ 0 h.2.2.2.2.2.2.2.2.2.2.2.2.2.2 (by decide)]
  have e : saReceiveBytes ([0x00] ++ f ++ [0x00]) r = saReceiveBytes f r := by
    rw [saReceiveBytes_append, saReceiveBytes_append, e1, e2]
  rw [e]
  exact h

theorem cmdFrame_length (cmd : Nat) (p : List Nat) : (cmdFrame cmd p).length = p.length + 5 := by
  simp [cmdFrame]

/-- The bytes `saSendFrame` writes for a command frame come back unnoticed. -/
theorem cmdFrame_wire_absorbed (r : SAState) (cmd : Nat) (p : List Nat) (n : Nat)
    (hn : n = p.length + 5)
    (hr : r.state = .S_WAITPRE1) (hbuf : r.sa_rbuf.length = 15) (hL : p.length ≤ 9)
    (hc : SACMD cmd < 256) (hodd : SACMD cmd &&& 1 ≠ 0) (hpb : ∀ x ∈ p, x < 256) :
    echoAbsorbed r (wireBytes (cmdFrame cmd p) (n : Nat)) := by
  rw [hn, ← cmdFrame_length cmd p, wireBytes_full]
  exact echoAbsorbed_wire r _ hr (cmdFrame_absorbed r cmd p hr hbuf hL hc hodd hpb)

/-- C20. For every command frame built by one of the encoders, the bytes
`saSendFrame` writes for it (a leading `0x00`, the frame, a trailing `0x00`),
echoed into `saReceiveFramer` in `S_WAITPRE1`, are never dispatched to
`saProcessResponse`; none of `saerr_badpre`, `saerr_badlen`, `saerr_crc`,
`saerr_oooresp`, `sa_pktrcvd` changes, the device state and `sa_outstanding` are
left alone, and the framer ends in `S_WAITPRE1`.  The first conjunct says what
`saSendFrame` writes. -/
theorem C20_echo_absorption (s r : SAState) (h : cmdBufsOK s)
    (hr : r.state = .S_WAITPRE1) (hbuf : r.sa_rbuf.length = 15) :
    (∀ (buf : List Nat) (len : Int) (millis : Nat) (t : SAState),
      (saSendFrame buf len millis t).serialOut = t.serialOut ++ wireBytes buf len)
    ∧ echoAbsorbed r (wireBytes (saGetSettings s).bufGetSettings 5)
    ∧ (∀ freq : Nat, echoAbsorbed r (wireBytes (saSetFreq freq s).bufSetFreq 7))
    ∧ (∀ band chan : Nat,
        echoAbsorbed r (wireBytes (smartAudioSetBandChan band chan s).bufSetBandChan 6))
    ∧ (∀ mode : Int, echoAbsorbed r (wireBytes (saSetMode mode s).bufSetMode 6))
    ∧ (∀ index : Nat, s.sa_vers ≠ 0 → index ≤ 3 →
        echoAbsorbed r (wireBytes (smartAudioSetPowerByIndex index s).bufSetPower 6)) := by
  have b1 := SACMD_byte SA_CMD_GET_SETTINGS (by decide)
  have b2 := SACMD_byte SA_CMD_SET_POWER (by decide)
  have b3 := SACMD_byte SA_CMD_SET_CHAN (by decide)
  have b4 := SACMD_byte SA_CMD_SET_FREQ (by decide)
  have b5 := SACMD_byte SA_CMD_SET_MODE (by decide)
  refine ⟨?_, ?_, ?_, ?_, ?_, ?_⟩
  · intro buf len millis t
    rw [saSendFrame_eq]
  · have e : (saGetSettings s).bufGetSettings = cmdFrame SA_CMD_GET_SETTINGS [] := by
      unfold saGetSettings
      rw [(saQueueCmd_bufs _ _ _).1, h.1, cmdFrame_getSettings]
    rw [e]
    exact cmdFrame_wire_absorbed r _ [] 5 rfl hr hbuf (by simp) b1.1 b1.2 (by simp)
  · intro freq
    rw [saSetFreq_eq freq s h, (saQueueCmd_bufs _ _ _).2.1]
    apply cmdFrame_wire_absorbed r SA_CMD_SET_FREQ [(freq >>> 8) &&& 0xff, freq &&& 0xff] 7 rfl
      hr hbuf (by simp) b4.1 b4.2
    intro x hx
    simp only [List.mem_cons, List.mem_singleton, List.not_mem_nil, or_false] at hx
    rcases hx with rfl | rfl <;> exact and_lt_256 _
  · intro band chan
    rw [smartAudioSetBandChan_eq band chan s h, (saQueueCmd_bufs _ _ _).2.2.1]
    apply cmdFrame_wire_absorbed r SA_CMD_SET_CHAN [(band * 8 + chan) % 256] 6 rfl
      hr hbuf (by simp) b3.1 b3.2
    intro x hx
    simp only [List.mem_cons, List.mem_singleton, List.not_mem_nil, or_false] at hx
    subst hx; omega
  · intro mode
    rw [saSetMode_eq mode s h, (saQueueCmd_bufs _ _ _).2.2.2.1]
    apply cmdFrame_wire_absorbed r SA_CMD_SET_MODE [bits32 mode &&& 0x1f] 6 rfl
      hr hbuf (by simp) b5.1 b5.2
    intro x hx
    simp only [List.mem_cons, List.mem_singleton, List.not_mem_nil, or_false] at hx
    subst hx
    exact Nat.lt_of_le_of_lt Nat.and_le_right (by omega)
  · intro index hv hi
    rw [smartAudioSetPowerByIndex_eq index s h hv hi, (saQueueCmd_bufs _ _ _).2.2.2.2.1]
    apply cmdFrame_wire_absorbed r SA_CMD_SET_POWER
      [toU8 (if s.sa_vers = 1 then (saPowerTableAt index).valueV1
             else (saPowerTableAt index).valueV2)] 6 rfl
      hr hbuf (by simp) b2.1 b2.2
    intro x hx
    simp only [List.mem_cons, List.mem_singleton, List.not_mem_nil, or_false] at hx
    subst hx
    exact toU8_lt _

/-- C20 at a concrete input: the echo of the GetSettings frame as the first tick
transmits it, `00 AA 55 03 00 9F 00`, on the engine in its initial state. -/
theorem C20_echo_absorption_witness :
    wireBytes (saGetSettings saInitial).bufGetSettings 5 = [0x00, 0xAA, 0x55, 0x03, 0x00, 0x9F, 0x00]
    ∧ echoAbsorbed saInitial (wireBytes (saGetSettings saInitial).bufGetSettings 5) :=
  ⟨by decide, (C20_echo_absorption saInitial saInitial (by decide) rfl rfl).2.1⟩

/-! ## Command queue -/

theorem list4 (q : List saCmdQueue_t) (h : q.length = 4) : ∃ a b c d, q = [a, b, c, d] := by
  rcases q with _ | ⟨a, _ | ⟨b, _ | ⟨c, _ | ⟨d, _ | ⟨e, r⟩⟩⟩⟩⟩ <;> simp at h
  exact ⟨a, b, c, d, rfl⟩

theorem saQueueCmd_full (b : CmdBuf) (len : Int) (s : SAState) (h : saQueueFull s = true) :
    saQueueCmd b len s = s := by
  unfold saQueueCmd
  rw [if_pos h]

theorem saQueueCmd_notfull (b : CmdBuf) (len : Int) (s : SAState) (h : saQueueFull s = false) :
    saQueueCmd b len s = { s with
      sa_queue := s.sa_queue.set s.sa_qhead ⟨some b, len⟩
      sa_qhead := (s.sa_qhead + 1) % SA_QSIZE } := by
  unfold saQueueCmd
  rw [if_neg (by simp [h])]

/-- In a well-formed queue the pending count is below `SA_QSIZE`, and the queue
is full exactly at `SA_QSIZE - 1` pending entries, empty exactly at none. -/
theorem queue_count (s : SAState) (hq : queueOK s) :
    saQueueLength s ≤ 3
    ∧ (saQueueFull s = true ↔ saQueueLength s = 3)
    ∧ (saQueueEmpty s = true ↔ saQueueLength s = 0)
    ∧ (pending s).length = saQueueLength s := by
  obtain ⟨-, hh, ht⟩ := hq
  unfold pending saQueueLength saQueueFull saQueueEmpty SA_QSIZE
  simp only [List.length_map, List.length_range, beq_iff_eq]
  refine ⟨?_, ?_, ?_, trivial⟩
  · split_ifs <;> omega
  · split_ifs <;> omega
  · split_ifs <;> omega

theorem pending_push (b : CmdBuf) (len : Int) (s : SAState) (hq : queueOK s)
    (hf : saQueueFull s = false) :
    pending (saQueueCmd b len s) = pending s ++ [⟨some b, len⟩]
    ∧ queueOK (saQueueCmd b len s) := by
  rw [saQueueCmd_notfull b len s hf]
  obtain ⟨hl, hh, ht⟩ := hq
  obtain ⟨q0, q1, q2, q3, hqe⟩ := list4 s.sa_queue hl
  unfold saQueueFull at hf
  unfold pending saQueueLength queueOK SA_QSIZE at *
  simp only [hqe, beq_eq_false_iff_ne, ne_eq] at hf ⊢
  generalize s.sa_qhead = h at *
  generalize s.sa_qtail = t at *
  interval_cases h <;> interval_cases t <;> simp at hf <;> simp [List.range_succ]

theorem pending_pop (s : SAState) (hq : queueOK s) (hne : saQueueEmpty s = false) :
    pending s = s.sa_queue.getD s.sa_qtail ⟨none, 0⟩
      :: pending { s with sa_qtail := (s.sa_qtail + 1) % SA_QSIZE }
    ∧ queueOK { s with sa_qtail := (s.sa_qtail + 1) % SA_QSIZE } := by
  obtain ⟨hl, hh, ht⟩ := hq
  obtain ⟨q0, q1, q2, q3, hqe⟩ := list4 s.sa_queue hl
  unfold saQueueEmpty at hne
  unfold pending saQueueLength queueOK SA_QSIZE at *
  simp only [hqe, beq_eq_false_iff_ne, ne_eq] at hne ⊢
  generalize s.sa_qhead = h at *
  generalize s.sa_qtail = t at *
  interval_cases h <;> interval_cases t <;> simp at hne <;> simp [List.range_succ]

theorem copyFrame_len (buf : List Nat) (len : Int) (os : List Nat) :
    (copyFrame buf len os).length = os.length := by
  unfold copyFrame
  generalize len.toNat = n
  induction n with
  | zero => rfl
  | succ n ih =>
    rw [List.range_succ, List.foldl_append]
    simp only [List.foldl_cons, List.foldl_nil, List.length_set]
    exact ih

theorem copyFrame_getD (buf os : List Nat) : ∀ (n : Nat), n ≤ os.length → ∀ i : Nat,
    ((List.range n).foldl (fun os i => os.set i (buf.getD i 0)) os).getD i 0
      = if i < n then buf.getD i 0 else os.getD i 0 := by
  intro n
  induction n with
  | zero => intro _ i; simp
  | succ n ih =>
    intro hn i
    rw [List.range_succ, List.foldl_append]
    simp only [List.foldl_cons, List.foldl_nil]
    have hlen : ((List.range n).foldl (fun os i => os.set i (buf.getD i 0)) os).length
        = os.length := by
      have := copyFrame_len buf (n : Int) os
      simpa [copyFrame] using this
    by_cases hi : i = n
    · subst hi
      rw [List.getD_eq_getElem?_getD, List.getElem?_set, if_pos rfl,
        if_pos (by rw [hlen]; omega), if_pos (by omega)]
      rfl
    · have h1 := ih (by omega) i
      simp only [List.getD_eq_getElem?_getD] at h1 ⊢
      rw [List.getElem?_set, if_neg (fun e => hi e.symm), h1]
      by_cases hlt : i < n
      · rw [if_pos hlt, if_pos (by omega)]
      · rw [if_neg hlt, if_neg (by omega)]

/-- The copy in the outstanding-frame buffer goes out on the wire as the frame
itself. -/
theorem wireBytes_copy (buf os : List Nat) (len : Int) (h : len.toNat ≤ os.length) :
    wireBytes (copyFrame buf len os) len = wireBytes buf len := by
  unfold wireBytes
  congr 2
  apply List.map_congr_left
  intro i hi
  rw [List.mem_range] at hi
  unfold copyFrame
  rw [copyFrame_getD buf os len.toNat h i, if_pos hi]

theorem saSendCmd_eq (buf : List Nat) (len : Int) (millis : Nat) (s : SAState) :
    saSendCmd buf len millis s = { s with
      sa_osbuf := copyFrame buf len s.sa_osbuf
      sa_oslen := len
      sa_outstanding := (buf.getD 2 0 >>> 1) % 256
      serialOut := s.serialOut ++ wireBytes (copyFrame buf len s.sa_osbuf) len
      sa_lastTransmission := millis % 4294967296
      sa_pktsent := toI32 (s.sa_pktsent + 1) } := by
  unfold saSendCmd
  simp only [saSendFrame_eq]
  rfl

theorem saSendQueue_empty (millis : Nat) (s : SAState) (h : saQueueEmpty s = true) :
    saSendQueue millis s = s := by
  unfold saSendQueue
  rw [if_pos h]

theorem saSendQueue_eq (millis : Nat) (s : SAState) (h : saQueueEmpty s = false) :
    saSendQueue millis s = { s with
      sa_osbuf := copyFrame (cmdBufContents s (s.sa_queue.getD s.sa_qtail ⟨none, 0⟩).buf)
        (s.sa_queue.getD s.sa_qtail ⟨none, 0⟩).len s.sa_osbuf
      sa_oslen := (s.sa_queue.getD s.sa_qtail ⟨none, 0⟩).len
      sa_outstanding :=
        ((cmdBufContents s (s.sa_queue.getD s.sa_qtail ⟨none, 0⟩).buf).getD 2 0 >>> 1) % 256
      serialOut := s.serialOut ++ wireBytes
        (copyFrame (cmdBufContents s (s.sa_queue.getD s.sa_qtail ⟨none, 0⟩).buf)
          (s.sa_queue.getD s.sa_qtail ⟨none, 0⟩).len s.sa_osbuf)
        (s.sa_queue.getD s.sa_qtail ⟨none, 0⟩).len
      sa_lastTransmission := millis % 4294967296
      sa_pktsent := toI32 (s.sa_pktsent + 1)
      sa_qtail := (s.sa_qtail + 1) % SA_QSIZE } := by
  unfold saSendQueue
  rw [if_neg (by simp [h])]
  simp only [saSendCmd_eq]

/-- One `saSendQueue` on a non-empty queue: the oldest entry leaves the queue,
the bytes its buffer holds now go out on the wire, and the outstanding slot
keeps a copy of them. -/
theorem saSendQueue_step (millis : Nat) (s : SAState) (e : saCmdQueue_t)
    (rest : List saCmdQueue_t) (hq : queueOK s) (hos : s.sa_osbuf.length = 32)
    (hp : pending s = e :: rest) (hlen : e.len ≤ 32) :
    (saSendQueue millis s).serialOut = s.serialOut ++ wireBytes (cmdBufContents s e.buf) e.len
    ∧ pending (saSendQueue millis s) = rest
    ∧ queueOK (saSendQueue millis s)
    ∧ (saSendQueue millis s).sa_osbuf.length = 32
    ∧ (∀ k, cmdBufContents (saSendQueue millis s) k = cmdBufContents s k)
    ∧ wireBytes (saSendQueue millis s).sa_osbuf (saSendQueue millis s).sa_oslen
        = wireBytes (cmdBufContents s e.buf) e.len
    ∧ (saSendQueue millis s).sa_oslen = e.len
    ∧ (saSendQueue millis s).sa_outstanding = ((cmdBufContents s e.buf).getD 2 0 >>> 1) % 256
    ∧ (saSendQueue millis s).sa_pktsent = toI32 (s.sa_pktsent + 1)
    ∧ (saSendQueue millis s).sa_lastTransmission = millis % 4294967296 := by
  have hne : saQueueEmpty s = false := by
    cases h : saQueueEmpty s with
    | false => rfl
    | true =>
      have := (queue_count s hq).2.2.1.mp h
      have hl := (queue_count s hq).2.2.2
      rw [hp, this] at hl
      simp at hl
  obtain ⟨hpop, hq2⟩ := pending_pop s hq hne
  rw [hp] at hpop
  obtain ⟨he, hrest⟩ := List.cons.inj hpop
  have hcopy : (e.len).toNat ≤ s.sa_osbuf.length := by rw [hos]; omega
  rw [saSendQueue_eq millis s hne, ← he]
  refine ⟨?_, ?_, hq2, ?_, ?_, ?_, rfl, rfl, rfl, rfl⟩
  · show s.serialOut ++ wireBytes (copyFrame (cmdBufContents s e.buf) e.len s.sa_osbuf) e.len = _
    rw [wireBytes_copy _ _ _ hcopy]
  · rw [hrest]; rfl
  · show (copyFrame (cmdBufContents s e.buf) e.len s.sa_osbuf).length = 32
    rw [copyFrame_len, hos]
  · intro k
    rcases k with _ | k
    · rfl
    · cases k <;> rfl
  · show wireBytes (copyFrame (cmdBufContents s e.buf) e.len s.sa_osbuf) e.len = _
    rw [wireBytes_copy _ _ _ hcopy]

theorem sendAll_cons (m : Nat) (ms : List Nat) (s : SAState) :
    sendAll (m :: ms) s = sendAll ms (saSendQueue m s) := rfl

/-- Successive `saSendQueue` calls transmit the pending entries oldest first,
each as the bytes its command buffer holds; the buffers are not written by
sending. -/
theorem sendAll_fifo (ms : List Nat) : ∀ (s : SAState), queueOK s → s.sa_osbuf.length = 32 →
    (∀ e ∈ pending s, e.len ≤ 32) → ms.length ≤ (pending s).length →
    (sendAll ms s).serialOut = s.serialOut
        ++ (((pending s).take ms.length).map
              (fun e => wireBytes (cmdBufContents s e.buf) e.len)).flatten
    ∧ pending (sendAll ms s) = (pending s).drop ms.length
    ∧ queueOK (sendAll ms s)
    ∧ (sendAll ms s).sa_osbuf.length = 32
    ∧ (∀ k, cmdBufContents (sendAll ms s) k = cmdBufContents s k) := by
  induction ms with
  | nil =>
    intro s hq hos _ _
    exact ⟨by simp [sendAll], rfl, hq, hos, fun _ => rfl⟩
  | cons m ms ih =>
    intro s hq hos hl hn
    match hp : pending s, hn with
    | [], hn => simp at hn
    | e :: rest, hn =>
      have he : e.len ≤ 32 := hl e (by rw [hp]; exact List.mem_cons_self _ _)
      obtain ⟨a1, a2, a3, a4, a5, -⟩ := saSendQueue_step m s e rest hq hos hp he
      have hl2 : ∀ x ∈ pending (saSendQueue m s), x.len ≤ 32 := by
        intro x hx
        rw [a2] at hx
        exact hl x (by rw [hp]; exact List.mem_cons_of_mem _ hx)
      have hn2 : ms.length ≤ (pending (saSendQueue m s)).length := by
        rw [a2]; simp only [List.length_cons] at hn; omega
      obtain ⟨b1, b2, b3, b4, b5⟩ := ih (saSendQueue m s) a3 a4 hl2 hn2
      rw [sendAll_cons]
      refine ⟨?_, ?_, b3, b4, fun k => by rw [b5 k, a5 k]⟩
      · rw [b1, a1, a2]
        simp only [List.length_cons, List.take_succ_cons, List.map_cons, List.flatten_cons,
          List.append_assoc]
        congr 2
        congr 1
        apply List.map_congr_left
        intro x _
        rw [a5]
      · rw [b2, a2]
        simp

theorem cmdBufContents_queueCmd (b : CmdBuf) (len : Int) (s : SAState) (k : Option CmdBuf) :
    cmdBufContents (saQueueCmd b len s) k = cmdBufContents s k := by
  obtain ⟨h1, h2, h3, h4, h5, -⟩ := saQueueCmd_bufs b len s
  rcases k with _ | k
  · rfl
  · cases k <;> simp only [cmdBufContents, h1, h2, h3, h4, h5]

theorem saQueueCmd_changes (b : CmdBuf) (len : Int) (s : SAState) (hf : saQueueFull s = false) :
    (saQueueCmd b len s).sa_qhead = (s.sa_qhead + 1) % SA_QSIZE
    ∧ (saQueueCmd b len s).sa_qhead ≠ s.sa_qhead
    ∧ (saQueueCmd b len s).sa_qtail = s.sa_qtail
    ∧ (saQueueCmd b len s).sa_queue = s.sa_queue.set s.sa_qhead ⟨some b, len⟩ := by
  rw [saQueueCmd_notfull b len s hf]
  refine ⟨rfl, ?_, rfl, rfl⟩
  show (s.sa_qhead + 1) % SA_QSIZE ≠ s.sa_qhead
  unfold SA_QSIZE
  omega

set_option maxRecDepth 100000 in
theorem power_values : ∀ index < 4,
    ((toU8 (saPowerTableAt index).valueV1 : Nat) : Int) = (saPowerTableAt index).valueV1
    ∧ ((toU8 (saPowerTableAt index).valueV2 : Nat) : Int) = (saPowerTableAt index).valueV2 := by
  decide

/-- C11. `smartAudioSetPowerByIndex(index)` does nothing at all when the
protocol version is unknown (`sa_vers == 0`) or `index > 3`.  Otherwise it
builds the 6-byte frame `[0xAA, 0x55, 0x05, 0x01, v, CRC8 of the 5 bytes before]`
with `v` the table's V1 value when the version is 1 and its V2 value when the
version is 2, and hands it to `saQueueCmd` with length 6; when the queue is not
full, exactly this one entry is added behind the pending ones (head advanced,
tail kept).  So, on a queue that is not full, the queue is left unchanged if and
only if the version is unknown or the index is above 3. -/
theorem C11_set_power_by_index (s : SAState) (index : Nat) (h : cmdBufsOK s) :
    ((s.sa_vers = 0 ∨ index > 3) → smartAudioSetPowerByIndex index s = s)
    ∧ (s.sa_vers ≠ 0 → index ≤ 3 →
        (smartAudioSetPowerByIndex index s).bufSetPower
            = [0xAA, 0x55, 0x05, 0x01,
                toU8 (if s.sa_vers = 1 then (saPowerTableAt index).valueV1
                      else (saPowerTableAt index).valueV2),
                CRC8 [0xAA, 0x55, 0x05, 0x01,
                  toU8 (if s.sa_vers = 1 then (saPowerTableAt index).valueV1
                        else (saPowerTableAt index).valueV2)] 5]
        ∧ (s.sa_vers = 1 →
            (((smartAudioSetPowerByIndex index s).bufSetPower.getD 4 0 : Nat) : Int)
              = (saPowerTableAt index).valueV1)
        ∧ (s.sa_vers = 2 →
            (((smartAudioSetPowerByIndex index s).bufSetPower.getD 4 0 : Nat) : Int)
              = (saPowerTableAt index).valueV2)
        ∧ (saQueueFull s = false →
            (smartAudioSetPowerByIndex index s).sa_queue
                = s.sa_queue.set s.sa_qhead ⟨some .setPower, 6⟩
            ∧ (smartAudioSetPowerByIndex index s).sa_qhead = (s.sa_qhead + 1) % SA_QSIZE
            ∧ (smartAudioSetPowerByIndex index s).sa_qtail = s.sa_qtail
            ∧ (queueOK s →
                pending (smartAudioSetPowerByIndex index s)
                  = pending s ++ [⟨some .setPower, 6⟩])))
    ∧ (saQueueFull s = false →
        (((smartAudioSetPowerByIndex index s).sa_queue = s.sa_queue
            ∧ (smartAudioSetPowerByIndex index s).sa_qhead = s.sa_qhead
            ∧ (smartAudioSetPowerByIndex index s).sa_qtail = s.sa_qtail)
          ↔ (s.sa_vers = 0 ∨ index > 3))) := by
  have hfail : (s.sa_vers = 0 ∨ index > 3) → smartAudioSetPowerByIndex index s = s := by
    intro hc
    unfold smartAudioSetPowerByIndex
    rcases hc with hc | hc
    · rw [if_pos hc]
    · by_cases hv : s.sa_vers = 0
      · rw [if_pos hv]
      · rw [if_neg hv, if_pos hc]
  refine ⟨hfail, ?_, ?_⟩
  · intro hv hi
    have e := smartAudioSetPowerByIndex_eq index s h hv hi
    have hb : (smartAudioSetPowerByIndex index s).bufSetPower
        = cmdFrame SA_CMD_SET_POWER
            [toU8 (if s.sa_vers = 1 then (saPowerTableAt index).valueV1
                   else (saPowerTableAt index).valueV2)] := by
      rw [e, (saQueueCmd_bufs _ _ _).2.2.2.2.1]
    obtain ⟨p1, p2⟩ := power_values index (by omega)
    refine ⟨?_, ?_, ?_, ?_⟩
    · rw [hb]; rfl
    · intro h1
      rw [hb, if_pos h1]
      exact p1
    · intro h2
      rw [hb, if_neg (by omega)]
      exact p2
    · intro hf
      obtain ⟨s1, hs1⟩ : ∃ s1 : SAState, s1 = { s with bufSetPower := (cmdFrame SA_CMD_SET_POWER
            [toU8 (if s.sa_vers = 1 then (saPowerTableAt index).valueV1
                   else (saPowerTableAt index).valueV2)]) } := ⟨_, rfl⟩
      rw [e, ← hs1]
      have hf2 : saQueueFull s1 = false := by rw [hs1]; exact hf
      obtain ⟨c1, -, c3, c4⟩ := saQueueCmd_changes .setPower 6 s1 hf2
      refine ⟨by rw [c4, hs1], by rw [c1, hs1], by rw [c3, hs1], ?_⟩
      intro hq
      have hq1 : queueOK s1 := by rw [hs1]; exact hq
      rw [(pending_push .setPower 6 s1 hq1 hf2).1, hs1]
      rfl
  · intro hf
    constructor
    · rintro ⟨-, hh, -⟩
      by_contra hc
      have hv : s.sa_vers ≠ 0 := fun e => hc (Or.inl e)
      have hi : index ≤ 3 := by
        by_contra hi
        exact hc (Or.inr (by omega))
      obtain ⟨s1, hs1⟩ : ∃ s1 : SAState, s1 = { s with bufSetPower := (cmdFrame SA_CMD_SET_POWER
            [toU8 (if s.sa_vers = 1 then (saPowerTableAt index).valueV1
                   else (saPowerTableAt index).valueV2)]) } := ⟨_, rfl⟩
      rw [smartAudioSetPowerByIndex_eq index s h hv hi, ← hs1] at hh
      have hf2 : saQueueFull s1 = false := by rw [hs1]; exact hf
      have hh1 : s1.sa_qhead = s.sa_qhead := by rw [hs1]
      rw [← hh1] at hh
      exact (saQueueCmd_changes .setPower 6 s1 hf2).2.1 hh
    · intro hc
      rw [hfail hc]
      exact ⟨rfl, rfl, rfl⟩

/-- C11 at a concrete input: index 2 on an engine that knows version 2 and has an
empty queue: the frame `AA 55 05 01 02 crc` is the one pending entry. -/
theorem C11_set_power_by_index_witness :
    (smartAudioSetPowerByIndex 2 { saInitial with sa_vers := 2 }).bufSetPower
        = [0xAA, 0x55, 0x05, 0x01,
            toU8 (if ({ saInitial with sa_vers := 2 } : SAState).sa_vers = 1
                  then (saPowerTableAt 2).valueV1 else (saPowerTableAt 2).valueV2),
            CRC8 [0xAA, 0x55, 0x05, 0x01,
              toU8 (if ({ saInitial with sa_vers := 2 } : SAState).sa_vers = 1
                    then (saPowerTableAt 2).valueV1 else (saPowerTableAt 2).valueV2)] 5]
    ∧ pending (smartAudioSetPowerByIndex 2 { saInitial with sa_vers := 2 })
        = [⟨some .setPower, 6⟩] :=
  ⟨((C11_set_power_by_index { saInitial with sa_vers := 2 } 2 (by decide)).2.1
      (by decide) (by decide)).1,
   (((C11_set_power_by_index { saInitial with sa_vers := 2 } 2 (by decide)).2.1
      (by decide) (by decide)).2.2.2 (by decide)).2.2.2 (by decide)⟩

theorem sendAll_snoc (ms : List Nat) (m : Nat) (s : SAState) :
    sendAll (ms ++ [m]) s = saSendQueue m (sendAll ms s) := by
  simp [sendAll, List.foldl_append]

/-- C12, amended to what the code does. The queue array has `SA_QSIZE = 4` slots,
one of which stays free to tell a full queue from an empty one, so at most 3
frames are pending: `saQueueCmd` drops a frame, leaving everything unchanged,
exactly when 3 frames are pending, and otherwise appends it behind the pending
ones.  Starting from an empty queue, three consecutive calls of `saQueueCmd` are
all retained and a fourth is dropped; three later `saSendQueue` calls send the
three frames in order and a fourth sends nothing. -/
theorem C12_queue_capacity (s : SAState) (hq : queueOK s) :
    saQueueLength s ≤ 3
    ∧ (∀ (b : CmdBuf) (len : Int), saQueueLength s = 3 → saQueueCmd b len s = s)
    ∧ (∀ (b : CmdBuf) (len : Int), saQueueLength s ≠ 3 →
        pending (saQueueCmd b len s) = pending s ++ [⟨some b, len⟩]
        ∧ saQueueCmd b len s ≠ s)
    ∧ (saQueueLength s = 0 →
        ∀ (b1 b2 b3 b4 : CmdBuf) (l1 l2 l3 l4 : Int),
          pending (saQueueCmd b3 l3 (saQueueCmd b2 l2 (saQueueCmd b1 l1 s)))
              = [⟨some b1, l1⟩, ⟨some b2, l2⟩, ⟨some b3, l3⟩]
          ∧ saQueueCmd b4 l4 (saQueueCmd b3 l3 (saQueueCmd b2 l2 (saQueueCmd b1 l1 s)))
              = saQueueCmd b3 l3 (saQueueCmd b2 l2 (saQueueCmd b1 l1 s))
          ∧ (s.sa_osbuf.length = 32 → l1 ≤ 32 → l2 ≤ 32 → l3 ≤ 32 →
              ∀ m1 m2 m3 m4 : Nat,
                (sendAll [m1, m2, m3]
                    (saQueueCmd b3 l3 (saQueueCmd b2 l2 (saQueueCmd b1 l1 s)))).serialOut
                  = s.serialOut ++ (wireBytes (cmdBufContents s (some b1)) l1
                      ++ (wireBytes (cmdBufContents s (some b2)) l2
                        ++ wireBytes (cmdBufContents s (some b3)) l3))
                ∧ pending (sendAll [m1, m2, m3]
                    (saQueueCmd b3 l3 (saQueueCmd b2 l2 (saQueueCmd b1 l1 s)))) = []
                ∧ sendAll [m1, m2, m3, m4]
                    (saQueueCmd b3 l3 (saQueueCmd b2 l2 (saQueueCmd b1 l1 s)))
                  = sendAll [m1, m2, m3]
                    (saQueueCmd b3 l3 (saQueueCmd b2 l2 (saQueueCmd b1 l1 s))))) := by
  obtain ⟨hle, hfull, hempty, hplen⟩ := queue_count s hq
  refine ⟨hle, ?_, ?_, ?_⟩
  · intro b len h3
    exact saQueueCmd_full b len s (hfull.mpr h3)
  · intro b len h3
    have hf : saQueueFull s = false := by
      cases hc : saQueueFull s with
      | false => rfl
      | true => exact absurd (hfull.mp hc) h3
    refine ⟨(pending_push b len s hq hf).1, ?_⟩
    intro e
    have := (saQueueCmd_changes b len s hf).2.1
    rw [e] at this
    exact this rfl
  · intro h0 b1 b2 b3 b4 l1 l2 l3 l4
    have hp0 : pending s = [] := List.length_eq_zero.mp (by rw [hplen, h0])
    have notfull : ∀ t : SAState, queueOK t → (pending t).length < 3 → saQueueFull t = false := by
      intro t ht hl
      obtain ⟨-, tf, -, tl⟩ := queue_count t ht
      cases hc : saQueueFull t with
      | false => rfl
      | true => rw [tl, tf.mp hc] at hl; omega
    have f0 := notfull s hq (by rw [hp0]; simp)
    obtain ⟨p1, q1⟩ := pending_push b1 l1 s hq f0
    rw [hp0] at p1
    have f1 := notfull _ q1 (by rw [p1]; simp)
    obtain ⟨p2, q2⟩ := pending_push b2 l2 _ q1 f1
    rw [p1] at p2
    have f2 := notfull _ q2 (by rw [p2]; simp)
    obtain ⟨p3, q3⟩ := pending_push b3 l3 _ q2 f2
    rw [p2] at p3
    obtain ⟨-, tf3, te3, tl3⟩ := queue_count _ q3
    have full3 : saQueueFull (saQueueCmd b3 l3 (saQueueCmd b2 l2 (saQueueCmd b1 l1 s))) = true :=
      tf3.mpr (by rw [← tl3, p3]; rfl)
    refine ⟨p3, saQueueCmd_full b4 l4 _ full3, ?_⟩
    intro hos h1 h2 h3 m1 m2 m3 m4
    have cb : ∀ k, cmdBufContents (saQueueCmd b3 l3 (saQueueCmd b2 l2 (saQueueCmd b1 l1 s))) k
        = cmdBufContents s k := by
      intro k
      rw [cmdBufContents_queueCmd, cmdBufContents_queueCmd, cmdBufContents_queueCmd]
    have hos3 : (saQueueCmd b3 l3 (saQueueCmd b2 l2 (saQueueCmd b1 l1 s))).sa_osbuf.length
        = 32 := by
      rw [saQueueCmd_notfull _ _ _ f2, saQueueCmd_notfull _ _ _ f1, saQueueCmd_notfull _ _ _ f0]
      exact hos
    have hl3 : ∀ e ∈ pending (saQueueCmd b3 l3 (saQueueCmd b2 l2 (saQueueCmd b1 l1 s))),
        e.len ≤ 32 := by
      intro e he
      rw [p3] at he
      simp only [List.nil_append, List.cons_append, List.mem_cons, List.mem_singleton,
        List.not_mem_nil, or_false] at he
      rcases he with rfl | rfl | rfl <;> assumption
    obtain ⟨a1, a2, a3, -, -⟩ := sendAll_fifo [m1, m2, m3] _ q3 hos3 hl3 (by rw [p3]; simp)
    have se : saQueueEmpty (sendAll [m1, m2, m3]
        (saQueueCmd b3 l3 (saQueueCmd b2 l2 (saQueueCmd b1 l1 s)))) = true := by
      obtain ⟨-, -, te, tl⟩ := queue_count _ a3
      exact te.mpr (by rw [← tl, a2, p3]; rfl)
    refine ⟨?_, ?_, ?_⟩
    · rw [a1, p3]
      have hs : (saQueueCmd b3 l3 (saQueueCmd b2 l2 (saQueueCmd b1 l1 s))).serialOut
          = s.serialOut := by
        rw [saQueueCmd_notfull _ _ _ f2, saQueueCmd_notfull _ _ _ f1, saQueueCmd_notfull _ _ _ f0]
      rw [hs]
      simp [cb]
    · rw [a2, p3]; rfl
    · rw [show [m1, m2, m3, m4] = [m1, m2, m3] ++ [m4] from rfl, sendAll_snoc [m1, m2, m3] m4]
      exact saSendQueue_empty m4 _ se

/-- C12 at a concrete input: four frames offered to the empty queue of the engine
in its initial state; three are pending. -/
theorem C12_queue_capacity_witness :
    pending (saQueueCmd .setMode 6 (saQueueCmd .setFreq 7 (saQueueCmd .getSettings 5 saInitial)))
        = [⟨some .getSettings, 5⟩, ⟨some .setFreq, 7⟩, ⟨some .setMode, 6⟩]
    ∧ saQueueCmd .setPower 6
        (saQueueCmd .setMode 6 (saQueueCmd .setFreq 7 (saQueueCmd .getSettings 5 saInitial)))
      = saQueueCmd .setMode 6 (saQueueCmd .setFreq 7 (saQueueCmd .getSettings 5 saInitial)) :=
  ⟨((C12_queue_capacity saInitial (by decide)).2.2.2 (by decide)
      .getSettings .setFreq .setMode .setPower 5 7 6 6).1,
   ((C12_queue_capacity saInitial (by decide)).2.2.2 (by decide)
      .getSettings .setFreq .setMode .setPower 5 7 6 6).2.1⟩

/-- C12, the claim as written fails: of four consecutive `saQueueCmd` calls on the
empty queue of the engine in its initial state the fourth is dropped, with 3
frames pending, not 4, and four `saSendQueue` calls then send three frames. -/
theorem C12_counterexample :
    saQueueLength (saQueueCmd .setPower 6 (saQueueCmd .setMode 6
        (saQueueCmd .setFreq 7 (saQueueCmd .getSettings 5 saInitial)))) = 3
    ∧ pending (saQueueCmd .setPower 6 (saQueueCmd .setMode 6
        (saQueueCmd .setFreq 7 (saQueueCmd .getSettings 5 saInitial))))
        = [⟨some .getSettings, 5⟩, ⟨some .setFreq, 7⟩, ⟨some .setMode, 6⟩]
    ∧ (sendAll [0, 0, 0, 0] (saQueueCmd .setPower 6 (saQueueCmd .setMode 6
        (saQueueCmd .setFreq 7 (saQueueCmd .getSettings 5 saInitial))))).sa_pktsent = 3 := by
  decide

theorem saSetFreq_other (freq : Nat) (s : SAState) (k : Option CmdBuf) (hk : k ≠ some .setFreq) :
    cmdBufContents (saSetFreq freq s) k = cmdBufContents s k := by
  unfold saSetFreq
  simp only []
  rw [cmdBufContents_queueCmd]
  rcases k with _ | k
  · rfl
  · cases k <;> first | rfl | exact absurd rfl hk

theorem smartAudioSetBandChan_other (band chan : Nat) (s : SAState) (k : Option CmdBuf)
    (hk : k ≠ some .setBandChan) :
    cmdBufContents (smartAudioSetBandChan band chan s) k = cmdBufContents s k := by
  unfold smartAudioSetBandChan
  simp only []
  rw [cmdBufContents_queueCmd]
  rcases k with _ | k
  · rfl
  · cases k <;> first | rfl | exact absurd rfl hk

theorem saSetMode_other (mode : Int) (s : SAState) (k : Option CmdBuf)
    (hk : k ≠ some .setMode) :
    cmdBufContents (saSetMode mode s) k = cmdBufContents s k := by
  unfold saSetMode
  simp only []
  rw [cmdBufContents_queueCmd]
  rcases k with _ | k
  · rfl
  · cases k <;> first | rfl | exact absurd rfl hk

theorem smartAudioSetPowerByIndex_other (index : Nat) (s : SAState) (k : Option CmdBuf)
    (hk : k ≠ some .setPower) :
    cmdBufContents (smartAudioSetPowerByIndex index s) k = cmdBufContents s k := by
  unfold smartAudioSetPowerByIndex
  by_cases hv : s.sa_vers = 0
  · rw [if_pos hv]
  · rw [if_neg hv]
    by_cases hi : index > 3
    · rw [if_pos hi]
    · rw [if_neg hi]
      simp only []
      rw [cmdBufContents_queueCmd]
      rcases k with _ | k
      · rfl
      · cases k <;> first | rfl | exact absurd rfl hk

/-- C13, amended to what the code does. The queue is a FIFO of pointers to the
encoders' static command buffers.  An accepted `saQueueCmd` appends its entry
behind the pending ones and writes no command buffer; successive `saSendQueue`
calls transmit the pending entries in the order they were enqueued, each as the
bytes its command buffer holds when it is sent, and the outstanding slot keeps
a copy of those bytes; sending writes no command buffer and each encoder
writes its own buffer only.  So a transmitted frame is byte-identical to the
frame encoded when its entry was enqueued as long as no command of the same
kind is encoded between its enqueueing and its transmission. -/
theorem C13_fifo_of_queue_entries (s : SAState) (hq : queueOK s)
    (hos : s.sa_osbuf.length = 32) (hl : ∀ e ∈ pending s, e.len ≤ 32) :
    (∀ (b : CmdBuf) (len : Int), saQueueFull s = false →
      pending (saQueueCmd b len s) = pending s ++ [⟨some b, len⟩]
      ∧ ∀ k, cmdBufContents (saQueueCmd b len s) k = cmdBufContents s k)
    ∧ (∀ ms : List Nat, ms.length ≤ (pending s).length →
      (sendAll ms s).serialOut = s.serialOut
          ++ (((pending s).take ms.length).map
                (fun e => wireBytes (cmdBufContents s e.buf) e.len)).flatten
      ∧ pending (sendAll ms s) = (pending s).drop ms.length
      ∧ ∀ k, cmdBufContents (sendAll ms s) k = cmdBufContents s k)
    ∧ (∀ (m : Nat) (e : saCmdQueue_t) (rest : List saCmdQueue_t), pending s = e :: rest →
      wireBytes (saSendQueue m s).sa_osbuf (saSendQueue m s).sa_oslen
        = wireBytes (cmdBufContents s e.buf) e.len)
    ∧ (∀ k, cmdBufContents (saGetSettings s) k = cmdBufContents s k)
    ∧ (∀ k, k ≠ some .setFreq →
        ∀ freq : Nat, cmdBufContents (saSetFreq freq s) k = cmdBufContents s k)
    ∧ (∀ k, k ≠ some .setBandChan →
        ∀ band chan : Nat,
          cmdBufContents (smartAudioSetBandChan band chan s) k = cmdBufContents s k)
    ∧ (∀ k, k ≠ some .setMode →
        ∀ mode : Int, cmdBufContents (saSetMode mode s) k = cmdBufContents s k)
    ∧ (∀ k, k ≠ some .setPower →
        ∀ index : Nat,
          cmdBufContents (smartAudioSetPowerByIndex index s) k = cmdBufContents s k) := by
  refine ⟨?_, ?_, ?_, ?_, ?_, ?_, ?_, ?_⟩
  · intro b len hf
    exact ⟨(pending_push b len s hq hf).1, cmdBufContents_queueCmd b len s⟩
  · intro ms hn
    obtain ⟨a1, a2, -, -, a5⟩ := sendAll_fifo ms s hq hos hl hn
    exact ⟨a1, a2, a5⟩
  · intro m e rest hp
    exact (saSendQueue_step m s e rest hq hos hp
      (hl e (by rw [hp]; exact List.mem_cons_self _ _))).2.2.2.2.2.1
  · intro k
    exact cmdBufContents_queueCmd _ _ s k
  · intro k hk freq
    exact saSetFreq_other freq s k hk
  · intro k hk band chan
    exact smartAudioSetBandChan_other band chan s k hk
  · intro k hk mode
    exact saSetMode_other mode s k hk
  · intro k hk index
    exact smartAudioSetPowerByIndex_other index s k hk

set_option maxRecDepth 100000 in
/-- C13 at a concrete input: `smartAudioSetBandChan(0, 0)` followed by
`saSetFreq(5800)`, two commands of different kinds, then two `saSendQueue`
calls: the first transmission carries the channel payload `0x00`, the second the
frequency payload `0x16 0xA8`. -/
theorem C13_fifo_of_queue_entries_witness :
    (sendAll [0, 0] (saSetFreq 5800 (smartAudioSetBandChan 0 0 saInitial))).serialOut
        = (saSetFreq 5800 (smartAudioSetBandChan 0 0 saInitial)).serialOut
          ++ (((pending (saSetFreq 5800 (smartAudioSetBandChan 0 0 saInitial))).take
                ([0, 0] : List Nat).length).map
              (fun e => wireBytes
                (cmdBufContents (saSetFreq 5800 (smartAudioSetBandChan 0 0 saInitial)) e.buf)
                e.len)).flatten
    ∧ (sendAll [0, 0] (saSetFreq 5800 (smartAudioSetBandChan 0 0 saInitial))).serialOut
        = [0x00, 0xAA, 0x55, 0x07, 0x01, 0x00, CRC8 [0xAA, 0x55, 0x07, 0x01, 0x00] 5, 0x00,
           0x00, 0xAA, 0x55, 0x09, 0x02, 0x16, 0xA8,
           CRC8 [0xAA, 0x55, 0x09, 0x02, 0x16, 0xA8] 6, 0x00] :=
  ⟨((C13_fifo_of_queue_entries (saSetFreq 5800 (smartAudioSetBandChan 0 0 saInitial))
      (by decide) (by decide) (by decide)).2.1 [0, 0] (by decide)).1,
   by decide⟩

set_option maxRecDepth 100000 in
/-- C13, the claim as written fails at its own witness: after
`smartAudioSetBandChan(0, 0)` the buffer holds the frame with channel payload
`0x00`; after `smartAudioSetBandChan(1, 1)` both queue entries point to the same
buffer, which now holds payload `0x09`; the first `saSendQueue` transmits
`00 AA 55 07 01 09 crc 00`, payload `0x09`, not `0x00`, and so does the second. -/
theorem C13_counterexample :
    (smartAudioSetBandChan 0 0 saInitial).bufSetBandChan.getD 4 0 = 0x00
    ∧ pending (smartAudioSetBandChan 1 1 (smartAudioSetBandChan 0 0 saInitial))
        = [⟨some .setBandChan, 6⟩, ⟨some .setBandChan, 6⟩]
    ∧ (saSendQueue 0 (smartAudioSetBandChan 1 1 (smartAudioSetBandChan 0 0 saInitial))).serialOut
        = [0x00, 0xAA, 0x55, 0x07, 0x01, 0x09, CRC8 [0xAA, 0x55, 0x07, 0x01, 0x09] 5, 0x00]
    ∧ (sendAll [0, 0] (smartAudioSetBandChan 1 1 (smartAudioSetBandChan 0 0 saInitial))).serialOut
        = [0x00, 0xAA, 0x55, 0x07, 0x01, 0x09, CRC8 [0xAA, 0x55, 0x07, 0x01, 0x09] 5, 0x00,
           0x00, 0xAA, 0x55, 0x07, 0x01, 0x09, CRC8 [0xAA, 0x55, 0x07, 0x01, 0x09] 5, 0x00] := by
  decide

/-! ## The periodic entry point -/

set_option maxRecDepth 100000 in
/-- The two commands the first tick enqueues on a freshly initialised engine. -/
theorem first_tick_queue :
    saQueueEmpty (saGetPitFreq (saGetSettings (smartAudioInit true saInitial))) = false
    ∧ (saGetPitFreq (saGetSettings (smartAudioInit true saInitial))).sa_queue
        = [⟨some .getSettings, 5⟩, ⟨some .setFreq, 7⟩, ⟨none, 0⟩, ⟨none, 0⟩]
    ∧ (saGetPitFreq (saGetSettings (smartAudioInit true saInitial))).sa_qhead = 2
    ∧ (saGetPitFreq (saGetSettings (smartAudioInit true saInitial))).sa_qtail = 0
    ∧ (saGetPitFreq (saGetSettings (smartAudioInit true saInitial))).bufGetSettings
        = [0xAA, 0x55, 0x03, 0x00, 0x9F]
    ∧ (saGetPitFreq (saGetSettings (smartAudioInit true saInitial))).bufSetFreq
        = [0xAA, 0x55, 0x09, 0x02, 0x40, 0x00, CRC8 [0xAA, 0x55, 0x09, 0x02, 0x40, 0x00] 6]
    ∧ (saGetPitFreq (saGetSettings (smartAudioInit true saInitial))).sa_osbuf
        = List.replicate 32 0
    ∧ (saGetPitFreq (saGetSettings (smartAudioInit true saInitial))).serialOut = []
    ∧ (saGetPitFreq (saGetSettings (smartAudioInit true saInitial))).sa_pktsent = 0 := by
  decide

set_option maxRecDepth 100000 in
theorem first_tick_copy :
    copyFrame [0xAA, 0x55, 0x03, 0x00, 0x9F] 5 (List.replicate 32 0)
        = [0xAA, 0x55, 0x03, 0x00, 0x9F] ++ List.replicate 27 0
    ∧ wireBytes ([0xAA, 0x55, 0x03, 0x00, 0x9F] ++ List.replicate 27 0) 5
        = [0x00, 0xAA, 0x55, 0x03, 0x00, 0x9F, 0x00]
    ∧ (([0xAA, 0x55, 0x03, 0x00, 0x9F] : List Nat).getD 2 0 >>> 1) % 256 = SA_CMD_GET_SETTINGS
    ∧ toI32 (0 + 1) = 1 := by
  decide

/-- C14. On a freshly initialised engine with an open port and no inbound bytes,
the first `smartAudioProcess(now)` enqueues the GetSettings frame and the
get-pit-frequency frame (SetFrequency with payload `0x40 0x00`), transmits the
GetSettings frame only (wire bytes `00 AA 55 03 00 9F 00`), keeps a copy of it
in the outstanding slot with `sa_outstanding = 0x01`, sets the sent counter to
1, leaves exactly the get-pit-frequency frame pending, and marks the
initialisation done; the retransmit, queue and heartbeat steps are not run
(one transmission only, whatever `now` is). -/
theorem C14_first_tick (now millis : Nat) :
    (smartAudioProcess now [] millis (smartAudioInit true saInitial)).sa_queue
        = [⟨some .getSettings, 5⟩, ⟨some .setFreq, 7⟩, ⟨none, 0⟩, ⟨none, 0⟩]
    ∧ (smartAudioProcess now [] millis (smartAudioInit true saInitial)).bufGetSettings
        = [0xAA, 0x55, 0x03, 0x00, 0x9F]
    ∧ (smartAudioProcess now [] millis (smartAudioInit true saInitial)).bufSetFreq
        = [0xAA, 0x55, 0x09, 0x02, 0x40, 0x00, CRC8 [0xAA, 0x55, 0x09, 0x02, 0x40, 0x00] 6]
    ∧ (smartAudioProcess now [] millis (smartAudioInit true saInitial)).serialOut
        = [0x00, 0xAA, 0x55, 0x03, 0x00, 0x9F, 0x00]
    ∧ (smartAudioProcess now [] millis (smartAudioInit true saInitial)).sa_outstanding
        = SA_CMD_GET_SETTINGS
    ∧ wireBytes (smartAudioProcess now [] millis (smartAudioInit true saInitial)).sa_osbuf
        (smartAudioProcess now [] millis (smartAudioInit true saInitial)).sa_oslen
        = [0x00, 0xAA, 0x55, 0x03, 0x00, 0x9F, 0x00]
    ∧ (smartAudioProcess now [] millis (smartAudioInit true saInitial)).sa_pktsent = 1
    ∧ (smartAudioProcess now [] millis (smartAudioInit true saInitial)).sa_lastTransmission
        = millis % 4294967296
    ∧ (smartAudioProcess now [] millis (smartAudioInit true saInitial)).sa_qhead = 2
    ∧ (smartAudioProcess now [] millis (smartAudioInit true saInitial)).sa_qtail = 1
    ∧ pending (smartAudioProcess now [] millis (smartAudioInit true saInitial))
        = [⟨some .setFreq, 7⟩]
    ∧ (smartAudioProcess now [] millis (smartAudioInit true saInitial)).initialSent = true := by
  obtain ⟨q, hq⟩ : ∃ q : SAState, q = saGetPitFreq (saGetSettings (smartAudioInit true saInitial)) :=
    ⟨_, rfl⟩
  have h1 : smartAudioProcess now [] millis (smartAudioInit true saInitial)
      = { saSendQueue millis q with initialSent := true } := by
    unfold smartAudioProcess
    rw [if_neg (by decide)]
    simp only [saReceiveBytes_nil]
    rw [saAutobaud_few _ (by decide), if_pos (by decide), hq]
  obtain ⟨f1, f2, f3, f4, f5, f6, f7, f8, f9⟩ := first_tick_queue
  rw [← hq] at f1 f2 f3 f4 f5 f6 f7 f8 f9
  obtain ⟨c1, c2, c3, c4⟩ := first_tick_copy
  have he : q.sa_queue.getD q.sa_qtail ⟨none, 0⟩ = ⟨some .getSettings, 5⟩ := by
    rw [f2, f4]; rfl
  rw [h1, saSendQueue_eq millis q f1, he]
  have hb : cmdBufContents q (some .getSettings) = [0xAA, 0x55, 0x03, 0x00, 0x9F] := f5
  simp only [hb, f7, c1]
  refine ⟨f2, f5, f6, ?_, c3, c2, ?_, trivial, f3, ?_, ?_, trivial⟩
  · show q.serialOut ++ wireBytes ([0xAA, 0x55, 0x03, 0x00, 0x9F] ++ List.replicate 27 0) 5 = _
    rw [f8, c2]; rfl
  · show toI32 (q.sa_pktsent + 1) = 1
    rw [f9]; exact c4
  · show (q.sa_qtail + 1) % SA_QSIZE = 1
    rw [f4]; rfl
  · unfold pending saQueueLength
    simp only [f2, f3, f4]
    decide

theorem elapsed_eq (now : Nat) (s : SAState) (h : s.sa_lastTransmission < 4294967296) :
    (elapsed now s : Int) = ((now : Int) - (s.sa_lastTransmission : Int)) % 4294967296 := by
  unfold elapsed
  omega

/-- What `saAutobaud` leaves alone. -/
theorem saAutobaud_keeps (s : SAState) :
    (saAutobaud s).smartAudioSerialPort = s.smartAudioSerialPort
    ∧ (saAutobaud s).initialSent = s.initialSent
    ∧ (saAutobaud s).sa_outstanding = s.sa_outstanding
    ∧ (saAutobaud s).sa_lastTransmission = s.sa_lastTransmission
    ∧ (saAutobaud s).sa_queue = s.sa_queue
    ∧ (saAutobaud s).sa_qhead = s.sa_qhead
    ∧ (saAutobaud s).sa_qtail = s.sa_qtail
    ∧ (saAutobaud s).sa_osbuf = s.sa_osbuf
    ∧ (saAutobaud s).sa_oslen = s.sa_oslen
    ∧ (saAutobaud s).serialOut = s.serialOut
    ∧ (∀ k, cmdBufContents (saAutobaud s) k = cmdBufContents s k) := by
  rw [saAutobaud_frame s]
  refine ⟨rfl, rfl, rfl, rfl, rfl, rfl, rfl, rfl, rfl, rfl, ?_⟩
  intro k
  rcases k with _ | k
  · rfl
  · cases k <;> rfl

theorem saAutobaud_sent (s : SAState) :
    (s.sa_pktsent < 10 → (saAutobaud s).sa_pktsent = s.sa_pktsent)
    ∧ (10 ≤ s.sa_pktsent → (saAutobaud s).sa_pktsent = 0) := by
  constructor
  · intro h; rw [saAutobaud_few s h]
  · intro h
    by_cases hr : (toI32 (s.sa_pktrcvd * 100)).tdiv s.sa_pktsent ≥ 70
    · rw [saAutobaud_healthy s (by omega) hr]
    · rw [saAutobaud_adjust s (by omega) hr]

theorem saAutobaud_queue (s : SAState) :
    pending (saAutobaud s) = pending s
    ∧ saQueueEmpty (saAutobaud s) = saQueueEmpty s
    ∧ (queueOK s → queueOK (saAutobaud s)) := by
  obtain ⟨-, -, -, -, k5, k6, k7, -⟩ := saAutobaud_keeps s
  unfold pending saQueueLength saQueueEmpty queueOK
  rw [k5, k6, k7]
  exact ⟨rfl, rfl, id⟩

theorem saResendCmd_eq (millis : Nat) (s : SAState) :
    saResendCmd millis s = { s with
      serialOut := s.serialOut ++ wireBytes s.sa_osbuf s.sa_oslen
      sa_lastTransmission := millis % 4294967296
      sa_pktsent := toI32 (s.sa_pktsent + 1) } := by
  unfold saResendCmd
  rw [saSendFrame_eq]

/-- A tick after the first one, with no inbound bytes: the autobaud evaluation,
then one of four branches. -/
theorem tick_post (now millis : Nat) (s : SAState) (hport : s.smartAudioSerialPort = true)
    (hinit : s.initialSent = true) :
    smartAudioProcess now [] millis s =
      if s.sa_outstanding ≠ SA_CMD_NONE ∧ elapsed now s > SMARTAUDIO_CMD_TIMEOUT then
        saResendCmd millis (saAutobaud s)
      else if saQueueEmpty s = false then saSendQueue millis (saAutobaud s)
      else if elapsed now s ≥ 1000 then saSendQueue millis (saGetSettings (saAutobaud s))
      else saAutobaud s := by
  obtain ⟨k1, k2, k3, k4, -⟩ := saAutobaud_keeps s
  obtain ⟨-, q2, -⟩ := saAutobaud_queue s
  unfold smartAudioProcess elapsed
  rw [if_neg (by rw [hport]; decide)]
  simp only [saReceiveBytes_nil]
  rw [if_neg (by rw [k2, hinit]; decide), k3, k4, q2]

/-- C15, amended. In a post-initialisation state with a command outstanding and
`(now - sa_lastTransmission) mod 2^32 > 120`, a tick with no inbound bytes
writes exactly the stored frame `sa_osbuf[0 .. sa_oslen)` (between the two
`0x00` bytes of `saSendFrame`) and nothing else, and leaves `sa_outstanding`, the
stored frame, the queue and the command buffers as they were.  The sent counter
becomes one more than the value `saAutobaud` left: the old value plus one when
the old value is below 10, and 1 when it is 10 or more, because the autobaud
evaluation of the same tick has reset it.  With an elapsed time of 120 or less
the tick does not call `saResendCmd`: it is the autobaud evaluation followed by
`saSendQueue` when the queue is non-empty, and the autobaud evaluation alone,
with nothing transmitted, when the queue is empty. -/
theorem C15_retransmission_on_timeout (now millis : Nat) (s : SAState)
    (hport : s.smartAudioSerialPort = true) (hinit : s.initialSent = true) :
    (s.sa_outstanding ≠ SA_CMD_NONE → elapsed now s > SMARTAUDIO_CMD_TIMEOUT →
      (smartAudioProcess now [] millis s).serialOut
          = s.serialOut ++ wireBytes s.sa_osbuf s.sa_oslen
      ∧ (smartAudioProcess now [] millis s).sa_pktsent = toI32 ((saAutobaud s).sa_pktsent + 1)
      ∧ (s.sa_pktsent < 10 →
          (smartAudioProcess now [] millis s).sa_pktsent = toI32 (s.sa_pktsent + 1))
      ∧ (10 ≤ s.sa_pktsent → (smartAudioProcess now [] millis s).sa_pktsent = 1)
      ∧ (smartAudioProcess now [] millis s).sa_outstanding = s.sa_outstanding
      ∧ (smartAudioProcess now [] millis s).sa_osbuf = s.sa_osbuf
      ∧ (smartAudioProcess now [] millis s).sa_oslen = s.sa_oslen
      ∧ (smartAudioProcess now [] millis s).sa_queue = s.sa_queue
      ∧ (smartAudioProcess now [] millis s).sa_qhead = s.sa_qhead
      ∧ (smartAudioProcess now [] millis s).sa_qtail = s.sa_qtail
      ∧ (∀ k, cmdBufContents (smartAudioProcess now [] millis s) k = cmdBufContents s k))
    ∧ (elapsed now s ≤ SMARTAUDIO_CMD_TIMEOUT →
        smartAudioProcess now [] millis s
          = (if saQueueEmpty s = false then saSendQueue millis (saAutobaud s) else saAutobaud s)
        ∧ (saQueueEmpty s = true →
            (smartAudioProcess now [] millis s).serialOut = s.serialOut
            ∧ (smartAudioProcess now [] millis s).sa_pktsent = (saAutobaud s).sa_pktsent)) := by
  obtain ⟨-, -, k3, -, k5, k6, k7, k8, k9, k10, k11⟩ := saAutobaud_keeps s
  obtain ⟨a1, a2⟩ := saAutobaud_sent s
  constructor
  · intro h1 h2
    have e : smartAudioProcess now [] millis s = saResendCmd millis (saAutobaud s) := by
      rw [tick_post now millis s hport hinit, if_pos ⟨h1, h2⟩]
    rw [e, saResendCmd_eq]
    have hs : ({ saAutobaud s with
        serialOut := (saAutobaud s).serialOut
          ++ wireBytes (saAutobaud s).sa_osbuf (saAutobaud s).sa_oslen
        sa_lastTransmission := millis % 4294967296
        sa_pktsent := toI32 ((saAutobaud s).sa_pktsent + 1) } : SAState).sa_pktsent
        = toI32 ((saAutobaud s).sa_pktsent + 1) := rfl
    refine ⟨?_, hs, ?_, ?_, k3, k8, k9, k5, k6, k7, ?_⟩
    · show (saAutobaud s).serialOut ++ wireBytes (saAutobaud s).sa_osbuf (saAutobaud s).sa_oslen
        = _
      rw [k8, k9, k10]
    · intro h; rw [hs, a1 h]
    · intro h; rw [hs, a2 h]; rfl
    · intro k
      rw [← k11 k]
      rcases k with _ | k
      · rfl
      · cases k <;> rfl
  · intro h
    have hlt : ¬ (elapsed now s ≥ 1000) := by
      unfold SMARTAUDIO_CMD_TIMEOUT at h; omega
    have hno : ¬ (s.sa_outstanding ≠ SA_CMD_NONE ∧ elapsed now s > SMARTAUDIO_CMD_TIMEOUT) := by
      intro hc; omega
    have e : smartAudioProcess now [] millis s
        = (if saQueueEmpty s = false then saSendQueue millis (saAutobaud s) else saAutobaud s) := by
      rw [tick_post now millis s hport hinit, if_neg hno, if_neg hlt]
    refine ⟨e, ?_⟩
    intro hq
    rw [e, if_neg (by rw [hq]; decide)]
    exact ⟨k10, rfl⟩

/-- C15 at the claim's witness: the first tick sends GetSettings at t = 0; the
tick at t = 150 writes the same seven bytes again, the counter goes from 1 to 2
and GetSettings stays outstanding. -/
theorem C15_retransmission_on_timeout_witness :
    afterFirstTick.sa_outstanding ≠ SA_CMD_NONE
    ∧ elapsed 150 afterFirstTick > SMARTAUDIO_CMD_TIMEOUT
    ∧ (smartAudioProcess 150 [] 150 afterFirstTick).serialOut
        = [0x00, 0xAA, 0x55, 0x03, 0x00, 0x9F, 0x00, 0x00, 0xAA, 0x55, 0x03, 0x00, 0x9F, 0x00]
    ∧ (smartAudioProcess 150 [] 150 afterFirstTick).sa_pktsent = 2
    ∧ (smartAudioProcess 150 [] 150 afterFirstTick).sa_outstanding = SA_CMD_GET_SETTINGS :=
  ⟨by decide, by decide,
   (((C15_retransmission_on_timeout 150 150 afterFirstTick (by decide) (by decide)).1
      (by decide) (by decide)).1).trans (by decide),
   (((C15_retransmission_on_timeout 150 150 afterFirstTick (by decide) (by decide)).1
      (by decide) (by decide)).2.2.1 (by decide)).trans (by decide),
   (((C15_retransmission_on_timeout 150 150 afterFirstTick (by decide) (by decide)).1
      (by decide) (by decide)).2.2.2.2.1).trans (by decide)⟩

set_option maxRecDepth 1000000 in
/-- C15, the claim as written fails: with a silent device the first tick and
nine retransmissions bring the sent counter to 10 with GetSettings still
outstanding; the tick at t = 1500 is a timeout tick, retransmits the stored
frame, and leaves the counter at 1, not 11, because `saAutobaud` reset it in the
same tick (and moved the baud rate from 4800 to 4850). -/
theorem C15_counterexample :
    (runTicks silentTicks afterFirstTick).smartAudioSerialPort = true
    ∧ (runTicks silentTicks afterFirstTick).initialSent = true
    ∧ (runTicks silentTicks afterFirstTick).sa_outstanding = SA_CMD_GET_SETTINGS
    ∧ SA_CMD_GET_SETTINGS ≠ SA_CMD_NONE
    ∧ elapsed 1500 (runTicks silentTicks afterFirstTick) = 150
    ∧ (runTicks silentTicks afterFirstTick).sa_pktsent = 10
    ∧ (smartAudioProcess 1500 [] 1500 (runTicks silentTicks afterFirstTick)).sa_pktsent = 1
    ∧ (smartAudioProcess 1500 [] 1500 (runTicks silentTicks afterFirstTick)).serialOut
        = (runTicks silentTicks afterFirstTick).serialOut
            ++ [0x00, 0xAA, 0x55, 0x03, 0x00, 0x9F, 0x00]
    ∧ (runTicks silentTicks afterFirstTick).smartAudioSmartbaud = 4800
    ∧ (smartAudioProcess 1500 [] 1500 (runTicks silentTicks afterFirstTick)).smartAudioSmartbaud
        = 4850 := by
  decide

/-- The heartbeat branch: on an empty queue `saGetSettings` then `saSendQueue`
send the GetSettings frame and leave the queue empty. -/
theorem heartbeat_send (millis : Nat) (s : SAState) (hq : queueOK s)
    (hos : s.sa_osbuf.length = 32) (hb : cmdBufsOK s) (he : pending s = []) :
    (saSendQueue millis (saGetSettings s)).serialOut
        = s.serialOut ++ wireBytes [0xAA, 0x55, 0x03, 0x00, 0x9F] 5
    ∧ pending (saSendQueue millis (saGetSettings s)) = []
    ∧ (saSendQueue millis (saGetSettings s)).sa_outstanding = SA_CMD_GET_SETTINGS
    ∧ (saSendQueue millis (saGetSettings s)).sa_pktsent = toI32 (s.sa_pktsent + 1) := by
  obtain ⟨c1, c2, c3, c4⟩ := queue_count s hq
  have hlen : saQueueLength s = 0 := by rw [← c4, he]; rfl
  have hf : saQueueFull s = false := by
    cases h : saQueueFull s with
    | false => rfl
    | true => have := c2.mp h; omega
  obtain ⟨p1, p2⟩ := pending_push .getSettings 5 s hq hf
  rw [he] at p1
  have e1 : saGetSettings s = saQueueCmd .getSettings 5 s := rfl
  have hos2 : (saQueueCmd .getSettings 5 s).sa_osbuf.length = 32 := by
    rw [saQueueCmd_notfull _ _ _ hf]; exact hos
  have hso : (saQueueCmd .getSettings 5 s).serialOut = s.serialOut := by
    rw [saQueueCmd_notfull _ _ _ hf]
  have hps : (saQueueCmd .getSettings 5 s).sa_pktsent = s.sa_pktsent := by
    rw [saQueueCmd_notfull _ _ _ hf]
  have hbuf : cmdBufContents (saQueueCmd .getSettings 5 s) (some .getSettings)
      = [0xAA, 0x55, 0x03, 0x00, 0x9F] := by
    rw [cmdBufContents_queueCmd]
    show s.bufGetSettings = _
    rw [hb.1]
    rfl
  obtain ⟨s1, s2, -, -, -, -, -, s8, s9, -⟩ :=
    saSendQueue_step millis (saQueueCmd .getSettings 5 s) ⟨some .getSettings, 5⟩ [] p2 hos2 p1
      (by decide)
  rw [e1]
  refine ⟨?_, s2, ?_, ?_⟩
  · rw [s1, hso, hbuf]
  · rw [s8, hbuf]; rfl
  · rw [s9, hps]

/-- C16, amended. A post-initialisation tick with no inbound bytes, on a
well-formed queue, writes at most one frame, chosen in this order.
(4) A command is outstanding and `now - sa_lastTransmission > 120`: the stored
frame is written again, queue and outstanding slot unchanged.
(5) Otherwise, the queue is non-empty: the frame of the oldest entry is written
and the entry leaves the queue.
(6) Otherwise, `now - sa_lastTransmission >= 1000`: the GetSettings frame is
written, the queue is empty afterwards and `sa_outstanding` is `0x01`.
Otherwise nothing is written and the queue, the outstanding slot and the stored
frame are unchanged; the tick is the autobaud evaluation alone, so the sent
counter is unchanged when it is below 10 and is reset to 0 when it is 10 or
more. -/
theorem C16_tick_priority (now millis : Nat) (s : SAState)
    (hport : s.smartAudioSerialPort = true) (hinit : s.initialSent = true)
    (hq : queueOK s) (hos : s.sa_osbuf.length = 32)
    (hl : ∀ e ∈ pending s, e.len ≤ 32) (hb : cmdBufsOK s) :
    ((s.sa_outstanding ≠ SA_CMD_NONE ∧ elapsed now s > SMARTAUDIO_CMD_TIMEOUT) →
      (smartAudioProcess now [] millis s).serialOut
          = s.serialOut ++ wireBytes s.sa_osbuf s.sa_oslen
      ∧ pending (smartAudioProcess now [] millis s) = pending s
      ∧ (smartAudioProcess now [] millis s).sa_outstanding = s.sa_outstanding)
    ∧ (¬ (s.sa_outstanding ≠ SA_CMD_NONE ∧ elapsed now s > SMARTAUDIO_CMD_TIMEOUT) →
        ∀ (e : saCmdQueue_t) (rest : List saCmdQueue_t), pending s = e :: rest →
          (smartAudioProcess now [] millis s).serialOut
              = s.serialOut ++ wireBytes (cmdBufContents s e.buf) e.len
          ∧ pending (smartAudioProcess now [] millis s) = rest
          ∧ (smartAudioProcess now [] millis s).sa_outstanding
              = ((cmdBufContents s e.buf).getD 2 0 >>> 1) % 256)
    ∧ (¬ (s.sa_outstanding ≠ SA_CMD_NONE ∧ elapsed now s > SMARTAUDIO_CMD_TIMEOUT) →
        pending s = [] → elapsed now s ≥ 1000 →
          (smartAudioProcess now [] millis s).serialOut
              = s.serialOut ++ wireBytes [0xAA, 0x55, 0x03, 0x00, 0x9F] 5
          ∧ pending (smartAudioProcess now [] millis s) = []
          ∧ (smartAudioProcess now [] millis s).sa_outstanding = 0x01)
    ∧ (¬ (s.sa_outstanding ≠ SA_CMD_NONE ∧ elapsed now s > SMARTAUDIO_CMD_TIMEOUT) →
        pending s = [] → elapsed now s < 1000 →
          smartAudioProcess now [] millis s = saAutobaud s
          ∧ (smartAudioProcess now [] millis s).serialOut = s.serialOut
          ∧ (smartAudioProcess now [] millis s).sa_queue = s.sa_queue
          ∧ (smartAudioProcess now [] millis s).sa_qhead = s.sa_qhead
          ∧ (smartAudioProcess now [] millis s).sa_qtail = s.sa_qtail
          ∧ (smartAudioProcess now [] millis s).sa_outstanding = s.sa_outstanding
          ∧ (smartAudioProcess now [] millis s).sa_osbuf = s.sa_osbuf
          ∧ (smartAudioProcess now [] millis s).sa_oslen = s.sa_oslen
          ∧ (s.sa_pktsent < 10 → (smartAudioProcess now [] millis s).sa_pktsent = s.sa_pktsent)
          ∧ (10 ≤ s.sa_pktsent → (smartAudioProcess now [] millis s).sa_pktsent = 0)) := by
  obtain ⟨-, -, k3, -, k5, k6, k7, k8, k9, k10, k11⟩ := saAutobaud_keeps s
  obtain ⟨a1, a2⟩ := saAutobaud_sent s
  obtain ⟨q1, q2, q3⟩ := saAutobaud_queue s
  obtain ⟨c1, c2, c3, c4⟩ := queue_count s hq
  have hb2 : cmdBufsOK (saAutobaud s) := by
    have g := k11 (some .getSettings)
    have f := k11 (some .setFreq)
    have b := k11 (some .setBandChan)
    have m := k11 (some .setMode)
    have p := k11 (some .setPower)
    simp only [cmdBufContents] at g f b m p
    unfold cmdBufsOK
    rw [g, f, b, m, p]
    exact hb
  have hempty : pending s = [] → saQueueEmpty s = true := by
    intro he
    apply c3.mpr
    rw [← c4, he]; rfl
  have hnonempty : ∀ e rest, pending s = e :: rest → saQueueEmpty s = false := by
    intro e rest he
    cases h : saQueueEmpty s with
    | false => rfl
    | true =>
      have := c3.mp h
      rw [← c4, he] at this
      simp at this
  refine ⟨?_, ?_, ?_, ?_⟩
  · intro h
    have e : smartAudioProcess now [] millis s = saResendCmd millis (saAutobaud s) := by
      rw [tick_post now millis s hport hinit, if_pos h]
    rw [e, saResendCmd_eq]
    refine ⟨?_, ?_, k3⟩
    · show (saAutobaud s).serialOut ++ wireBytes (saAutobaud s).sa_osbuf (saAutobaud s).sa_oslen
        = _
      rw [k8, k9, k10]
    · rw [← q1]
      rfl
  · intro h e rest he
    have e1 : smartAudioProcess now [] millis s = saSendQueue millis (saAutobaud s) := by
      rw [tick_post now millis s hport hinit, if_neg h, if_pos (hnonempty e rest he)]
    obtain ⟨s1, s2, -, -, -, -, -, s8, -⟩ :=
      saSendQueue_step millis (saAutobaud s) e rest (q3 hq) (by rw [k8]; exact hos)
        (by rw [q1]; exact he) (hl e (by rw [he]; exact List.mem_cons_self _ _))
    rw [e1, s1, s2, s8, k10, k11]
    exact ⟨rfl, rfl, rfl⟩
  · intro h he ht
    have e1 : smartAudioProcess now [] millis s
        = saSendQueue millis (saGetSettings (saAutobaud s)) := by
      rw [tick_post now millis s hport hinit, if_neg h,
        if_neg (by rw [hempty he]; decide), if_pos ht]
    obtain ⟨g1, g2, g3, -⟩ :=
      heartbeat_send millis (saAutobaud s) (q3 hq) (by rw [k8]; exact hos) hb2
        (by rw [q1]; exact he)
    rw [e1, g1, g2, g3, k10]
    exact ⟨rfl, rfl, rfl⟩
  · intro h he ht
    have e1 : smartAudioProcess now [] millis s = saAutobaud s := by
      rw [tick_post now millis s hport hinit, if_neg h,
        if_neg (by rw [hempty he]; decide), if_neg (by omega)]
    rw [e1]
    exact ⟨rfl, k10, k5, k6, k7, k3, k8, k9, a1, a2⟩

set_option maxRecDepth 1000000 in
/-- C16 at a concrete input: after the first tick GetSettings is outstanding and
the pit-frequency query is queued; a tick at t = 50, before the timeout, sends
the queued frame and empties the queue. -/
theorem C16_tick_priority_witness :
    pending afterFirstTick = [⟨some .setFreq, 7⟩]
    ∧ (smartAudioProcess 50 [] 50 afterFirstTick).serialOut
        = [0x00, 0xAA, 0x55, 0x03, 0x00, 0x9F, 0x00,
           0x00, 0xAA, 0x55, 0x09, 0x02, 0x40, 0x00, CRC8 [0xAA, 0x55, 0x09, 0x02, 0x40, 0x00] 6,
           0x00]
    ∧ pending (smartAudioProcess 50 [] 50 afterFirstTick) = []
    ∧ (smartAudioProcess 50 [] 50 afterFirstTick).sa_outstanding = SA_CMD_SET_FREQ :=
  ⟨by decide,
   (((C16_tick_priority 50 50 afterFirstTick (by decide) (by decide) (by decide) (by decide)
      (by decide) (by decide)).2.1 (by decide) ⟨some .setFreq, 7⟩ [] (by decide)).1).trans
      (by decide),
   ((C16_tick_priority 50 50 afterFirstTick (by decide) (by decide) (by decide) (by decide)
      (by decide) (by decide)).2.1 (by decide) ⟨some .setFreq, 7⟩ [] (by decide)).2.1,
   (((C16_tick_priority 50 50 afterFirstTick (by decide) (by decide) (by decide) (by decide)
      (by decide) (by decide)).2.1 (by decide) ⟨some .setFreq, 7⟩ [] (by decide)).2.2).trans
      (by decide)⟩

set_option maxRecDepth 1000000 in
/-- C16, the claim as written fails in its last clause: the device answers the
two commands of the first tick and then falls silent; eight heartbeats bring the
sent counter to 10 with GetSettings outstanding and the queue empty.  The tick
at t = 2100, 30 ms after the last transmission, writes nothing and leaves queue
and outstanding slot alone, yet the sent counter goes from 10 to 0. -/
theorem C16_counterexample :
    (runTicks heartbeatTicks afterFirstTick).smartAudioSerialPort = true
    ∧ (runTicks heartbeatTicks afterFirstTick).initialSent = true
    ∧ (runTicks heartbeatTicks afterFirstTick).sa_outstanding = SA_CMD_GET_SETTINGS
    ∧ elapsed 2100 (runTicks heartbeatTicks afterFirstTick) = 30
    ∧ pending (runTicks heartbeatTicks afterFirstTick) = []
    ∧ saQueueEmpty (runTicks heartbeatTicks afterFirstTick) = true
    ∧ (runTicks heartbeatTicks afterFirstTick).sa_pktsent = 10
    ∧ (smartAudioProcess 2100 [] 2100 (runTicks heartbeatTicks afterFirstTick)).serialOut
        = (runTicks heartbeatTicks afterFirstTick).serialOut
    ∧ (smartAudioProcess 2100 [] 2100 (runTicks heartbeatTicks afterFirstTick)).sa_pktsent = 0 := by
  decide

/-! ## Receive-buffer bounds -/

theorem framerOK_of_idle (s : SAState)
    (h : s.state ≠ .S_DATA ∧ s.state ≠ .S_WAITCRC) : framerOK s :=
  ⟨fun e => absurd e h.1, fun e => absurd e h.2⟩

/-- One framer call keeps the bounds, whatever the byte. -/
theorem framerOK_step (c : Nat) (s : SAState) (h : framerOK s) :
    framerOK (saReceiveFramer c s) := by
  cases hst : s.state with
  | S_WAITPRE1 =>
    apply framerOK_of_idle
    unfold saReceiveFramer; simp only [hst]; split_ifs <;> simp
  | S_WAITPRE2 =>
    apply framerOK_of_idle
    unfold saReceiveFramer; simp only [hst]; split_ifs <;> simp
  | S_WAITRESP =>
    apply framerOK_of_idle
    unfold saReceiveFramer; simp only [hst]; simp
  | S_WAITLEN =>
    unfold saReceiveFramer; simp only [hst]
    unfold SA_MAX_RCVLEN
    split_ifs with h1 h2
    · apply framerOK_of_idle; simp
    · unfold framerOK SA_MAX_RCVLEN
      simp only [reduceCtorEq, false_implies, true_and, forall_const]
      omega
    · unfold framerOK SA_MAX_RCVLEN
      simp only [reduceCtorEq, false_implies, and_true, forall_const]
      omega
  | S_DATA =>
    obtain ⟨a1, a2, a3, a4⟩ := h.1 hst
    unfold SA_MAX_RCVLEN at a2
    unfold saReceiveFramer; simp only [hst]
    rw [toI32_small (s.dlen + 1) (by omega) (by omega)]
    split_ifs with h1
    · unfold framerOK SA_MAX_RCVLEN
      simp only [reduceCtorEq, false_implies, true_and, forall_const]
      omega
    · unfold framerOK SA_MAX_RCVLEN
      simp only [hst, reduceCtorEq, false_implies, and_true, forall_const]
      omega
  | S_WAITCRC =>
    apply framerOK_of_idle
    unfold saReceiveFramer; simp only [hst]; simp

theorem framerOK_run (bytes : List Nat) : ∀ s : SAState, framerOK s →
    framerOK (saReceiveBytes bytes s) := by
  induction bytes with
  | nil => intro s h; rw [saReceiveBytes_nil]; exact h
  | cons c cs ih =>
    intro s h
    rw [saReceiveBytes_cons]
    exact ih _ (framerOK_step c s h)

/-- What one framer call does to the receive buffer. -/
theorem framer_rbuf_step (c : Nat) (s : SAState) :
    (saReceiveFramer c s).sa_rbuf =
      if s.state = .S_WAITRESP then s.sa_rbuf.set 0 c
      else if s.state = .S_WAITLEN then s.sa_rbuf.set 1 c
      else if s.state = .S_DATA then wr s.sa_rbuf (toI32 (2 + s.dlen)) c
      else s.sa_rbuf := by
  cases hst : s.state with
  | S_WAITPRE1 =>
    unfold saReceiveFramer; simp only [hst, reduceCtorEq, if_false]; split_ifs <;> rfl
  | S_WAITPRE2 =>
    unfold saReceiveFramer; simp only [hst, reduceCtorEq, if_false]; split_ifs <;> rfl
  | S_WAITRESP => unfold saReceiveFramer; simp only [hst, if_true]; rfl
  | S_WAITLEN =>
    unfold saReceiveFramer; simp only [hst, reduceCtorEq, if_false, if_true]; split_ifs <;> rfl
  | S_DATA =>
    unfold saReceiveFramer; simp only [hst, reduceCtorEq, if_false, if_true]; split_ifs <;> rfl
  | S_WAITCRC =>
    simp only [reduceCtorEq, if_false]
    by_cases hc : CRC8 s.sa_rbuf (toI32 (2 + s.len)) = c
    · rw [framer_crc_match s c hst hc]
      exact (saProcessResponse_frame _ _ s).2.2.2.2.1
    · rw [framer_crc_mismatch s c hst hc]

/-- Under the framer bounds a call writes at most one byte of the receive
buffer, at an index of at most 10. -/
theorem framer_write_index (c : Nat) (s : SAState) (h : framerOK s) :
    ∃ i : Nat, i ≤ 10 ∧ ((saReceiveFramer c s).sa_rbuf = s.sa_rbuf.set i c
      ∨ (saReceiveFramer c s).sa_rbuf = s.sa_rbuf) := by
  rw [framer_rbuf_step]
  by_cases h1 : s.state = .S_WAITRESP
  · exact ⟨0, by omega, Or.inl (by rw [if_pos h1])⟩
  · by_cases h2 : s.state = .S_WAITLEN
    · exact ⟨1, by omega, Or.inl (by rw [if_neg h1, if_pos h2])⟩
    · by_cases h3 : s.state = .S_DATA
      · obtain ⟨a1, a2, a3, a4⟩ := h.1 h3
        unfold SA_MAX_RCVLEN at a2
        refine ⟨(2 + s.dlen).toNat, by omega, Or.inl ?_⟩
        rw [if_neg h1, if_neg h2, if_pos h3, toI32_small _ (by omega) (by omega)]
        unfold wr
        rw [if_pos (by omega)]
      · exact ⟨0, by omega, Or.inr (by rw [if_neg h1, if_neg h2, if_neg h3])⟩

theorem framer_rbuf_run (bytes : List Nat) : ∀ s : SAState, framerOK s →
    (saReceiveBytes bytes s).sa_rbuf.length = s.sa_rbuf.length
    ∧ (saReceiveBytes bytes s).sa_rbuf.drop 11 = s.sa_rbuf.drop 11 := by
  induction bytes with
  | nil => intro s _; rw [saReceiveBytes_nil]; exact ⟨rfl, rfl⟩
  | cons c cs ih =>
    intro s h
    rw [saReceiveBytes_cons]
    obtain ⟨e1, e2⟩ := ih _ (framerOK_step c s h)
    obtain ⟨i, hi, hw⟩ := framer_write_index c s h
    rw [e1, e2]
    rcases hw with hw | hw
    · rw [hw]
      exact ⟨List.length_set _ _ _, List.drop_set_of_lt _ _ (by omega)⟩
    · rw [hw]
      exact ⟨rfl, rfl⟩

/-- The bytes `CRC8(data, len)` reads are the first `len` ones. -/
theorem CRC8_reads (data : List Nat) (len : Int) (k : Nat) (h : (toI8 len).toNat ≤ k) :
    CRC8 data len = CRC8 (data.take k) len := by
  unfold CRC8
  apply List.foldl_ext
  intro a i hi
  rw [List.mem_range] at hi
  congr 1
  rw [List.getD_eq_getElem?_getD, List.getD_eq_getElem?_getD, List.getElem?_take_of_lt (by omega)]

/-- C22. In every framer state reached from `S_WAITPRE1` by any sequence of
input bytes: the stored length is at most 9 in `S_DATA` and `S_WAITCRC`; in
`S_DATA`, `1 <= len` and `0 <= dlen < len`.  Hence the write of the next call in
`S_DATA` is `sa_rbuf[2 + dlen]` with `2 + dlen <= 10`, every call writes at most
one byte of the buffer, at an index of at most 10, and the `CRC8` call in
`S_WAITCRC` has a length argument of at most 11 and depends on the first 11
bytes only.  The buffer keeps its size and the bytes from index 11
(`SA_MAX_RCVLEN`) on are never written. -/
theorem C22_receive_buffer_safety (bytes : List Nat) (s : SAState)
    (hs : s.state = .S_WAITPRE1) :
    (((saReceiveBytes bytes s).state = .S_DATA ∨ (saReceiveBytes bytes s).state = .S_WAITCRC) →
        0 ≤ (saReceiveBytes bytes s).len ∧ (saReceiveBytes bytes s).len ≤ 9)
    ∧ ((saReceiveBytes bytes s).state = .S_DATA →
        1 ≤ (saReceiveBytes bytes s).len
        ∧ 0 ≤ (saReceiveBytes bytes s).dlen
        ∧ (saReceiveBytes bytes s).dlen < (saReceiveBytes bytes s).len)
    ∧ ((saReceiveBytes bytes s).state = .S_DATA → ∀ c : Nat,
        (saReceiveFramer c (saReceiveBytes bytes s)).sa_rbuf
            = (saReceiveBytes bytes s).sa_rbuf.set (2 + (saReceiveBytes bytes s).dlen).toNat c
        ∧ 2 + (saReceiveBytes bytes s).dlen ≤ 10)
    ∧ (∀ c : Nat, ∃ i : Nat, i ≤ 10
        ∧ ((saReceiveFramer c (saReceiveBytes bytes s)).sa_rbuf
              = (saReceiveBytes bytes s).sa_rbuf.set i c
            ∨ (saReceiveFramer c (saReceiveBytes bytes s)).sa_rbuf
              = (saReceiveBytes bytes s).sa_rbuf))
    ∧ ((saReceiveBytes bytes s).state = .S_WAITCRC →
        toI8 (toI32 (2 + (saReceiveBytes bytes s).len)) = 2 + (saReceiveBytes bytes s).len
        ∧ 2 + (saReceiveBytes bytes s).len ≤ SA_MAX_RCVLEN
        ∧ CRC8 (saReceiveBytes bytes s).sa_rbuf (toI32 (2 + (saReceiveBytes bytes s).len))
            = CRC8 ((saReceiveBytes bytes s).sa_rbuf.take 11)
                (toI32 (2 + (saReceiveBytes bytes s).len)))
    ∧ (saReceiveBytes bytes s).sa_rbuf.length = s.sa_rbuf.length
    ∧ (saReceiveBytes bytes s).sa_rbuf.drop 11 = s.sa_rbuf.drop 11 := by
  have h0 : framerOK s := framerOK_of_idle s (by rw [hs]; exact ⟨by decide, by decide⟩)
  have h := framerOK_run bytes s h0
  obtain ⟨r1, r2⟩ := framer_rbuf_run bytes s h0
  obtain ⟨t, ht⟩ : ∃ t, t = saReceiveBytes bytes s := ⟨_, rfl⟩
  rw [← ht] at h r1 r2 ⊢
  obtain ⟨hd, hc⟩ := h
  unfold SA_MAX_RCVLEN at hd hc
  refine ⟨?_, ?_, ?_, fun c => framer_write_index c t ⟨hd, hc⟩, ?_, r1, r2⟩
  · rintro (e | e)
    · have := hd e; omega
    · have := hc e; omega
  · intro e
    have := hd e; omega
  · intro e c
    obtain ⟨a1, a2, a3, a4⟩ := hd e
    refine ⟨?_, by omega⟩
    rw [framer_rbuf_step, if_neg (by rw [e]; decide), if_neg (by rw [e]; decide), if_pos e,
      toI32_small _ (by omega) (by omega)]
    unfold wr
    rw [if_pos (by omega)]
  · intro e
    obtain ⟨a1, a2⟩ := hc e
    have e1 : toI8 (toI32 (2 + t.len)) = 2 + t.len := by
      rw [toI32_small _ (by omega) (by omega), toI8_small _ (by omega) (by omega)]
    refine ⟨e1, by unfold SA_MAX_RCVLEN; omega, ?_⟩
    apply CRC8_reads
    rw [e1]
    omega

set_option maxRecDepth 100000 in
/-- C22 at a concrete input: after the header of a frame that announces the
longest payload, 9 bytes, and three payload bytes, the framer is in `S_DATA`
with `len = 9` and `dlen = 3`, and the next byte goes to `sa_rbuf[5]`. -/
theorem C22_receive_buffer_safety_witness :
    saInitial.state = .S_WAITPRE1
    ∧ (saReceiveBytes [0xAA, 0x55, 0x01, 0x09, 1, 2, 3] saInitial).state = .S_DATA
    ∧ (saReceiveBytes [0xAA, 0x55, 0x01, 0x09, 1, 2, 3] saInitial).len = 9
    ∧ (saReceiveBytes [0xAA, 0x55, 0x01, 0x09, 1, 2, 3] saInitial).dlen = 3
    ∧ (saReceiveBytes [0xAA, 0x55, 0x01, 0x09, 1, 2, 3] saInitial).dlen
        < (saReceiveBytes [0xAA, 0x55, 0x01, 0x09, 1, 2, 3] saInitial).len
    ∧ 2 + (saReceiveBytes [0xAA, 0x55, 0x01, 0x09, 1, 2, 3] saInitial).dlen ≤ 10
    ∧ (saReceiveBytes [0xAA, 0x55, 0x01, 0x09, 1, 2, 3] saInitial).sa_rbuf.length = 15 :=
  ⟨rfl, by decide, by decide, by decide,
   ((C22_receive_buffer_safety [0xAA, 0x55, 0x01, 0x09, 1, 2, 3] saInitial rfl).2.1
      (by decide)).2.2,
   ((C22_receive_buffer_safety [0xAA, 0x55, 0x01, 0x09, 1, 2, 3] saInitial rfl).2.2.1
      (by decide) 0).2,
   ((C22_receive_buffer_safety [0xAA, 0x55, 0x01, 0x09, 1, 2, 3] saInitial
      rfl).2.2.2.2.2.1).trans (by decide)⟩

/-! ## One command outstanding at a time? -/

theorem saProcessResponse_txSide (buf : List Nat) (len : Int) (s : SAState) :
    txSide (saProcessResponse buf len s) = txSide s := by
  simp only [txSide, saProcessResponse, saGetSettingsCase, saSetFreqCase,
    smartAudioUpdateStatusString, saResolveOutstanding_eq]
  split_ifs <;> rfl

/-- The receive framer does not touch the sending side. -/
theorem saReceiveFramer_txSide (c : Nat) (s : SAState) :
    txSide (saReceiveFramer c s) = txSide s := by
  cases hst : s.state with
  | S_WAITPRE1 => unfold saReceiveFramer; simp only [hst]; split_ifs <;> rfl
  | S_WAITPRE2 => unfold saReceiveFramer; simp only [hst]; split_ifs <;> rfl
  | S_WAITRESP => unfold saReceiveFramer; simp only [hst]; rfl
  | S_WAITLEN => unfold saReceiveFramer; simp only [hst]; split_ifs <;> rfl
  | S_DATA => unfold saReceiveFramer; simp only [hst]; split_ifs <;> rfl
  | S_WAITCRC =>
    by_cases hc : CRC8 s.sa_rbuf (toI32 (2 + s.len)) = c
    · rw [framer_crc_match s c hst hc, ← saProcessResponse_txSide s.sa_rbuf (toI32 (s.len + 2)) s]
      rfl
    · rw [framer_crc_mismatch s c hst hc]
      rfl

theorem saReceiveBytes_txSide (bytes : List Nat) : ∀ s : SAState,
    txSide (saReceiveBytes bytes s) = txSide s := by
  induction bytes with
  | nil => intro s; rw [saReceiveBytes_nil]
  | cons c cs ih =>
    intro s
    rw [saReceiveBytes_cons, ih, saReceiveFramer_txSide]

theorem txSide_fields (a b : SAState) (h : txSide a = txSide b) :
    a.smartAudioSerialPort = b.smartAudioSerialPort
    ∧ a.initialSent = b.initialSent
    ∧ a.sa_osbuf = b.sa_osbuf ∧ a.sa_oslen = b.sa_oslen
    ∧ a.serialOut = b.serialOut ∧ a.sa_pktsent = b.sa_pktsent
    ∧ (∀ now, elapsed now a = elapsed now b)
    ∧ pending a = pending b
    ∧ saQueueEmpty a = saQueueEmpty b
    ∧ (queueOK b → queueOK a)
    ∧ (∀ k, cmdBufContents a k = cmdBufContents b k) := by
  simp only [txSide, Prod.mk.injEq] at h
  obtain ⟨h1, h2, h3, h4, h5, h6, h7, h8, h9, h10, h11, h12, h13, h14, h15⟩ := h
  refine ⟨h1, h2, h7, h8, h9, h10, ?_, ?_, ?_, ?_, ?_⟩
  · intro now; unfold elapsed; rw [h3]
  · unfold pending saQueueLength; rw [h4, h5, h6]
  · unfold saQueueEmpty; rw [h5, h6]
  · unfold queueOK; rw [h4, h5, h6]; exact id
  · intro k
    rcases k with _ | k
    · rfl
    · cases k <;> simp only [cmdBufContents, h11, h12, h13, h14, h15]

/-- A tick first runs the framer over the waiting bytes; the rest is the tick
without inbound bytes. -/
theorem tick_rx (now millis : Nat) (rx : List Nat) (s : SAState)
    (hport : s.smartAudioSerialPort = true) :
    smartAudioProcess now rx millis s
      = smartAudioProcess now [] millis (saReceiveBytes rx s) := by
  have hp := (txSide_fields _ _ (saReceiveBytes_txSide rx s)).1
  rw [hport] at hp
  unfold smartAudioProcess
  simp only [saReceiveBytes_nil, hp, hport, Bool.true_eq_false, if_false]

/-- Issuing a command transmits nothing and leaves the outstanding slot alone:
`saQueueCmd` and the encoders built on it only write the queue (and their own
command buffer). -/
theorem encoders_only_enqueue (s : SAState) :
    (∀ (b : CmdBuf) (len : Int), (saQueueCmd b len s).serialOut = s.serialOut
        ∧ (saQueueCmd b len s).sa_outstanding = s.sa_outstanding)
    ∧ ((saGetSettings s).serialOut = s.serialOut
        ∧ (saGetSettings s).sa_outstanding = s.sa_outstanding)
    ∧ (∀ freq : Nat, (saSetFreq freq s).serialOut = s.serialOut
        ∧ (saSetFreq freq s).sa_outstanding = s.sa_outstanding)
    ∧ (∀ band chan : Nat, (smartAudioSetBandChan band chan s).serialOut = s.serialOut
        ∧ (smartAudioSetBandChan band chan s).sa_outstanding = s.sa_outstanding)
    ∧ (∀ mode : Int, (saSetMode mode s).serialOut = s.serialOut
        ∧ (saSetMode mode s).sa_outstanding = s.sa_outstanding)
    ∧ (∀ index : Nat, (smartAudioSetPowerByIndex index s).serialOut = s.serialOut
        ∧ (smartAudioSetPowerByIndex index s).sa_outstanding = s.sa_outstanding) := by
  have hq : ∀ (b : CmdBuf) (len : Int) (t : SAState),
      (saQueueCmd b len t).serialOut = t.serialOut
      ∧ (saQueueCmd b len t).sa_outstanding = t.sa_outstanding := by
    intro b len t
    unfold saQueueCmd
    split_ifs <;> exact ⟨rfl, rfl⟩
  refine ⟨fun b len => hq b len s, hq _ _ s, ?_, ?_, ?_, ?_⟩
  · intro freq
    unfold saSetFreq
    simp only []
    rw [(hq _ _ _).1, (hq _ _ _).2]
    exact ⟨rfl, rfl⟩
  · intro band chan
    unfold smartAudioSetBandChan
    simp only []
    rw [(hq _ _ _).1, (hq _ _ _).2]
    exact ⟨rfl, rfl⟩
  · intro mode
    unfold saSetMode
    simp only []
    rw [(hq _ _ _).1, (hq _ _ _).2]
    exact ⟨rfl, rfl⟩
  · intro index
    unfold smartAudioSetPowerByIndex
    by_cases hv : s.sa_vers = 0
    · rw [if_pos hv]; exact ⟨rfl, rfl⟩
    · rw [if_neg hv]
      by_cases hi : index > 3
      · rw [if_pos hi]; exact ⟨rfl, rfl⟩
      · rw [if_neg hi]
        simp only []
        rw [(hq _ _ _).1, (hq _ _ _).2]
        exact ⟨rfl, rfl⟩

/-- C21, amended. Issuing a command never transmits: the encoders only enqueue,
so a command issued while another is outstanding is held in the queue.  In a
tick after the first one, with `r` the state after the tick's receive
processing: when a command is outstanding and
`now - sa_lastTransmission > 120`, the stored frame is retransmitted and every
queued command stays in the queue; in every other tick with a non-empty queue
the oldest queued command is dequeued and transmitted, whether
`sa_outstanding` is `SA_CMD_NONE` or a command sent at most 120 ms before is
still awaiting its response, and its code and frame replace the contents of the
outstanding slot; with an empty queue and a command outstanding for at most
120 ms nothing is transmitted, so a heartbeat only goes out when nothing is
outstanding. -/
theorem C21_queued_command_send (now millis : Nat) (rx : List Nat) (s : SAState)
    (hport : s.smartAudioSerialPort = true) (hinit : s.initialSent = true)
    (hq : queueOK s) (hos : s.sa_osbuf.length = 32) (hl : ∀ e ∈ pending s, e.len ≤ 32) :
    (∀ (b : CmdBuf) (len : Int), (saQueueCmd b len s).serialOut = s.serialOut
        ∧ (saQueueCmd b len s).sa_outstanding = s.sa_outstanding
        ∧ (saQueueFull s = false → pending (saQueueCmd b len s) = pending s ++ [⟨some b, len⟩]))
    ∧ ((saReceiveBytes rx s).sa_outstanding ≠ SA_CMD_NONE →
        elapsed now s > SMARTAUDIO_CMD_TIMEOUT →
          (smartAudioProcess now rx millis s).serialOut
              = s.serialOut ++ wireBytes s.sa_osbuf s.sa_oslen
          ∧ pending (smartAudioProcess now rx millis s) = pending s
          ∧ (smartAudioProcess now rx millis s).sa_outstanding
              = (saReceiveBytes rx s).sa_outstanding)
    ∧ (¬ ((saReceiveBytes rx s).sa_outstanding ≠ SA_CMD_NONE
          ∧ elapsed now s > SMARTAUDIO_CMD_TIMEOUT) →
        ∀ (e : saCmdQueue_t) (rest : List saCmdQueue_t), pending s = e :: rest →
          (smartAudioProcess now rx millis s).serialOut
              = s.serialOut ++ wireBytes (cmdBufContents s e.buf) e.len
          ∧ pending (smartAudioProcess now rx millis s) = rest
          ∧ (smartAudioProcess now rx millis s).sa_outstanding
              = ((cmdBufContents s e.buf).getD 2 0 >>> 1) % 256
          ∧ wireBytes (smartAudioProcess now rx millis s).sa_osbuf
                (smartAudioProcess now rx millis s).sa_oslen
              = wireBytes (cmdBufContents s e.buf) e.len)
    ∧ ((saReceiveBytes rx s).sa_outstanding ≠ SA_CMD_NONE →
        elapsed now s ≤ SMARTAUDIO_CMD_TIMEOUT → pending s = [] →
          (smartAudioProcess now rx millis s).serialOut = s.serialOut
          ∧ pending (smartAudioProcess now rx millis s) = []
          ∧ (smartAudioProcess now rx millis s).sa_outstanding
              = (saReceiveBytes rx s).sa_outstanding) := by
  obtain ⟨r, hr⟩ : ∃ r, r = saReceiveBytes rx s := ⟨_, rfl⟩
  have ht : txSide r = txSide s := by rw [hr]; exact saReceiveBytes_txSide rx s
  obtain ⟨f1, f2, f3, f4, f5, -, f7, f8, f9, f10, f11⟩ := txSide_fields r s ht
  obtain ⟨-, -, k3, -, -, -, -, k8, k9, k10, k11⟩ := saAutobaud_keeps r
  obtain ⟨q1, -, q3⟩ := saAutobaud_queue r
  obtain ⟨c1, c2, c3, c4⟩ := queue_count s hq
  have e0 : smartAudioProcess now rx millis s =
      if r.sa_outstanding ≠ SA_CMD_NONE ∧ elapsed now s > SMARTAUDIO_CMD_TIMEOUT then
        saResendCmd millis (saAutobaud r)
      else if saQueueEmpty s = false then saSendQueue millis (saAutobaud r)
      else if elapsed now s ≥ 1000 then saSendQueue millis (saGetSettings (saAutobaud r))
      else saAutobaud r := by
    rw [tick_rx now millis rx s hport, ← hr,
      tick_post now millis r (by rw [f1, hport]) (by rw [f2, hinit]), f7 now, f9]
  rw [← hr]
  refine ⟨?_, ?_, ?_, ?_⟩
  · intro b len
    refine ⟨((encoders_only_enqueue s).1 b len).1, ((encoders_only_enqueue s).1 b len).2, ?_⟩
    intro hf
    exact (pending_push b len s hq hf).1
  · intro h1 h2
    rw [e0, if_pos ⟨h1, h2⟩, saResendCmd_eq]
    refine ⟨?_, ?_, k3⟩
    · show (saAutobaud r).serialOut ++ wireBytes (saAutobaud r).sa_osbuf (saAutobaud r).sa_oslen
        = _
      rw [k8, k9, k10, f3, f4, f5]
    · rw [← f8, ← q1]
      rfl
  · intro h e rest he
    have hne : saQueueEmpty s = false := by
      cases hx : saQueueEmpty s with
      | false => rfl
      | true =>
        have := c3.mp hx
        rw [← c4, he] at this
        simp at this
    obtain ⟨s1, s2, -, -, -, s6, -, s8, -⟩ :=
      saSendQueue_step millis (saAutobaud r) e rest (q3 (f10 hq)) (by rw [k8, f3]; exact hos)
        (by rw [q1, f8]; exact he) (hl e (by rw [he]; exact List.mem_cons_self _ _))
    rw [e0, if_neg h, if_pos hne, s1, s2, s6, s8, k10, k11, f5, f11]
    exact ⟨rfl, rfl, rfl, rfl⟩
  · intro h1 h2 he
    have hemp : saQueueEmpty s = true := by
      apply c3.mpr
      rw [← c4, he]; rfl
    have hno : ¬ (r.sa_outstanding ≠ SA_CMD_NONE ∧ elapsed now s > SMARTAUDIO_CMD_TIMEOUT) := by
      intro hc; omega
    rw [e0, if_neg hno, if_neg (by rw [hemp]; decide),
      if_neg (by unfold SMARTAUDIO_CMD_TIMEOUT at h2; omega)]
    exact ⟨by rw [k10, f5], by rw [q1, f8, he], k3⟩

set_option maxRecDepth 1000000 in
/-- C21 at a concrete input: the response to the GetSettings of the first tick
is waiting when the tick at t = 10 runs; it resolves the outstanding command,
and the tick then sends the queued pit-frequency query. -/
theorem C21_queued_command_send_witness :
    (saReceiveBytes respGetSettings afterFirstTick).sa_outstanding = SA_CMD_NONE
    ∧ (smartAudioProcess 10 respGetSettings 10 afterFirstTick).serialOut
        = [0x00, 0xAA, 0x55, 0x03, 0x00, 0x9F, 0x00,
           0x00, 0xAA, 0x55, 0x09, 0x02, 0x40, 0x00, CRC8 [0xAA, 0x55, 0x09, 0x02, 0x40, 0x00] 6,
           0x00]
    ∧ pending (smartAudioProcess 10 respGetSettings 10 afterFirstTick) = []
    ∧ (smartAudioProcess 10 respGetSettings 10 afterFirstTick).sa_outstanding = SA_CMD_SET_FREQ :=
  ⟨by decide,
   (((C21_queued_command_send 10 10 respGetSettings afterFirstTick (by decide) (by decide)
      (by decide) (by decide) (by decide)).2.2.1 (by decide)
      ⟨some .setFreq, 7⟩ [] (by decide)).1).trans (by decide),
   ((C21_queued_command_send 10 10 respGetSettings afterFirstTick (by decide) (by decide)
      (by decide) (by decide) (by decide)).2.2.1 (by decide)
      ⟨some .setFreq, 7⟩ [] (by decide)).2.1,
   (((C21_queued_command_send 10 10 respGetSettings afterFirstTick (by decide) (by decide)
      (by decide) (by decide) (by decide)).2.2.1 (by decide)
      ⟨some .setFreq, 7⟩ [] (by decide)).2.2.1).trans (by decide)⟩

set_option maxRecDepth 1000000 in
/-- C21, the claim as written fails: after the first tick GetSettings is
outstanding and the pit-frequency query is queued.  The tick at t = 20, with no
response received, dequeues and transmits the queued query although
`sa_outstanding` is `SA_CMD_GET_SETTINGS`, not `SA_CMD_NONE`, immediately before
the send; the query takes over the outstanding slot, and the GetSettings
response arriving in the tick at t = 80 is counted as out of order. -/
theorem C21_counterexample :
    afterFirstTick.smartAudioSerialPort = true
    ∧ afterFirstTick.initialSent = true
    ∧ pending afterFirstTick = [⟨some .setFreq, 7⟩]
    ∧ (saAutobaud (saReceiveBytes [] afterFirstTick)).sa_outstanding = SA_CMD_GET_SETTINGS
    ∧ SA_CMD_GET_SETTINGS ≠ SA_CMD_NONE
    ∧ (smartAudioProcess 20 [] 20 afterFirstTick).serialOut
        = afterFirstTick.serialOut
            ++ [0x00, 0xAA, 0x55, 0x09, 0x02, 0x40, 0x00,
                CRC8 [0xAA, 0x55, 0x09, 0x02, 0x40, 0x00] 6, 0x00]
    ∧ pending (smartAudioProcess 20 [] 20 afterFirstTick) = []
    ∧ (smartAudioProcess 20 [] 20 afterFirstTick).sa_outstanding = SA_CMD_SET_FREQ
    ∧ (smartAudioProcess 20 [] 20 afterFirstTick).saerr_oooresp = 0
    ∧ (runTicks [(20, [], 20), (80, respGetSettings, 80)] afterFirstTick).saerr_oooresp = 1
    ∧ (runTicks [(20, [], 20), (80, respGetSettings, 80)] afterFirstTick).sa_outstanding
        = SA_CMD_SET_FREQ := by
  decide

end SmartAudio
